import Mathlib

/-! # gfx-samples: selection and negotiation routines of the Vulkan bootstrap

A shallow embedding of the helper classes under `utils/` (`Memory`, `Swapchain`,
`Buffer`, `QueueFamilies`, `PhysicalDevice`, `Extensions`) and theorems about them.

Conventions of the embedding.

* Driver queries are inputs: a function that asks the driver for a list (memory types,
  queue families, physical devices, extensions) takes that list as an argument; the
  element count the driver reports is the length of the list.
* `uint32_t` values and flag masks are `Nat`; `int32_t` values are `Int`.  The two
  conversions the code performs (`size_t` to `int32_t` when a loop counter is stored,
  `int32_t` to `uint32_t` when an index is handed to the driver) are explicit:
  `toInt32` and `toUInt32`.
* The build is the one without `NDEBUG`: `assert` aborts and `THROW_IF_FAILED` checks the
  status.  An aborted call is `Except.error`.
* Out-parameters and object state are threaded explicitly: a function that writes through
  a pointer returns the new value next to its result.
-/

set_option autoImplicit false

namespace GfxSamples

/-! ## Machine integers -/

/-- Conversion of an unsigned loop counter to `int32_t` (two's complement wrap). -/
def toInt32 (n : Nat) : Int := ((n : Int) + 2147483648) % 4294967296 - 2147483648

/-- Conversion `static_cast<uint32_t>` of an `int32_t`. -/
def toUInt32 (z : Int) : Nat := (z % 4294967296).toNat

/-- Ways in which a call does not return normally. -/
inductive Fatal where
  /-- An `assert(...)` whose condition is false; the payload is the asserted expression. -/
  | assertion (expr : String)
  /-- The `throw` of `THROW_IF_FAILED`, or a thrown `std::runtime_error`. -/
  | thrown (what : String)
  /-- An access the language leaves undefined (element 0 of an empty vector). -/
  | undefinedAccess (expr : String)
  deriving DecidableEq, Repr

deriving instance DecidableEq for Except

/-! ## Constants of `vulkan_core.h` used by the code -/

/-- Value of `VK_SUCCESS`. -/
def VK_SUCCESS : Int := 0
/-- Value of `VK_QUEUE_GRAPHICS_BIT`. -/
def VK_QUEUE_GRAPHICS_BIT : Nat := 0x1
/-- Value of `VK_MEMORY_PROPERTY_DEVICE_LOCAL_BIT`. -/
def VK_MEMORY_PROPERTY_DEVICE_LOCAL_BIT : Nat := 0x1
/-- Value of `VK_MEMORY_PROPERTY_HOST_VISIBLE_BIT`. -/
def VK_MEMORY_PROPERTY_HOST_VISIBLE_BIT : Nat := 0x2
/-- Value of `VK_MEMORY_PROPERTY_HOST_COHERENT_BIT`. -/
def VK_MEMORY_PROPERTY_HOST_COHERENT_BIT : Nat := 0x4
/-- Value of `VK_IMAGE_USAGE_TRANSFER_DST_BIT`. -/
def VK_IMAGE_USAGE_TRANSFER_DST_BIT : Nat := 0x2
/-- Value of `VK_IMAGE_USAGE_COLOR_ATTACHMENT_BIT`. -/
def VK_IMAGE_USAGE_COLOR_ATTACHMENT_BIT : Nat := 0x10
/-- Value of `VK_FORMAT_B8G8R8A8_SRGB`. -/
def VK_FORMAT_B8G8R8A8_SRGB : Nat := 50
/-- Value of `VK_SURFACE_TRANSFORM_IDENTITY_BIT_KHR`. -/
def VK_SURFACE_TRANSFORM_IDENTITY_BIT_KHR : Nat := 0x1
/-- Value of `VK_COMPOSITE_ALPHA_INHERIT_BIT_KHR`. -/
def VK_COMPOSITE_ALPHA_INHERIT_BIT_KHR : Nat := 0x8
/-- Value of `VK_PRESENT_MODE_FIFO_KHR`. -/
def VK_PRESENT_MODE_FIFO_KHR : Nat := 2

/-- Mirror of `VkSharingMode`. -/
inductive VkSharingMode where
  | VK_SHARING_MODE_EXCLUSIVE
  | VK_SHARING_MODE_CONCURRENT
  deriving DecidableEq, Repr

/-! ## `memory.hpp` -/

/-- Mirror of `VkMemoryType`. -/
structure VkMemoryType where
  propertyFlags : Nat
  heapIndex : Nat
  deriving DecidableEq, Repr

/-- Mirror of `VkMemoryRequirements`. -/
structure VkMemoryRequirements where
  size : Nat
  alignment : Nat
  memoryTypeBits : Nat
  deriving DecidableEq, Repr

namespace Memory

/-- The `for` loop of `Memory::select` (memory.hpp lines 18-33), from counter `i` on:
the first argument holds `memoryTypes[i], memoryTypes[i+1], ...` up to `memoryTypeCount`,
the last one the current value of `index`. -/
def selectLoop (memoryReqs : VkMemoryRequirements) (flags : Nat) :
    List VkMemoryType → Nat → Int → Int
  | [], _, index => index
  | memoryType :: rest, i, index =>
    if memoryType.propertyFlags &&& flags ≠ flags then
      selectLoop memoryReqs flags rest (i + 1) index
    else if memoryType.propertyFlags &&& memoryReqs.memoryTypeBits
        = memoryReqs.memoryTypeBits then
      selectLoop memoryReqs flags rest (i + 1) (toInt32 i)
    else
      selectLoop memoryReqs flags rest (i + 1) index

/-- Embedding of `Memory::select`.  `memoryTypes` is what
`vkGetPhysicalDeviceMemoryProperties` reports for the physical device (the first
`memoryTypeCount` entries of `memoryTypes`). -/
def select (memoryTypes : List VkMemoryType) (memoryReqs : VkMemoryRequirements)
    (flags : Nat) : Except Fatal Nat :=
  let index := selectLoop memoryReqs flags memoryTypes 0 (-1)
  if index ≠ -1 then .ok (toUInt32 index) else .error (.assertion "index != -1")

/-- What the documentation of `VkMemoryRequirements` and the contract of memory-type
selection call a qualifying type: index `i` is reported, its property flags contain the
requested `flags`, and bit `i` of `memoryTypeBits` is set. -/
def qualifies (memoryTypes : List VkMemoryType) (memoryReqs : VkMemoryRequirements)
    (flags : Nat) (i : Nat) : Bool :=
  match memoryTypes[i]? with
  | some memoryType =>
    memoryType.propertyFlags &&& flags == flags && memoryReqs.memoryTypeBits.testBit i
  | none => false

end Memory

/-! ## `extensions.hpp` -/

/-- A `const char*` argument: the address it holds and the characters stored there. -/
structure CString where
  addr : Nat
  chars : String
  deriving DecidableEq, Repr

/-- Insertion into a `std::set<std::string>`: an element already present is not inserted
again.  Only `find` is ever called on this set, so the iteration order is not modelled. -/
def stringSetInsert (name : String) (set : List String) : List String :=
  if name ∈ set then set else name :: set

/-- Insertion into a `std::set<const char*>`.  The keys are pointers, compared by
address: the list is kept in ascending address order and an address already present is
not inserted again. -/
def pointerSetInsert (p : CString) : List CString → List CString
  | [] => [p]
  | q :: rest =>
    if p.addr < q.addr then p :: q :: rest
    else if p.addr = q.addr then q :: rest
    else q :: pointerSetInsert p rest

/-- State of an `Extensions` object: `m_available` (a set of strings) and `m_enabled`
(a set of pointers). -/
structure Extensions where
  m_available : List String
  m_enabled : List CString
  deriving DecidableEq, Repr

namespace Extensions

/-- Both constructors of `Extensions`: `supported` holds the `extensionName` of every
entry the driver enumerates (instance extensions, or the extensions of a physical
device); each one is inserted into `m_available`, and `m_enabled` starts empty. -/
def create (supported : List String) : Extensions :=
  { m_available := supported.foldl (fun set ext => stringSetInsert ext set) []
    m_enabled := [] }

/-- Embedding of `Extensions::available`.  `m_available.find(extensionName)` converts the
pointer to a `std::string`, so only the characters of the argument are read. -/
def available (e : Extensions) (extensionName : String) : Bool :=
  decide (extensionName ∈ e.m_available)

/-- Embedding of `Extensions::enabled`.  `m_enabled.find(extensionName)` compares
pointers, so only the address of the argument is read. -/
def enabled (e : Extensions) (extensionName : CString) : Bool :=
  e.m_enabled.any (fun q => q.addr == extensionName.addr)

/-- Embedding of `Extensions::add(const char*, bool)`.  The first component is the state
of the object after the call (also when the call throws), the second one the returned
value or the thrown exception. -/
def add (e : Extensions) (extensionName : CString) (throwIfNotSupported : Bool) :
    Extensions × Except Fatal Bool :=
  if !e.available extensionName.chars then
    if throwIfNotSupported then
      (e, .error (.thrown "Failed to load required extension"))
    else
      (e, .ok false)
  else
    ({ e with m_enabled := pointerSetInsert extensionName e.m_enabled }, .ok true)

/-- The `for` loop of the array overload of `Extensions::add`, from counter `i` on. -/
def addArrayLoop (throwIfNotSupported : Bool) :
    List CString → Nat → Extensions → List Bool → Extensions × Except Fatal (List Bool)
  | [], _, e, results => (e, .ok results)
  | extensionName :: rest, i, e, results =>
    match e.add extensionName throwIfNotSupported with
    | (e1, .ok r) => addArrayLoop throwIfNotSupported rest (i + 1) e1 (results.set i r)
    | (e1, .error err) => (e1, .error err)

/-- Embedding of `Extensions::add(const char**, size_t, bool)`; `extensionNames` holds the
`count` pointers of the array. -/
def addArray (e : Extensions) (extensionNames : List CString) (throwIfNotSupported : Bool) :
    Extensions × Except Fatal (List Bool) :=
  addArrayLoop throwIfNotSupported extensionNames 0 e
    (List.replicate extensionNames.length false)

/-- Embedding of `Extensions::get`: the elements of `m_enabled` in iteration order. -/
def get (e : Extensions) : List CString := e.m_enabled

end Extensions

/-! ## `queue_families.hpp` -/

/-- What the driver and the platform layer answer for one queue family index `i` of a
device: `queueFamilyProperties[i].queueFlags`, the result of
`glfwGetPhysicalDevicePresentationSupport(instance, pd, i)` and the value that
`vkGetPhysicalDeviceSurfaceSupportKHR(pd, i, surface, _)` stores. -/
structure QueueFamilyAnswers where
  queueFlags : Nat
  presentationSupport : Bool
  surfaceSupport : Bool
  deriving DecidableEq, Repr

/-- Mirror of class `QueueFamilies`; `-1` is the value of an index that is not resolved. -/
structure QueueFamilies where
  graphics : Int
  present : Int
  deriving DecidableEq, Repr

namespace QueueFamilies

/-- Embedding of `QueueFamilies::valid`. -/
def valid (f : QueueFamilies) : Bool := f.graphics != -1 && f.present != -1

/-- Embedding of `QueueFamilies::exclusive`. -/
def exclusive (f : QueueFamilies) : Bool := f.graphics == f.present

/-- The `for` loop of `QueueFamilies::select` (queue_families.hpp lines 28-41), from
counter `i` on. -/
def selectLoop : List QueueFamilyAnswers → Nat → QueueFamilies → QueueFamilies
  | [], _, families => families
  | q :: rest, i, families =>
    let families1 :=
      if q.queueFlags &&& VK_QUEUE_GRAPHICS_BIT = VK_QUEUE_GRAPHICS_BIT then
        { families with graphics := toInt32 i }
      else families
    let families2 :=
      if q.presentationSupport && q.surfaceSupport then
        { families1 with present := toInt32 i }
      else families1
    selectLoop rest (i + 1) families2

/-- Embedding of `QueueFamilies::select`; entry `i` of the argument holds the answers for
queue family `i` of the device, and `count` is the length of the list. -/
def select (queueFamilies : List QueueFamilyAnswers) : QueueFamilies :=
  selectLoop queueFamilies 0 { graphics := -1, present := -1 }

end QueueFamilies

/-! ## `physical_device.hpp` -/

/-- A physical device as the selection sees it: its (non-null) handle, the answers for
its queue families and the names of its device extensions. -/
structure PhysicalDeviceInfo where
  handle : Nat
  queueFamilies : List QueueFamilyAnswers
  deviceExtensions : List String
  deriving DecidableEq, Repr

namespace PhysicalDevice

/-- Eligibility of a device as `PhysicalDevice::select` tests it: the family pair is
valid and `VK_KHR_swapchain` is available. -/
def eligible (pd : PhysicalDeviceInfo) : Bool :=
  (QueueFamilies.select pd.queueFamilies).valid &&
    (Extensions.create pd.deviceExtensions).available "VK_KHR_swapchain"

/-- The range-`for` loop of `PhysicalDevice::select` (physical_device.hpp lines 20-33).
The second argument is the local `physicalDevice` (`none` is `VK_NULL_HANDLE`), the third
one the value `*outQueueFamilies` holds. -/
def selectLoop : List PhysicalDeviceInfo → Option PhysicalDeviceInfo → QueueFamilies →
    Option PhysicalDeviceInfo × QueueFamilies
  | [], physicalDevice, outQueueFamilies => (physicalDevice, outQueueFamilies)
  | pd :: rest, physicalDevice, outQueueFamilies =>
    let families := QueueFamilies.select pd.queueFamilies
    if !families.valid then
      selectLoop rest physicalDevice outQueueFamilies
    else
      let extensions := Extensions.create pd.deviceExtensions
      if !extensions.available "VK_KHR_swapchain" then
        selectLoop rest physicalDevice outQueueFamilies
      else
        selectLoop rest (some pd) families

/-- Embedding of `PhysicalDevice::select`.  `physicalDevices` is the enumeration the
driver returns, `outQueueFamilies` the value the caller's object holds before the call.
The first component is the returned device (or the failed assertion), the second one the
value of the caller's object afterwards. -/
def select (physicalDevices : List PhysicalDeviceInfo) (outQueueFamilies : QueueFamilies) :
    Except Fatal PhysicalDeviceInfo × QueueFamilies :=
  match selectLoop physicalDevices none outQueueFamilies with
  | (some physicalDevice, out) => (.ok physicalDevice, out)
  | (none, out) => (.error (.assertion "physicalDevice != nullptr"), out)

end PhysicalDevice

/-! ## `swapchain.hpp` -/

/-- Mirror of `VkExtent2D`. -/
structure VkExtent2D where
  width : Nat
  height : Nat
  deriving DecidableEq, Repr

/-- The members of `VkSurfaceCapabilitiesKHR` that the code reads. -/
structure VkSurfaceCapabilitiesKHR where
  minImageCount : Nat
  maxImageCount : Nat
  minImageExtent : VkExtent2D
  maxImageExtent : VkExtent2D
  supportedUsageFlags : Nat
  deriving DecidableEq, Repr

/-- Mirror of `VkSurfaceFormatKHR`. -/
structure VkSurfaceFormatKHR where
  format : Nat
  colorSpace : Nat
  deriving DecidableEq, Repr

/-- The members of `VkSwapchainCreateInfoKHR` that `Swapchain::create` fills in.
`pQueueFamilyIndices` is `none` for `nullptr`, otherwise the array it points to. -/
structure VkSwapchainCreateInfoKHR where
  flags : Nat
  surface : Nat
  minImageCount : Nat
  imageFormat : Nat
  imageColorSpace : Nat
  imageExtent : VkExtent2D
  imageArrayLayers : Nat
  imageUsage : Nat
  imageSharingMode : VkSharingMode
  queueFamilyIndexCount : Nat
  pQueueFamilyIndices : Option (List Nat)
  preTransform : Nat
  compositeAlpha : Nat
  presentMode : Nat
  clipped : Bool
  oldSwapchain : Nat
  deriving DecidableEq, Repr

/-- The function `std::clamp(v, lo, hi)` on unsigned values: `(v < lo) ? lo : (hi < v) ? hi : v`.
The standard leaves the call undefined when `hi < lo`; the definition then follows the
usual implementation. -/
def clamp (v lo hi : Nat) : Nat :=
  if v < lo then lo else if hi < v then hi else v

/-- Data members of class `Swapchain`; handles are numbers, `0` is the null handle. -/
structure Swapchain where
  surface : Nat
  swapchain : Nat
  capabilities : VkSurfaceCapabilitiesKHR
  extent : VkExtent2D
  imageCount : Nat
  format : Nat
  colorSpace : Nat
  m_images : List Nat
  m_imageViews : List Nat
  deriving DecidableEq, Repr

/-- Answers of the driver to the calls that `Swapchain::create` issues: the status and
the record of `vkGetPhysicalDeviceSurfaceCapabilitiesKHR`, the statuses of the two calls
of `vkGetPhysicalDeviceSurfaceFormatsKHR` and the list of the second one, the status and
the handle of `vkCreateSwapchainKHR`. -/
structure SwapchainDriver where
  capabilitiesResult : Int
  capabilities : VkSurfaceCapabilitiesKHR
  formatCountResult : Int
  formatsResult : Int
  surfaceFormats : List VkSurfaceFormatKHR
  createResult : Int
  createdSwapchain : Nat
  deriving DecidableEq, Repr

namespace Swapchain

/-- Embedding of `Swapchain::supported`. -/
def supported (s : Swapchain) : Bool :=
  if s.capabilities.supportedUsageFlags &&& VK_IMAGE_USAGE_COLOR_ATTACHMENT_BIT
      ≠ VK_IMAGE_USAGE_COLOR_ATTACHMENT_BIT then
    false
  else if s.capabilities.supportedUsageFlags &&& VK_IMAGE_USAGE_TRANSFER_DST_BIT
      ≠ VK_IMAGE_USAGE_TRANSFER_DST_BIT then
    false
  else
    true

/-- Embedding of `Swapchain::selectExtent`. -/
def selectExtent (s : Swapchain) : Swapchain :=
  { s with
    extent :=
      { width := clamp 800 s.capabilities.minImageExtent.width
          s.capabilities.maxImageExtent.width
        height := clamp 800 s.capabilities.minImageExtent.height
          s.capabilities.maxImageExtent.height } }

/-- Embedding of `Swapchain::selectImageCount`. -/
def selectImageCount (s : Swapchain) : Swapchain :=
  { s with imageCount := clamp 2 s.capabilities.minImageCount s.capabilities.maxImageCount }

/-- The range-`for` loop of `Swapchain::selectFormat` (swapchain.hpp lines 208-216). -/
def selectFormatLoop : List VkSurfaceFormatKHR → Swapchain → Swapchain
  | [], s => s
  | f :: rest, s =>
    if f.format = VK_FORMAT_B8G8R8A8_SRGB then
      selectFormatLoop rest { s with format := f.format, colorSpace := f.colorSpace }
    else
      selectFormatLoop rest s

/-- Embedding of `Swapchain::selectFormat`.  The local `selectedFormat` is initialised
from `surfaceFormats[0]` and never read afterwards. -/
def selectFormat (driver : SwapchainDriver) (s : Swapchain) : Except Fatal Swapchain :=
  if driver.formatCountResult ≠ VK_SUCCESS then
    .error (.thrown "vkGetPhysicalDeviceSurfaceFormatsKHR")
  else if driver.formatsResult ≠ VK_SUCCESS then
    .error (.thrown "vkGetPhysicalDeviceSurfaceFormatsKHR")
  else
    match driver.surfaceFormats with
    | [] => .error (.undefinedAccess "surfaceFormats[0]")
    | _selectedFormat :: _ => .ok (selectFormatLoop driver.surfaceFormats s)

/-- The `VkSwapchainCreateInfoKHR` that `Swapchain::create` builds from the negotiated
members of `result` and the two family indices (swapchain.hpp lines 37-67). -/
def swapchainInfo (result : Swapchain) (surface : Nat) (graphicsFamily presentFamily : Int) :
    VkSwapchainCreateInfoKHR :=
  let families : List Nat := [toUInt32 presentFamily, toUInt32 graphicsFamily]
  let concurrent : Bool := presentFamily != graphicsFamily
  { flags := 0
    surface := surface
    minImageCount := result.imageCount
    imageFormat := result.format
    imageColorSpace := result.colorSpace
    imageExtent := result.extent
    imageArrayLayers := 1
    imageUsage := VK_IMAGE_USAGE_COLOR_ATTACHMENT_BIT ||| VK_IMAGE_USAGE_TRANSFER_DST_BIT
    preTransform := VK_SURFACE_TRANSFORM_IDENTITY_BIT_KHR
    compositeAlpha := VK_COMPOSITE_ALPHA_INHERIT_BIT_KHR
    presentMode := VK_PRESENT_MODE_FIFO_KHR
    clipped := false
    oldSwapchain := 0
    imageSharingMode :=
      if concurrent then .VK_SHARING_MODE_CONCURRENT else .VK_SHARING_MODE_EXCLUSIVE
    queueFamilyIndexCount := if concurrent then families.length else 0
    pQueueFamilyIndices := if concurrent then some families else none }

/-- The object that `return {}` yields: every scalar member zero, both vectors empty. -/
def empty : Swapchain :=
  { surface := 0, swapchain := 0
    capabilities :=
      { minImageCount := 0, maxImageCount := 0, minImageExtent := ⟨0, 0⟩
        maxImageExtent := ⟨0, 0⟩, supportedUsageFlags := 0 }
    extent := ⟨0, 0⟩, imageCount := 0, format := 0, colorSpace := 0
    m_images := [], m_imageViews := [] }

/-- One run of `Swapchain::create`: the argument of `vkCreateSwapchainKHR` when that call
was issued, and the returned object or the exception. -/
structure CreateRun where
  createCall : Option VkSwapchainCreateInfoKHR
  outcome : Except Fatal Swapchain
  deriving DecidableEq

/-- Embedding of `Swapchain::create`.  `uninit` stands for the local `result` right after
its declaration: its scalar members are not initialised, so they hold whatever `uninit`
holds; its two vectors are empty. -/
def create (driver : SwapchainDriver) (uninit : Swapchain) (surface : Nat)
    (graphicsFamily presentFamily : Int) : CreateRun :=
  let result0 : Swapchain := { uninit with surface := surface, m_images := [], m_imageViews := [] }
  if driver.capabilitiesResult ≠ VK_SUCCESS then
    { createCall := none
      outcome := .error (.thrown "vkGetPhysicalDeviceSurfaceCapabilitiesKHR") }
  else
    let result1 : Swapchain := { result0 with capabilities := driver.capabilities }
    if !result1.supported then
      { createCall := none, outcome := .ok empty }
    else
      match selectFormat driver (selectImageCount (selectExtent result1)) with
      | .error err => { createCall := none, outcome := .error err }
      | .ok result2 =>
        let info := swapchainInfo result2 surface graphicsFamily presentFamily
        if driver.createResult ≠ VK_SUCCESS then
          { createCall := some info, outcome := .error (.thrown "vkCreateSwapchainKHR") }
        else
          { createCall := some info
            outcome := .ok { result2 with swapchain := driver.createdSwapchain } }

end Swapchain

/-! ## `buffer.hpp` -/

/-- The members of `VkBufferCreateInfo` that `Buffer::createUploadBuffer` fills in. -/
structure VkBufferCreateInfo where
  flags : Nat
  size : Nat
  usage : Nat
  sharingMode : VkSharingMode
  queueFamilyIndexCount : Nat
  pQueueFamilyIndices : Option (List Nat)
  deriving DecidableEq, Repr

namespace Buffer

/-- The `VkBufferCreateInfo` that `Buffer::createUploadBuffer` builds and passes to
`vkCreateBuffer`, the first driver call of the function (buffer.hpp lines 25-45). -/
def bufferInfo (families : QueueFamilies) (sizeInBytes : Nat) (usage : Nat) :
    VkBufferCreateInfo :=
  let familyArr : List Nat := [toUInt32 families.present, toUInt32 families.graphics]
  let concurrent : Bool := families.present != families.graphics
  { flags := 0
    size := sizeInBytes
    usage := usage
    sharingMode :=
      if concurrent then .VK_SHARING_MODE_CONCURRENT else .VK_SHARING_MODE_EXCLUSIVE
    queueFamilyIndexCount := if concurrent then familyArr.length else 0
    pQueueFamilyIndices := if concurrent then some familyArr else none }

end Buffer

/-! ## Auxiliary functions for stating and proving properties -/

/-- A scan that keeps the (converted) counter of the last element satisfying `p`; every
index-selecting loop of the code is an instance of it. -/
def scanLast {α : Type} (p : α → Bool) : List α → Nat → Int → Int
  | [], _, index => index
  | x :: rest, i, index => scanLast p rest (i + 1) (if p x then toInt32 i else index)

/-- The test `Memory::select` applies to one memory type (memory.hpp lines 27 and 31). -/
def Memory.accepts (memoryReqs : VkMemoryRequirements) (flags : Nat)
    (memoryType : VkMemoryType) : Bool :=
  memoryType.propertyFlags &&& flags == flags &&
    memoryType.propertyFlags &&& memoryReqs.memoryTypeBits == memoryReqs.memoryTypeBits

/-- The test `QueueFamilies::select` applies for the graphics index (line 31). -/
def QueueFamilies.graphicsCapable (q : QueueFamilyAnswers) : Bool :=
  q.queueFlags &&& VK_QUEUE_GRAPHICS_BIT == VK_QUEUE_GRAPHICS_BIT

/-- The test `QueueFamilies::select` applies for the present index (line 39). -/
def QueueFamilies.presentCapable (q : QueueFamilyAnswers) : Bool :=
  q.presentationSupport && q.surfaceSupport

/-- The value `r` is `-1` when no element of `xs` satisfies `p`, and otherwise the
position of the last element of `xs` that satisfies `p`. -/
def IsLastMatch {α : Type} (p : α → Bool) (xs : List α) (r : Int) : Prop :=
  ((∀ x ∈ xs, p x = false) ∧ r = -1) ∨
  (∃ (j : Nat) (x : α), xs[j]? = some x ∧ p x = true ∧
    (∀ (k : Nat) (y : α), j < k → xs[k]? = some y → p y = false) ∧ r = (j : Int))

/-! ## Calls on a registry -/

/-- Embedding of `Extensions::addRequiredGLFW`; `glfwExtensions` holds the pointers that
`glfwGetRequiredInstanceExtensions` returns. -/
def Extensions.addRequiredGLFW (e : Extensions) (glfwExtensions : List CString) :
    Extensions × Except Fatal Bool :=
  match e.addArray glfwExtensions true with
  | (e1, .ok _) => (e1, .ok true)
  | (e1, .error err) => (e1, .error err)

/-- One call of a mutating member function of `Extensions`, with its arguments. -/
inductive ExtensionsCall where
  | add (extensionName : CString) (throwIfNotSupported : Bool)
  | addArray (extensionNames : List CString) (throwIfNotSupported : Bool)
  | addRequiredGLFW (glfwExtensions : List CString)
  deriving DecidableEq, Repr

/-- State of the registry after one call; a call that throws leaves the object in the
state it had reached when the exception left the function. -/
def Extensions.afterCall (e : Extensions) : ExtensionsCall → Extensions
  | .add extensionName throwIfNotSupported => (e.add extensionName throwIfNotSupported).1
  | .addArray extensionNames throwIfNotSupported =>
    (e.addArray extensionNames throwIfNotSupported).1
  | .addRequiredGLFW glfwExtensions => (e.addRequiredGLFW glfwExtensions).1

/-- State of the registry after a finite sequence of calls. -/
def Extensions.afterCalls (e : Extensions) (calls : List ExtensionsCall) : Extensions :=
  calls.foldl Extensions.afterCall e

/-! ## Format selection of `000_clear/main.cpp` -/

/-- The range-`for` loop of the inline format selection (000_clear/main.cpp lines
294-299), which assigns the local `selectedFormat`. -/
def Sample000Clear.selectFormatLoop :
    List VkSurfaceFormatKHR → VkSurfaceFormatKHR → VkSurfaceFormatKHR
  | [], selectedFormat => selectedFormat
  | format :: rest, selectedFormat =>
    if format.format = VK_FORMAT_B8G8R8A8_SRGB then
      Sample000Clear.selectFormatLoop rest format
    else
      Sample000Clear.selectFormatLoop rest selectedFormat

/-- The inline format selection of `main` in 000_clear/main.cpp (lines 288-299): the
value of `selectedFormat` that the create info is filled from. -/
def Sample000Clear.selectFormat (surfaceFormats : List VkSurfaceFormatKHR) :
    Except Fatal VkSurfaceFormatKHR :=
  match surfaceFormats with
  | [] => .error (.undefinedAccess "surfaceFormats[0]")
  | first :: _ => .ok (Sample000Clear.selectFormatLoop surfaceFormats first)

/-! ## `Buffer::createUploadBuffer` -/

/-- Mirror of `VkMemoryAllocateInfo`. -/
structure VkMemoryAllocateInfo where
  allocationSize : Nat
  memoryTypeIndex : Nat
  deriving DecidableEq, Repr

/-- Data members of class `Buffer`. -/
structure Buffer where
  buffer : Nat
  memory : Nat
  m_device : Nat
  deriving DecidableEq, Repr

/-- Answers of the driver to the calls of `Buffer::createUploadBuffer`: status and handle
of `vkCreateBuffer`, the record of `vkGetBufferMemoryRequirements`, the memory types of
`vkGetPhysicalDeviceMemoryProperties`, status and handle of `vkAllocateMemory`, the bytes
the fresh allocation holds (byte `i` is entry `i`, or 0 past the end of the list), and
the statuses of `vkBindBufferMemory` and `vkMapMemory`. -/
structure BufferDriver where
  createBufferResult : Int
  createdBuffer : Nat
  memoryReqs : VkMemoryRequirements
  memoryTypes : List VkMemoryType
  allocateResult : Int
  allocatedMemory : Nat
  initialContents : List Nat
  bindResult : Int
  mapResult : Int
  deriving DecidableEq, Repr

/-- The calls `Buffer::createUploadBuffer` issues, with the arguments that matter. -/
inductive BufferCall where
  | vkCreateBuffer (device : Nat) (bufferInfo : VkBufferCreateInfo)
  | vkGetBufferMemoryRequirements (device buffer : Nat)
  | vkGetPhysicalDeviceMemoryProperties (physicalDevice : Nat)
  | vkAllocateMemory (device : Nat) (allocInfo : VkMemoryAllocateInfo)
  | vkBindBufferMemory (device buffer memory memoryOffset : Nat)
  | vkMapMemory (device memory offset size flags : Nat)
  | memcpy (data : List Nat) (count : Nat)
  | vkUnmapMemory (device memory : Nat)
  deriving DecidableEq, Repr

/-- The function `memcpy(dst, src, n)` on byte lists: the first `n` bytes of `dst` are
replaced by the first `n` bytes of `src`.  The call is undefined when either region is
shorter than `n`; the definition is meant for `n ≤ src.length` and `n ≤ dst.length`. -/
def memcpy (dst src : List Nat) (n : Nat) : List Nat :=
  src.take n ++ dst.drop n

/-- One run of `Buffer::createUploadBuffer`: the calls issued, in order; the bytes of the
allocation after the copy and before the unmap (when the run gets there); the returned
object or the failure. -/
structure UploadRun where
  calls : List BufferCall
  afterCopy : Option (List Nat)
  outcome : Except Fatal Buffer
  deriving DecidableEq

/-- Embedding of `Buffer::createUploadBuffer`.  `data` holds the bytes behind the
caller's pointer. -/
def Buffer.createUploadBuffer (driver : BufferDriver) (device physicalDevice : Nat)
    (families : QueueFamilies) (sizeInBytes : Nat) (data : List Nat) (usage : Nat) :
    UploadRun :=
  let bufferInfo := Buffer.bufferInfo families sizeInBytes usage
  let calls1 : List BufferCall := [.vkCreateBuffer device bufferInfo]
  if driver.createBufferResult ≠ VK_SUCCESS then
    { calls := calls1, afterCopy := none, outcome := .error (.thrown "vkCreateBuffer") }
  else
    let buffer := driver.createdBuffer
    let memoryReqs := driver.memoryReqs
    let calls2 := calls1 ++ [.vkGetBufferMemoryRequirements device buffer,
      .vkGetPhysicalDeviceMemoryProperties physicalDevice]
    match Memory.select driver.memoryTypes memoryReqs VK_MEMORY_PROPERTY_HOST_COHERENT_BIT with
    | .error err => { calls := calls2, afterCopy := none, outcome := .error err }
    | .ok index =>
      let allocInfo : VkMemoryAllocateInfo :=
        { allocationSize := memoryReqs.size, memoryTypeIndex := index }
      let calls3 := calls2 ++ [.vkAllocateMemory device allocInfo]
      if driver.allocateResult ≠ VK_SUCCESS then
        { calls := calls3, afterCopy := none, outcome := .error (.thrown "vkAllocateMemory") }
      else
        let memory := driver.allocatedMemory
        let allocation : List Nat :=
          (List.range allocInfo.allocationSize).map (fun i => driver.initialContents.getD i 0)
        let calls4 := calls3 ++ [.vkBindBufferMemory device buffer memory 0]
        if driver.bindResult ≠ VK_SUCCESS then
          { calls := calls4, afterCopy := none
            outcome := .error (.thrown "vkBindBufferMemory") }
        else
          let calls5 := calls4 ++ [.vkMapMemory device memory 0 sizeInBytes 0]
          if driver.mapResult ≠ VK_SUCCESS then
            { calls := calls5, afterCopy := none, outcome := .error (.thrown "vkMapMemory") }
          else
            { calls := calls5 ++ [.memcpy data sizeInBytes, .vkUnmapMemory device memory]
              afterCopy := some (memcpy allocation data sizeInBytes)
              outcome := .ok { buffer := buffer, memory := memory, m_device := device } }

/-! ## The frame loops of `000_clear/main.cpp` and `003_restructure/main.cpp` -/

/-- Value of `UINT_MAX` (`unsigned int` has 32 bits on the platforms the samples
target). -/
def UINT_MAX : Nat := 4294967295
/-- Value of `VK_PIPELINE_STAGE_ALL_COMMANDS_BIT`. -/
def VK_PIPELINE_STAGE_ALL_COMMANDS_BIT : Nat := 0x10000
/-- Value of `VK_ACCESS_NONE_KHR`. -/
def VK_ACCESS_NONE_KHR : Nat := 0
/-- Value of `VK_IMAGE_ASPECT_COLOR_BIT`. -/
def VK_IMAGE_ASPECT_COLOR_BIT : Nat := 0x1
/-- Value of `VK_IMAGE_LAYOUT_UNDEFINED`. -/
def VK_IMAGE_LAYOUT_UNDEFINED : Nat := 0
/-- Value of `VK_IMAGE_LAYOUT_TRANSFER_DST_OPTIMAL`. -/
def VK_IMAGE_LAYOUT_TRANSFER_DST_OPTIMAL : Nat := 7
/-- Value of `VK_IMAGE_LAYOUT_PRESENT_SRC_KHR`. -/
def VK_IMAGE_LAYOUT_PRESENT_SRC_KHR : Nat := 1000001002
/-- Value of `VK_SUBPASS_CONTENTS_INLINE`. -/
def VK_SUBPASS_CONTENTS_INLINE : Nat := 0
/-- Value of `VK_PIPELINE_BIND_POINT_GRAPHICS`. -/
def VK_PIPELINE_BIND_POINT_GRAPHICS : Nat := 0

/-- Mirror of `VkImageSubresourceRange`. -/
structure VkImageSubresourceRange where
  aspectMask : Nat
  baseMipLevel : Nat
  levelCount : Nat
  baseArrayLayer : Nat
  layerCount : Nat
  deriving DecidableEq, Repr

/-- Mirror of `VkImageMemoryBarrier`.  `image` is `none` when the element of
`swapchainImages` the code reads does not exist. -/
structure VkImageMemoryBarrier where
  srcAccessMask : Nat
  dstAccessMask : Nat
  oldLayout : Nat
  newLayout : Nat
  srcQueueFamilyIndex : Nat
  dstQueueFamilyIndex : Nat
  image : Option Nat
  subresourceRange : VkImageSubresourceRange
  deriving DecidableEq, Repr

/-- The members of `VkRenderPassBeginInfo` the code fills in.  `framebuffer` is `none`
when the element of `swapchainFramebuffers` the code reads does not exist; the clear
colour is the list of its four `float32` components (all of them integers). -/
structure VkRenderPassBeginInfo where
  renderPass : Nat
  framebuffer : Option Nat
  renderAreaOffset : Int × Int
  renderAreaExtent : VkExtent2D
  clearValueCount : Nat
  pClearValues : List (List Int)
  deriving DecidableEq, Repr

/-- Mirror of `VkSubmitInfo`; each pointer member is the array it points to. -/
structure VkSubmitInfo where
  waitSemaphoreCount : Nat
  pWaitSemaphores : List Nat
  pWaitDstStageMask : List Nat
  commandBufferCount : Nat
  pCommandBuffers : List Nat
  signalSemaphoreCount : Nat
  pSignalSemaphores : List Nat
  deriving DecidableEq, Repr

/-- Mirror of `VkPresentInfoKHR`; each pointer member is the array it points to. -/
structure VkPresentInfoKHR where
  waitSemaphoreCount : Nat
  pWaitSemaphores : List Nat
  swapchainCount : Nat
  pSwapchains : List Nat
  pImageIndices : List Nat
  deriving DecidableEq, Repr

/-- The calls of the frame loops, in the order of their parameters in the source.  The
argument of `glfwWindowShouldClose` is the answer it gives, the last argument of
`vkAcquireNextImageKHR` the image index it stores. -/
inductive FrameCall where
  | glfwWindowShouldClose (answer : Bool)
  | glfwPollEvents
  | vkAcquireNextImageKHR (device swapchain timeout semaphore fence : Nat) (imageIndex : Nat)
  | vkBeginCommandBuffer (cmd flags : Nat)
  | vkCmdPipelineBarrier (cmd srcStageMask dstStageMask : Nat)
      (imageMemoryBarriers : List VkImageMemoryBarrier)
  | vkCmdClearColorImage (cmd : Nat) (image : Option Nat) (imageLayout : Nat)
      (color : List Int) (ranges : List VkImageSubresourceRange)
  | vkCmdBeginRenderPass (cmd : Nat) (renderPassBegin : VkRenderPassBeginInfo)
      (contents : Nat)
  | vkCmdBindPipeline (cmd pipelineBindPoint pipeline : Nat)
  | vkCmdBindVertexBuffers (cmd firstBinding bindingCount : Nat) (buffers offsets : List Nat)
  | vkCmdDraw (cmd vertexCount instanceCount firstVertex firstInstance : Nat)
  | vkCmdEndRenderPass (cmd : Nat)
  | vkEndCommandBuffer (cmd : Nat)
  | vkQueueSubmit (queue submitCount : Nat) (submits : List VkSubmitInfo) (fence : Nat)
  | vkQueuePresentKHR (queue : Nat) (presentInfo : VkPresentInfoKHR)
  | vkDeviceWaitIdle (device : Nat)
  deriving DecidableEq, Repr

/-- The variables of `main` that the frame loops read.  The last six are used by
003_restructure only, `graphicsFamily` and `swapchainImages` by 000_clear only;
`verticesSize` is `vertices.size()`. -/
structure FrameContext where
  device : Nat
  swapchain : Nat
  cmd : Nat
  graphicsQueue : Nat
  presentQueue : Nat
  imageWaitSemaphore : Nat
  presentWaitSemaphore : Nat
  graphicsFamily : Int
  swapchainImages : List Nat
  renderpass : Nat
  swapchainFramebuffers : List Nat
  extent : VkExtent2D
  pipeline : Nat
  vertexBuffer : Nat
  verticesSize : Nat
  deriving DecidableEq, Repr

/-- The submit of both loops (000_clear lines 417-430, 003_restructure lines 133-146). -/
def submitInfo (ctx : FrameContext) : VkSubmitInfo :=
  let waitStageMask := VK_PIPELINE_STAGE_ALL_COMMANDS_BIT
  { waitSemaphoreCount := 1
    pWaitSemaphores := [ctx.imageWaitSemaphore]
    pWaitDstStageMask := [waitStageMask]
    commandBufferCount := 1
    pCommandBuffers := [ctx.cmd]
    signalSemaphoreCount := 1
    pSignalSemaphores := [ctx.presentWaitSemaphore] }

/-- The present info of both loops (000_clear lines 433-442, 003_restructure lines
149-159). -/
def presentInfo (ctx : FrameContext) (imageIndex : Nat) : VkPresentInfoKHR :=
  { waitSemaphoreCount := 1
    pWaitSemaphores := [ctx.presentWaitSemaphore]
    swapchainCount := 1
    pSwapchains := [ctx.swapchain]
    pImageIndices := [imageIndex] }

namespace Sample000Clear

/-- The commands recorded between begin and end in 000_clear (lines 377-412), for the
image index the acquire stored. -/
def recordCommands (ctx : FrameContext) (imageIndex : Nat) : List FrameCall :=
  let subresource : VkImageSubresourceRange :=
    { aspectMask := VK_IMAGE_ASPECT_COLOR_BIT, baseMipLevel := 0, levelCount := 1
      baseArrayLayer := 0, layerCount := 1 }
  let barrier : VkImageMemoryBarrier :=
    { srcAccessMask := VK_ACCESS_NONE_KHR
      dstAccessMask := VK_ACCESS_NONE_KHR
      oldLayout := VK_IMAGE_LAYOUT_UNDEFINED
      newLayout := VK_IMAGE_LAYOUT_TRANSFER_DST_OPTIMAL
      srcQueueFamilyIndex := toUInt32 ctx.graphicsFamily
      dstQueueFamilyIndex := toUInt32 ctx.graphicsFamily
      image := ctx.swapchainImages[imageIndex]?
      subresourceRange := subresource }
  let clearColor : List Int := [1, 0, 1, 1]
  let barrier2 : VkImageMemoryBarrier :=
    { barrier with
      oldLayout := VK_IMAGE_LAYOUT_TRANSFER_DST_OPTIMAL
      newLayout := VK_IMAGE_LAYOUT_PRESENT_SRC_KHR }
  [ .vkCmdPipelineBarrier ctx.cmd VK_PIPELINE_STAGE_ALL_COMMANDS_BIT
      VK_PIPELINE_STAGE_ALL_COMMANDS_BIT [barrier],
    .vkCmdClearColorImage ctx.cmd ctx.swapchainImages[imageIndex]?
      VK_IMAGE_LAYOUT_TRANSFER_DST_OPTIMAL clearColor [subresource],
    .vkCmdPipelineBarrier ctx.cmd VK_PIPELINE_STAGE_ALL_COMMANDS_BIT
      VK_PIPELINE_STAGE_ALL_COMMANDS_BIT [barrier2] ]

/-- The body of the `while` loop of 000_clear (lines 360-446); `imageIndex` is the index
the acquire of this iteration stores. -/
def frame (ctx : FrameContext) (imageIndex : Nat) : List FrameCall :=
  [ .glfwPollEvents,
    .vkAcquireNextImageKHR ctx.device ctx.swapchain UINT_MAX ctx.imageWaitSemaphore 0
      imageIndex,
    .vkBeginCommandBuffer ctx.cmd 0 ]
  ++ recordCommands ctx imageIndex
  ++ [ .vkEndCommandBuffer ctx.cmd,
       .vkQueueSubmit ctx.graphicsQueue 1 [submitInfo ctx] 0,
       .vkQueuePresentKHR ctx.presentQueue (presentInfo ctx imageIndex),
       .vkDeviceWaitIdle ctx.device ]

/-- The `while` loop of 000_clear (lines 359-447).  `shouldClose k` is the answer of the
`k`-th evaluation of `glfwWindowShouldClose` (counted from 0), `acquired k` the image
index of the `k`-th acquire.  The first numeric argument bounds the number of condition
evaluations, the second one is the number of iterations already run; the result is
`none` when the bound is used up before the window asks to close. -/
def frameLoop (ctx : FrameContext) (shouldClose : Nat → Bool) (acquired : Nat → Nat) :
    Nat → Nat → Option (List FrameCall)
  | 0, _ => none
  | fuel + 1, k =>
    if shouldClose k then
      some [.glfwWindowShouldClose true]
    else
      match frameLoop ctx shouldClose acquired fuel (k + 1) with
      | none => none
      | some rest => some (.glfwWindowShouldClose false :: frame ctx (acquired k) ++ rest)

end Sample000Clear

namespace Sample003Restructure

/-- The commands recorded between begin and end in 003_restructure (lines 106-128). -/
def recordCommands (ctx : FrameContext) (imageIndex : Nat) : List FrameCall :=
  let clearValue : List Int := [0, 0, 0, 1]
  let renderpassBegin : VkRenderPassBeginInfo :=
    { renderPass := ctx.renderpass
      framebuffer := ctx.swapchainFramebuffers[imageIndex]?
      renderAreaOffset := (0, 0)
      renderAreaExtent := ctx.extent
      clearValueCount := 1
      pClearValues := [clearValue] }
  let offset : Nat := 0
  [ .vkCmdBeginRenderPass ctx.cmd renderpassBegin VK_SUBPASS_CONTENTS_INLINE,
    .vkCmdBindPipeline ctx.cmd VK_PIPELINE_BIND_POINT_GRAPHICS ctx.pipeline,
    .vkCmdBindVertexBuffers ctx.cmd 0 1 [ctx.vertexBuffer] [offset],
    .vkCmdDraw ctx.cmd ctx.verticesSize 1 0 0,
    .vkCmdEndRenderPass ctx.cmd ]

/-- The body of the `while` loop of 003_restructure (lines 89-163). -/
def frame (ctx : FrameContext) (imageIndex : Nat) : List FrameCall :=
  [ .glfwPollEvents,
    .vkAcquireNextImageKHR ctx.device ctx.swapchain UINT_MAX ctx.imageWaitSemaphore 0
      imageIndex,
    .vkBeginCommandBuffer ctx.cmd 0 ]
  ++ recordCommands ctx imageIndex
  ++ [ .vkEndCommandBuffer ctx.cmd,
       .vkQueueSubmit ctx.graphicsQueue 1 [submitInfo ctx] 0,
       .vkQueuePresentKHR ctx.presentQueue (presentInfo ctx imageIndex),
       .vkDeviceWaitIdle ctx.device ]

/-- The `while` loop of 003_restructure (lines 88-164); arguments as for the loop of
000_clear. -/
def frameLoop (ctx : FrameContext) (shouldClose : Nat → Bool) (acquired : Nat → Nat) :
    Nat → Nat → Option (List FrameCall)
  | 0, _ => none
  | fuel + 1, k =>
    if shouldClose k then
      some [.glfwWindowShouldClose true]
    else
      match frameLoop ctx shouldClose acquired fuel (k + 1) with
      | none => none
      | some rest => some (.glfwWindowShouldClose false :: frame ctx (acquired k) ++ rest)

/-- The loop of 003_restructure followed by the `vkDeviceWaitIdle` that precedes the
teardown (line 170). -/
def frameLoopThenWaitIdle (ctx : FrameContext) (shouldClose : Nat → Bool)
    (acquired : Nat → Nat) (fuel : Nat) : Option (List FrameCall) :=
  match frameLoop ctx shouldClose acquired fuel 0 with
  | none => none
  | some calls => some (calls ++ [.vkDeviceWaitIdle ctx.device])

end Sample003Restructure

/-- Outstanding GPU work after a sequence of calls that starts with `work` units
outstanding: each `vkQueueSubmit` adds one unit, each `vkDeviceWaitIdle` retires all of
it, every other call leaves it as it is. -/
def outstandingFrom (work : Nat) : List FrameCall → Nat
  | [] => work
  | .vkQueueSubmit _ _ _ _ :: rest => outstandingFrom (work + 1) rest
  | .vkDeviceWaitIdle _ :: rest => outstandingFrom 0 rest
  | _ :: rest => outstandingFrom work rest

/-- Outstanding GPU work after a sequence of calls that starts with none outstanding. -/
def outstanding (calls : List FrameCall) : Nat := outstandingFrom 0 calls

/-- The calls of `n` iterations whose `k`-th acquire stores `acquired k`, each preceded
by the evaluation of the loop condition, followed by the evaluation that ends the loop;
`frame` is the body of the loop. -/
def iterations (frame : Nat → List FrameCall) (acquired : Nat → Nat) (n : Nat) :
    List FrameCall :=
  (List.range n).flatMap (fun k => .glfwWindowShouldClose false :: frame (acquired k))
    ++ [.glfwWindowShouldClose true]

/-- The calls that record a command into the command buffer (`vkCmd...`). -/
def FrameCall.isRecording : FrameCall → Bool
  | .vkCmdPipelineBarrier _ _ _ _ => true
  | .vkCmdClearColorImage _ _ _ _ _ => true
  | .vkCmdBeginRenderPass _ _ _ => true
  | .vkCmdBindPipeline _ _ _ => true
  | .vkCmdBindVertexBuffers _ _ _ _ _ => true
  | .vkCmdDraw _ _ _ _ _ => true
  | .vkCmdEndRenderPass _ => true
  | _ => false

/-- A sequence of calls keeps at most one frame in flight: started with no work
outstanding, it ends with none, no point inside it has more than one unit outstanding,
and none is outstanding whenever the loop condition is evaluated. -/
def WorkBounded (calls : List FrameCall) : Prop :=
  outstanding calls = 0
    ∧ (∀ m, outstanding (calls.take m) ≤ 1)
    ∧ (∀ m b, calls[m]? = some (.glfwWindowShouldClose b) → outstanding (calls.take m) = 0)

/-! ## The frame loop of `001_triangle/main.cpp` -/

namespace Sample001Triangle

/-- The commands recorded between begin and end in 001_triangle (lines 747-767). -/
def recordCommands (ctx : FrameContext) (imageIndex : Nat) : List FrameCall :=
  let clearValue : List Int := [0, 0, 0, 1]
  let renderpassBegin : VkRenderPassBeginInfo :=
    { renderPass := ctx.renderpass
      framebuffer := ctx.swapchainFramebuffers[imageIndex]?
      renderAreaOffset := (0, 0)
      renderAreaExtent := ctx.extent
      clearValueCount := 1
      pClearValues := [clearValue] }
  [ .vkCmdBeginRenderPass ctx.cmd renderpassBegin VK_SUBPASS_CONTENTS_INLINE,
    .vkCmdBindPipeline ctx.cmd VK_PIPELINE_BIND_POINT_GRAPHICS ctx.pipeline,
    .vkCmdDraw ctx.cmd 3 1 0 0,
    .vkCmdEndRenderPass ctx.cmd ]

/-- The body of the `while` loop of 001_triangle (lines 730-801). -/
def frame (ctx : FrameContext) (imageIndex : Nat) : List FrameCall :=
  [ .glfwPollEvents,
    .vkAcquireNextImageKHR ctx.device ctx.swapchain UINT_MAX ctx.imageWaitSemaphore 0
      imageIndex,
    .vkBeginCommandBuffer ctx.cmd 0 ]
  ++ recordCommands ctx imageIndex
  ++ [ .vkEndCommandBuffer ctx.cmd,
       .vkQueueSubmit ctx.graphicsQueue 1 [submitInfo ctx] 0,
       .vkQueuePresentKHR ctx.presentQueue (presentInfo ctx imageIndex),
       .vkDeviceWaitIdle ctx.device ]

/-- The `while` loop of 001_triangle (lines 729-802); arguments as for the loop of
000_clear. -/
def frameLoop (ctx : FrameContext) (shouldClose : Nat → Bool) (acquired : Nat → Nat) :
    Nat → Nat → Option (List FrameCall)
  | 0, _ => none
  | fuel + 1, k =>
    if shouldClose k then
      some [.glfwWindowShouldClose true]
    else
      match frameLoop ctx shouldClose acquired fuel (k + 1) with
      | none => none
      | some rest => some (.glfwWindowShouldClose false :: frame ctx (acquired k) ++ rest)

end Sample001Triangle

/-! ## Semaphore operations of a call trace -/

/-- The call that names a semaphore. -/
inductive SemaphoreIssuer where
  | acquire
  | submit
  | present
  deriving DecidableEq, Repr

/-- A semaphore operation that a call enqueues: a signal or a wait, of which semaphore,
by which call. -/
inductive SemaphoreOp where
  | signal (semaphore : Nat) (issuer : SemaphoreIssuer)
  | wait (semaphore : Nat) (issuer : SemaphoreIssuer)
  deriving DecidableEq, Repr

/-- The semaphore operations one call enqueues: an acquire signals its semaphore, a
submit waits on its wait semaphores and then signals its signal semaphores, a present
waits on its wait semaphores. -/
def FrameCall.semaphoreOps : FrameCall → List SemaphoreOp
  | .vkAcquireNextImageKHR _ _ _ semaphore _ _ => [.signal semaphore .acquire]
  | .vkQueueSubmit _ _ submits _ =>
    submits.flatMap (fun submit =>
      submit.pWaitSemaphores.map (fun s => SemaphoreOp.wait s .submit)
        ++ submit.pSignalSemaphores.map (fun s => SemaphoreOp.signal s .submit))
  | .vkQueuePresentKHR _ presentInfo =>
    presentInfo.pWaitSemaphores.map (fun s => SemaphoreOp.wait s .present)
  | _ => []

/-- The semaphore operations of a call sequence, in order. -/
def semaphoreOpsOf (calls : List FrameCall) : List SemaphoreOp :=
  calls.flatMap FrameCall.semaphoreOps

/-- One step of the binary-semaphore discipline.  The state is the list of semaphores
that have a signal pending, or `none` once the discipline is broken: a signal needs a
semaphore without a pending signal, a wait needs one with a pending signal and consumes
it. -/
def semaphoreStep : Option (List Nat) → SemaphoreOp → Option (List Nat)
  | none, _ => none
  | some pending, .signal s _ => if s ∈ pending then none else some (s :: pending)
  | some pending, .wait s _ => if s ∈ pending then some (pending.erase s) else none

/-- The pending signals after a sequence of operations started with none pending, or
`none` when some operation breaks the discipline. -/
def semaphoreRun (ops : List SemaphoreOp) : Option (List Nat) :=
  ops.foldl semaphoreStep (some [])

/-- The four semaphore operations of one iteration: image-available signalled by the
acquire and waited on by the submit, work-complete signalled by the submit and waited on
by the present. -/
def semaphoreCycle (ctx : FrameContext) : List SemaphoreOp :=
  [ .signal ctx.imageWaitSemaphore .acquire,
    .wait ctx.imageWaitSemaphore .submit,
    .signal ctx.presentWaitSemaphore .submit,
    .wait ctx.presentWaitSemaphore .present ]

/-! ## The vertex data of `003_restructure/main.cpp` -/

namespace Sample003Restructure

/-- The initialiser of `std::vector<float> vertices` (lines 75-84); every value is
exactly representable, so the rationals stand for the floats. -/
def vertices : List Rat :=
  [ -1/2, -1/2, 0,   1, 0, 0,
    1/2, 1/2, 0,     0, 1, 0,
    -1/2, 1/2, 0,    0, 0, 1,
    -1/2, -1/2, 0,   1, 0, 0,
    1/2, -1/2, 0,    0, 0, 1,
    1/2, 1/2, 0,     0, 1, 0 ]

/-- The value of `sizeof(float)`. -/
def sizeofFloat : Nat := 4

/-- The byte count `sizeof(float) * vertices.size()` passed to
`Buffer::createUploadBuffer` (line 86). -/
def vertexBufferSizeInBytes : Nat := sizeofFloat * vertices.length

/-- The member `vertexBinding.stride` of `createPipeline` (line 456). -/
def vertexBindingStride : Nat := sizeofFloat * (3 + 3)

/-- The variables of `main` in 003_restructure: those of `ctx`, with `vertices.size()` of
the vertex data above. -/
def mainContext (ctx : FrameContext) : FrameContext :=
  { ctx with verticesSize := vertices.length }

end Sample003Restructure

/-! ## Required instance extensions and inline device selection of 000_clear -/

/-- The comparison loop of `strcmp` on the characters of two strings: the sign of the
first difference, a string that ends first being the smaller one, and zero when there is
no difference. -/
def strcmpChars : List Char → List Char → Int
  | [], [] => 0
  | [], _ :: _ => -1
  | _ :: _, [] => 1
  | a :: as, b :: bs =>
    if a.toNat < b.toNat then -1
    else if b.toNat < a.toNat then 1
    else strcmpChars as bs

/-- The function `strcmp`: zero when the strings are equal, negative or positive
according to their order otherwise. -/
def strcmp (a b : String) : Int := strcmpChars a.toList b.toList

namespace Sample000Clear

/-- The loop over `extensions` (000_clear lines 33-45, 001_triangle lines 34-46).
`supported` holds the `extensionName` of each supported instance extension.  The lambda
given to `find_if` returns the value of `strcmp`, converted to `bool`.  The result is
`some (-1)` when `main` returns `-1`, `none` when the loop ends and `main` goes on. -/
def requiredExtensionsCheck (supported : List String) : List String → Option Int
  | [] => none
  | extension :: rest =>
    if (supported.find? (fun item => strcmp item extension != 0)).isNone then
      some (-1)
    else
      requiredExtensionsCheck supported rest

/-- The inner `for` loop of the inline device selection (000_clear lines 128-140), from
counter `i` on; the last two arguments are `graphicsFamily` and `presentFamily`. -/
def queueFamilyLoop : List QueueFamilyAnswers → Nat → Int → Int → Int × Int
  | [], _, graphicsFamily, presentFamily => (graphicsFamily, presentFamily)
  | q :: rest, i, graphicsFamily, presentFamily =>
    let graphicsFamily1 :=
      if q.queueFlags &&& VK_QUEUE_GRAPHICS_BIT = VK_QUEUE_GRAPHICS_BIT then toInt32 i
      else graphicsFamily
    let presentFamily1 :=
      if q.presentationSupport && q.surfaceSupport then toInt32 i else presentFamily
    queueFamilyLoop rest (i + 1) graphicsFamily1 presentFamily1

/-- The outer range-`for` loop of the inline device selection (000_clear lines 113-156,
001_triangle lines 114-157).  The result holds the variables `physicalDevice` (`none` is
`VK_NULL_HANDLE`), `graphicsFamily` and `presentFamily` after the loop. -/
def selectDeviceLoop : List PhysicalDeviceInfo → Int → Int →
    Option PhysicalDeviceInfo × Int × Int
  | [], graphicsFamily, presentFamily => (none, graphicsFamily, presentFamily)
  | pd :: rest, _, _ =>
    match queueFamilyLoop pd.queueFamilies 0 (-1) (-1) with
    | (graphicsFamily, presentFamily) =>
      if graphicsFamily = -1 ∨ presentFamily = -1 then
        selectDeviceLoop rest graphicsFamily presentFamily
      else if (pd.deviceExtensions.find?
          (fun item => strcmp item "VK_KHR_swapchain" == 0)).isNone then
        selectDeviceLoop rest graphicsFamily presentFamily
      else
        (some pd, graphicsFamily, presentFamily)

/-- The inline device selection of `main` in 000_clear and 001_triangle. -/
def selectDevice (physicalDevices : List PhysicalDeviceInfo) :
    Option PhysicalDeviceInfo × Int × Int :=
  selectDeviceLoop physicalDevices (-1) (-1)

end Sample000Clear

/-! ## `Swapchain::getImages`, `getImageViews`, `getFramebuffers` -/

/-- Answers of the driver to the calls of the three getters: the images of
`vkGetSwapchainImagesKHR`, the status of the `i`-th `vkCreateImageView` and
`vkCreateFramebuffer` call of a loop (entry `i`, or `VK_SUCCESS` past the end of the
list), and the handles they return (`base + i`). -/
structure SwapchainObjectsDriver where
  swapchainImages : List Nat
  imageViewResults : List Int
  imageViewBase : Nat
  framebufferResults : List Int
  framebufferBase : Nat
  deriving DecidableEq, Repr

/-- The creation loops of `getImageViews` (swapchain.hpp lines 97-128) and
`getFramebuffers` (lines 140-156): `remaining` calls are still to be made, `i` is the
counter, `created` holds the handles stored so far; each call goes through
`THROW_IF_FAILED`. -/
def createLoop (results : List Int) (base : Nat) (what : String) :
    (remaining : Nat) → (i : Nat) → (created : List Nat) → Except Fatal (List Nat)
  | 0, _, created => .ok created
  | remaining + 1, i, created =>
    if results.getD i VK_SUCCESS ≠ VK_SUCCESS then
      .error (.thrown what)
    else
      createLoop results base what remaining (i + 1) (created ++ [base + i])

namespace Swapchain

/-- Embedding of `Swapchain::getImages`: the object afterwards and the returned list. -/
def getImages (driver : SwapchainObjectsDriver) (s : Swapchain) : Swapchain × List Nat :=
  if !s.m_images.isEmpty then
    (s, s.m_images)
  else
    ({ s with m_images := driver.swapchainImages }, driver.swapchainImages)

/-- Embedding of `Swapchain::getImageViews`.  The views are created for the elements of
`m_images`; `getImages` is not called. -/
def getImageViews (driver : SwapchainObjectsDriver) (s : Swapchain) :
    Except Fatal (Swapchain × List Nat) :=
  if !s.m_imageViews.isEmpty then
    .ok (s, s.m_imageViews)
  else
    match createLoop driver.imageViewResults driver.imageViewBase "vkCreateImageView"
        s.m_images.length 0 [] with
    | .error err => .error err
    | .ok views => .ok ({ s with m_imageViews := views }, views)

/-- Embedding of `Swapchain::getFramebuffers`. -/
def getFramebuffers (driver : SwapchainObjectsDriver) (s : Swapchain) (_renderpass : Nat) :
    Except Fatal (Swapchain × List Nat) :=
  match getImageViews driver s with
  | .error err => .error err
  | .ok (s1, _views) =>
    match createLoop driver.framebufferResults driver.framebufferBase "vkCreateFramebuffer"
        s1.m_images.length 0 [] with
    | .error err => .error err
    | .ok framebuffers => .ok (s1, framebuffers)

end Swapchain

/-- One call of a getter of `Swapchain`. -/
inductive SwapchainGetter where
  | getImages
  | getImageViews
  | getFramebuffers (renderpass : Nat)
  deriving DecidableEq, Repr

/-- The lists that a sequence of getter calls yields, in order, each with the getter
that yielded it; the sequence ends at the first call that throws. -/
def Swapchain.yields (driver : SwapchainObjectsDriver) :
    Swapchain → List SwapchainGetter → Except Fatal (List (SwapchainGetter × List Nat))
  | _, [] => .ok []
  | s, .getImages :: rest =>
    match Swapchain.getImages driver s with
    | (s1, images) =>
      match Swapchain.yields driver s1 rest with
      | .error err => .error err
      | .ok more => .ok ((.getImages, images) :: more)
  | s, .getImageViews :: rest =>
    match Swapchain.getImageViews driver s with
    | .error err => .error err
    | .ok (s1, views) =>
      match Swapchain.yields driver s1 rest with
      | .error err => .error err
      | .ok more => .ok ((.getImageViews, views) :: more)
  | s, .getFramebuffers renderpass :: rest =>
    match Swapchain.getFramebuffers driver s renderpass with
    | .error err => .error err
    | .ok (s1, framebuffers) =>
      match Swapchain.yields driver s1 rest with
      | .error err => .error err
      | .ok more => .ok ((.getFramebuffers renderpass, framebuffers) :: more)

/-! ## Teardown of `001_triangle/main.cpp` and `003_restructure/main.cpp` -/

/-- The calls of the teardown sequences.  A framebuffer or image-view handle is `none`
when the vector element the code reads does not exist. -/
inductive TeardownCall where
  | vkDeviceWaitIdle (device : Nat)
  | vkDestroyBuffer (device buffer : Nat)
  | vkFreeMemory (device memory : Nat)
  | vkDestroyPipeline (device pipeline : Nat)
  | vkDestroyPipelineLayout (device pipelineLayout : Nat)
  | vkDestroyShaderModule (device shaderModule : Nat)
  | vkDestroyFramebuffer (device : Nat) (framebuffer : Option Nat)
  | vkDestroyImageView (device : Nat) (imageView : Option Nat)
  | vkDestroyRenderPass (device renderpass : Nat)
  | vkDestroySemaphore (device semaphore : Nat)
  | vkDestroySwapchainKHR (device swapchain : Nat)
  | vkDestroyCommandPool (device commandPool : Nat)
  | vkDestroyDevice (device : Nat)
  | vkDestroySurfaceKHR (vkInstance surface : Nat)
  | vkDestroyInstance (vkInstance : Nat)
  | glfwDestroyWindow
  | glfwTerminate
  deriving DecidableEq, Repr

/-- The variables of `main` that the teardown reads (`vkInstance` is the variable
`instance`); `vertexBuffer` is the object the `unique_ptr` of 003_restructure owns
(`none` for an empty pointer). -/
structure TeardownContext where
  vkInstance : Nat
  surface : Nat
  device : Nat
  commandPool : Nat
  swapchain : Nat
  imageWaitSemaphore : Nat
  presentWaitSemaphore : Nat
  renderpass : Nat
  pipeline : Nat
  pipelineLayout : Nat
  vertexShader : Nat
  fragmentShader : Nat
  swapchainImages : List Nat
  swapchainImageViews : List Nat
  framebuffers : List Nat
  vertexBuffer : Option Buffer
  deriving DecidableEq, Repr

/-- Embedding of `Buffer::~Buffer` (buffer.hpp lines 11-14). -/
def Buffer.destroy (b : Buffer) : List TeardownCall :=
  [.vkDestroyBuffer b.m_device b.buffer, .vkFreeMemory b.m_device b.memory]

/-- The call `reset()` on a `std::unique_ptr<Buffer>`: the owned object, if any, is
destroyed and the pointer is empty afterwards. -/
def uniquePtrReset (owned : Option Buffer) : List TeardownCall × Option Buffer :=
  match owned with
  | none => ([], none)
  | some b => (b.destroy, none)

/-- The destruction loop over the swapchain images (001_triangle lines 816-820,
003_restructure lines 183-187). -/
def destroyFramebuffersAndViews (ctx : TeardownContext) : List TeardownCall :=
  (List.range ctx.swapchainImages.length).flatMap (fun i =>
    [ .vkDestroyFramebuffer ctx.device ctx.framebuffers[i]?,
      .vkDestroyImageView ctx.device ctx.swapchainImageViews[i]? ])

/-- The calls that end both teardown sequences (001_triangle lines 822-832,
003_restructure lines 189-199). -/
def destroyRest (ctx : TeardownContext) : List TeardownCall :=
  [ .vkDestroyRenderPass ctx.device ctx.renderpass,
    .vkDestroySemaphore ctx.device ctx.imageWaitSemaphore,
    .vkDestroySemaphore ctx.device ctx.presentWaitSemaphore,
    .vkDestroySwapchainKHR ctx.device ctx.swapchain,
    .vkDestroyCommandPool ctx.device ctx.commandPool,
    .vkDestroyDevice ctx.device,
    .vkDestroySurfaceKHR ctx.vkInstance ctx.surface,
    .vkDestroyInstance ctx.vkInstance,
    .glfwDestroyWindow,
    .glfwTerminate ]

/-- The teardown of 001_triangle (lines 808-832). -/
def Sample001Triangle.teardown (ctx : TeardownContext) : List TeardownCall :=
  [ .vkDeviceWaitIdle ctx.device,
    .vkDestroyPipeline ctx.device ctx.pipeline,
    .vkDestroyPipelineLayout ctx.device ctx.pipelineLayout,
    .vkDestroyShaderModule ctx.device ctx.vertexShader,
    .vkDestroyShaderModule ctx.device ctx.fragmentShader ]
  ++ destroyFramebuffersAndViews ctx
  ++ destroyRest ctx

/-- The teardown of 003_restructure (lines 170-200): the explicit `vertexBuffer.reset()`,
the destroy calls, and the destructor of `vertexBuffer` at the end of `main`, which finds
the pointer empty. -/
def Sample003Restructure.teardown (ctx : TeardownContext) : List TeardownCall :=
  match uniquePtrReset ctx.vertexBuffer with
  | (resetCalls, afterReset) =>
    [ .vkDeviceWaitIdle ctx.device ]
    ++ resetCalls
    ++ [ .vkDestroyPipeline ctx.device ctx.pipeline,
         .vkDestroyPipelineLayout ctx.device ctx.pipelineLayout,
         .vkDestroyShaderModule ctx.device ctx.vertexShader,
         .vkDestroyShaderModule ctx.device ctx.fragmentShader ]
    ++ destroyFramebuffersAndViews ctx
    ++ destroyRest ctx
    ++ (uniquePtrReset afterReset).1

/-- The teardown calls that destroy a framebuffer or an image view. -/
def TeardownCall.isFramebufferOrView : TeardownCall → Bool
  | .vkDestroyFramebuffer _ _ => true
  | .vkDestroyImageView _ _ => true
  | _ => false

/-- The teardown calls that destroy an object created from the device. -/
def TeardownCall.isDeviceObject : TeardownCall → Bool
  | .vkDestroyBuffer _ _ => true
  | .vkFreeMemory _ _ => true
  | .vkDestroyPipeline _ _ => true
  | .vkDestroyPipelineLayout _ _ => true
  | .vkDestroyShaderModule _ _ => true
  | .vkDestroyFramebuffer _ _ => true
  | .vkDestroyImageView _ _ => true
  | .vkDestroyRenderPass _ _ => true
  | .vkDestroySemaphore _ _ => true
  | .vkDestroySwapchainKHR _ _ => true
  | .vkDestroyCommandPool _ _ => true
  | _ => false

/-- A rank that grows along the dependency order of the teardown: objects of the device
other than swapchain and command pool, swapchain, command pool, device, surface,
instance, window, library. -/
def TeardownCall.rank : TeardownCall → Nat
  | .vkDestroySwapchainKHR _ _ => 1
  | .vkDestroyCommandPool _ _ => 2
  | .vkDestroyDevice _ => 3
  | .vkDestroySurfaceKHR _ _ => 4
  | .vkDestroyInstance _ => 5
  | .glfwDestroyWindow => 6
  | .glfwTerminate => 7
  | _ => 0

/-- The destruction order asked of a teardown sequence `calls`: every destruction of a
framebuffer or image view comes before that of the swapchain, the swapchain before the
surface, the device before the instance, every destruction of an object of the device
before that of the device; and the sequence does destroy swapchain, surface, device and
instance, the framebuffer and image view of every swapchain image, and every other object
that both samples create from the device: pipeline, pipeline layout, the two shader
modules, render pass, the two semaphores and the command pool. -/
def TeardownOrdered (ctx : TeardownContext) (calls : List TeardownCall) : Prop :=
  (∀ (i j : Nat) (x : TeardownCall), calls[i]? = some x → x.isFramebufferOrView = true →
      calls[j]? = some (.vkDestroySwapchainKHR ctx.device ctx.swapchain) → i < j)
    ∧ (∀ (i j : Nat), calls[i]? = some (.vkDestroySwapchainKHR ctx.device ctx.swapchain) →
      calls[j]? = some (.vkDestroySurfaceKHR ctx.vkInstance ctx.surface) → i < j)
    ∧ (∀ (i j : Nat), calls[i]? = some (.vkDestroyDevice ctx.device) →
      calls[j]? = some (.vkDestroyInstance ctx.vkInstance) → i < j)
    ∧ (∀ (i j : Nat) (x : TeardownCall), calls[i]? = some x → x.isDeviceObject = true →
      calls[j]? = some (.vkDestroyDevice ctx.device) → i < j)
    ∧ (TeardownCall.vkDestroySwapchainKHR ctx.device ctx.swapchain ∈ calls
      ∧ TeardownCall.vkDestroySurfaceKHR ctx.vkInstance ctx.surface ∈ calls
      ∧ TeardownCall.vkDestroyDevice ctx.device ∈ calls
      ∧ TeardownCall.vkDestroyInstance ctx.vkInstance ∈ calls)
    ∧ (∀ i, i < ctx.swapchainImages.length →
      TeardownCall.vkDestroyFramebuffer ctx.device ctx.framebuffers[i]? ∈ calls
        ∧ TeardownCall.vkDestroyImageView ctx.device ctx.swapchainImageViews[i]? ∈ calls)
    ∧ (TeardownCall.vkDestroyPipeline ctx.device ctx.pipeline ∈ calls
      ∧ TeardownCall.vkDestroyPipelineLayout ctx.device ctx.pipelineLayout ∈ calls
      ∧ TeardownCall.vkDestroyShaderModule ctx.device ctx.vertexShader ∈ calls
      ∧ TeardownCall.vkDestroyShaderModule ctx.device ctx.fragmentShader ∈ calls
      ∧ TeardownCall.vkDestroyRenderPass ctx.device ctx.renderpass ∈ calls
      ∧ TeardownCall.vkDestroySemaphore ctx.device ctx.imageWaitSemaphore ∈ calls
      ∧ TeardownCall.vkDestroySemaphore ctx.device ctx.presentWaitSemaphore ∈ calls
      ∧ TeardownCall.vkDestroyCommandPool ctx.device ctx.commandPool ∈ calls)

/-! ## Bootstrap of `000_clear/main.cpp` and `001_triangle/main.cpp` -/

/-- What the platform and the driver answer during the bootstrap: the supported instance
extensions, the contents of the vector `extensions`, the surface capabilities and
formats, the number of swapchain images, and the status of every creation call (for the
image views and framebuffers, of the `i`-th call, `VK_SUCCESS` past the end of the
list). -/
structure BootstrapDriver where
  supportedInstanceExtensions : List String
  extensions : List String
  instanceResult : Int
  surfaceResult : Int
  deviceResult : Int
  commandPoolResult : Int
  commandBufferResult : Int
  surfaceCapabilities : VkSurfaceCapabilitiesKHR
  surfaceFormats : List VkSurfaceFormatKHR
  swapchainResult : Int
  swapchainImageCount : Nat
  imageWaitSemaphoreResult : Int
  presentWaitSemaphoreResult : Int
  renderPassResult : Int
  imageViewResults : List Int
  framebufferResults : List Int
  vertexShaderResult : Int
  fragmentShaderResult : Int
  pipelineLayoutResult : Int
  pipelineResult : Int
  deriving DecidableEq, Repr

/-- The creation calls of the bootstrap; a semaphore or shader module is named by the
variable that receives it, an image view or framebuffer by its index. -/
inductive CreationCall where
  | vkCreateInstance
  | glfwCreateWindowSurface
  | vkCreateDevice
  | vkCreateCommandPool
  | vkAllocateCommandBuffers
  | vkCreateSwapchainKHR
  | vkCreateSemaphore (target : String)
  | vkCreateRenderPass
  | vkCreateImageView (i : Nat)
  | vkCreateFramebuffer (i : Nat)
  | vkCreateShaderModule (target : String)
  | vkCreatePipelineLayout
  | vkCreateGraphicsPipelines
  deriving DecidableEq, Repr

/-- How the bootstrap ends: `main` returns an exit code, or the frame loop is entered, or
an access the language leaves undefined is made. -/
inductive BootstrapEnd where
  | exit (code : Int)
  | frameLoop
  | undefinedAccess (expr : String)
  deriving DecidableEq, Repr

/-- One run of the bootstrap: the creation calls issued, in order, and how it ends. -/
structure BootstrapRun where
  creations : List CreationCall
  ending : BootstrapEnd
  deriving DecidableEq, Repr

/-- The bootstrap of `main` in 000_clear (lines 8-357), which is also, line for line,
the first part of `main` in 001_triangle (lines 9-360): the required-extension check,
instance, surface, device selection (which has no exit), device, command pool, command
buffer, the two usage checks, format selection, swapchain, and the two semaphores, whose
statuses are stored in `result` and not examined. -/
def Sample000Clear.bootstrap (d : BootstrapDriver) : BootstrapRun :=
  match Sample000Clear.requiredExtensionsCheck d.supportedInstanceExtensions d.extensions with
  | some code => { creations := [], ending := .exit code }
  | none =>
    let c1 : List CreationCall := [.vkCreateInstance]
    if d.instanceResult ≠ VK_SUCCESS then { creations := c1, ending := .exit (-1) }
    else
      let c2 := c1 ++ [.glfwCreateWindowSurface]
      if d.surfaceResult ≠ VK_SUCCESS then { creations := c2, ending := .exit (-1) }
      else
        let c3 := c2 ++ [.vkCreateDevice]
        if d.deviceResult ≠ VK_SUCCESS then { creations := c3, ending := .exit (-1) }
        else
          let c4 := c3 ++ [.vkCreateCommandPool]
          if d.commandPoolResult ≠ VK_SUCCESS then { creations := c4, ending := .exit (-1) }
          else
            let c5 := c4 ++ [.vkAllocateCommandBuffers]
            if d.commandBufferResult ≠ VK_SUCCESS then
              { creations := c5, ending := .exit (-1) }
            else if d.surfaceCapabilities.supportedUsageFlags
                &&& VK_IMAGE_USAGE_COLOR_ATTACHMENT_BIT
                ≠ VK_IMAGE_USAGE_COLOR_ATTACHMENT_BIT then
              { creations := c5, ending := .exit (-1) }
            else if d.surfaceCapabilities.supportedUsageFlags
                &&& VK_IMAGE_USAGE_TRANSFER_DST_BIT ≠ VK_IMAGE_USAGE_TRANSFER_DST_BIT then
              { creations := c5, ending := .exit (-1) }
            else
              match Sample000Clear.selectFormat d.surfaceFormats with
              | .error _ =>
                { creations := c5, ending := .undefinedAccess "surfaceFormats[0]" }
              | .ok _selectedFormat =>
                let c6 := c5 ++ [.vkCreateSwapchainKHR]
                if d.swapchainResult ≠ VK_SUCCESS then
                  { creations := c6, ending := .exit (-1) }
                else
                  { creations := c6 ++ [.vkCreateSemaphore "imageWaitSemaphore",
                      .vkCreateSemaphore "presentWaitSemaphore"]
                    ending := .frameLoop }

/-- The loop that creates an image view and a framebuffer for each swapchain image
(001_triangle lines 428-484): `remaining` images are still to be handled, `i` is the
counter, `creations` holds the creation calls issued so far.  A failed image view makes
`main` return 1, a failed framebuffer -1; `none` means the loop ran to its end. -/
def Sample001Triangle.viewsAndFramebuffersLoop (d : BootstrapDriver) :
    (remaining : Nat) → (i : Nat) → (creations : List CreationCall) →
      List CreationCall × Option Int
  | 0, _, creations => (creations, none)
  | remaining + 1, i, creations =>
    let c1 := creations ++ [.vkCreateImageView i]
    if d.imageViewResults.getD i VK_SUCCESS ≠ VK_SUCCESS then (c1, some 1)
    else
      let c2 := c1 ++ [.vkCreateFramebuffer i]
      if d.framebufferResults.getD i VK_SUCCESS ≠ VK_SUCCESS then (c2, some (-1))
      else Sample001Triangle.viewsAndFramebuffersLoop d remaining (i + 1) c2

/-- The bootstrap of `main` in 001_triangle (lines 9-727): the part it shares with
000_clear, then render pass, image views and framebuffers, vertex shader module (all
examined), and fragment shader module, pipeline layout and graphics pipeline, whose
statuses are stored in `result` and not examined. -/
def Sample001Triangle.bootstrap (d : BootstrapDriver) : BootstrapRun :=
  match Sample000Clear.bootstrap d with
  | { creations := c0, ending := .frameLoop } =>
    let c1 := c0 ++ [.vkCreateRenderPass]
    if d.renderPassResult ≠ VK_SUCCESS then { creations := c1, ending := .exit (-1) }
    else
      match Sample001Triangle.viewsAndFramebuffersLoop d d.swapchainImageCount 0 c1 with
      | (c2, some code) => { creations := c2, ending := .exit code }
      | (c2, none) =>
        let c3 := c2 ++ [.vkCreateShaderModule "vertexShader"]
        if d.vertexShaderResult ≠ VK_SUCCESS then { creations := c3, ending := .exit (-1) }
        else
          { creations := c3 ++ [.vkCreateShaderModule "fragmentShader",
              .vkCreatePipelineLayout, .vkCreateGraphicsPipelines]
            ending := .frameLoop }
  | run => run

/-! ## Sample inputs -/

/-- Two queue families, both with the graphics bit and both able to present. -/
def sampleFamilies : List QueueFamilyAnswers :=
  [{ queueFlags := 7, presentationSupport := true, surfaceSupport := true },
   { queueFlags := 3, presentationSupport := true, surfaceSupport := true }]

/-- An eligible device with one queue family. -/
def sampleDeviceA : PhysicalDeviceInfo :=
  { handle := 1
    queueFamilies := [{ queueFlags := 7, presentationSupport := true, surfaceSupport := true }]
    deviceExtensions := ["VK_KHR_swapchain"] }

/-- An eligible device whose second queue family is the capable one. -/
def sampleDeviceB : PhysicalDeviceInfo :=
  { handle := 2
    queueFamilies :=
      [{ queueFlags := 4, presentationSupport := false, surfaceSupport := false },
       { queueFlags := 7, presentationSupport := true, surfaceSupport := true }]
    deviceExtensions := ["VK_KHR_maintenance1", "VK_KHR_swapchain"] }

/-- A device that lacks `VK_KHR_swapchain`. -/
def sampleDeviceC : PhysicalDeviceInfo :=
  { handle := 3
    queueFamilies := [{ queueFlags := 7, presentationSupport := true, surfaceSupport := true }]
    deviceExtensions := ["VK_KHR_maintenance1"] }

/-- A swapchain object whose capability record admits the desired extent and count. -/
def sampleSwapchain : Swapchain :=
  { Swapchain.empty with
    capabilities :=
      { minImageCount := 2, maxImageCount := 8, minImageExtent := ⟨1, 1⟩
        maxImageExtent := ⟨4096, 4096⟩, supportedUsageFlags := 0x1F } }

/-- A driver for which every call of `Swapchain::create` succeeds. -/
def sampleDriver : SwapchainDriver :=
  { capabilitiesResult := 0
    capabilities := sampleSwapchain.capabilities
    formatCountResult := 0
    formatsResult := 0
    surfaceFormats := [⟨44, 0⟩, ⟨50, 0⟩]
    createResult := 0
    createdSwapchain := 9 }

/-- The create info `Swapchain::create` builds for `sampleDriver`, surface 7, graphics
family 0 and present family 1. -/
def sampleInfo : VkSwapchainCreateInfoKHR :=
  { flags := 0, surface := 7, minImageCount := 2, imageFormat := 50, imageColorSpace := 0
    imageExtent := ⟨800, 800⟩, imageArrayLayers := 1, imageUsage := 0x12
    imageSharingMode := .VK_SHARING_MODE_CONCURRENT
    queueFamilyIndexCount := 2, pQueueFamilyIndices := some [1, 0]
    preTransform := 1, compositeAlpha := 8, presentMode := 2, clipped := false
    oldSwapchain := 0 }

/-- A registry with two available names, none enabled. -/
def sampleRegistry : Extensions :=
  Extensions.create ["VK_KHR_surface", "VK_KHR_xcb_surface"]

/-- A pointer to the characters `VK_KHR_surface`. -/
def sampleNameSurface : CString := { addr := 4096, chars := "VK_KHR_surface" }

/-- A pointer to the characters `VK_KHR_xcb_surface`. -/
def sampleNameXcb : CString := { addr := 4128, chars := "VK_KHR_xcb_surface" }

/-- A pointer to the characters `VK_EXT_debug_utils`, a name `sampleRegistry` lacks. -/
def sampleNameDebug : CString := { addr := 4160, chars := "VK_EXT_debug_utils" }

/-- A second pointer to the characters `VK_KHR_surface`, at another address than
`sampleNameSurface`. -/
def sampleNameSurfaceCopy : CString := { addr := 8192, chars := "VK_KHR_surface" }

/-- A driver for which every call of `Swapchain::create` succeeds and whose surface
formats (`B8G8R8A8_UNORM`, `R8G8B8A8_UNORM`) do not include the preferred one. -/
def sampleDriverNoSrgb : SwapchainDriver :=
  { sampleDriver with surfaceFormats := [⟨44, 0⟩, ⟨37, 0⟩] }

/-- A default-initialised `Swapchain` whose `format` and `colorSpace` hold stale values. -/
def sampleUninit : Swapchain :=
  { Swapchain.empty with format := 3735928559, colorSpace := 12345 }

/-- A driver whose surface supports the colour-attachment usage but not the
transfer-destination usage. -/
def sampleDriverNoTransferDst : SwapchainDriver :=
  { sampleDriver with
    capabilities := { sampleSwapchain.capabilities with supportedUsageFlags := 0x10 } }

/-- A driver for which every call of `Buffer::createUploadBuffer` succeeds; it reports
one memory type and a requirement size of 256 bytes. -/
def sampleBufferDriver : BufferDriver :=
  { createBufferResult := 0
    createdBuffer := 21
    memoryReqs := { size := 256, alignment := 16, memoryTypeBits := 1 }
    memoryTypes := [{ propertyFlags := 7, heapIndex := 0 }]
    allocateResult := 0
    allocatedMemory := 22
    initialContents := [170, 187, 204]
    bindResult := 0
    mapResult := 0 }

/-- The family pair with both indices 0. -/
def sampleFamilyPair : QueueFamilies := { graphics := 0, present := 0 }

/-- The variables of a sample whose swapchain has two images. -/
def sampleContext : FrameContext :=
  { device := 1, swapchain := 9, cmd := 3, graphicsQueue := 4, presentQueue := 5
    imageWaitSemaphore := 6, presentWaitSemaphore := 7, graphicsFamily := 0
    swapchainImages := [31, 32], renderpass := 8, swapchainFramebuffers := [41, 42]
    extent := ⟨800, 800⟩, pipeline := 10, vertexBuffer := 21, verticesSize := 36 }

/-- A window that asks to close when the loop condition is evaluated for the eleventh
time: ten iterations run. -/
def sampleShouldClose (k : Nat) : Bool := decide (10 ≤ k)

/-- A presentation engine that hands out the two images in turn. -/
def sampleAcquired (k : Nat) : Nat := k % 2

/-- The object `Swapchain::create` returns for `sampleDriver`, surface 7 and the
families 0 and 1. -/
def sampleCreated : Swapchain :=
  { surface := 7, swapchain := 9, capabilities := sampleSwapchain.capabilities
    extent := ⟨800, 800⟩, imageCount := 2, format := 50, colorSpace := 0
    m_images := [], m_imageViews := [] }

/-- A driver that reports two swapchain images and creates every view and framebuffer. -/
def sampleObjectsDriver : SwapchainObjectsDriver :=
  { swapchainImages := [31, 32], imageViewResults := [], imageViewBase := 50
    framebufferResults := [], framebufferBase := 40 }

/-- The variables of a teardown with two swapchain images and a vertex buffer. -/
def sampleTeardownContext : TeardownContext :=
  { vkInstance := 1, surface := 2, device := 3, commandPool := 4, swapchain := 9
    imageWaitSemaphore := 6, presentWaitSemaphore := 7, renderpass := 8, pipeline := 10
    pipelineLayout := 11, vertexShader := 12, fragmentShader := 13
    swapchainImages := [31, 32], swapchainImageViews := [50, 51], framebuffers := [40, 41]
    vertexBuffer := some { buffer := 21, memory := 22, m_device := 3 } }

/-- A driver on which every call of `Buffer::createUploadBuffer` succeeds, with two
memory types, type 0 device-local and type 1 host-visible and host-coherent, and a buffer
that may live in either (`memoryTypeBits = 0b11`). -/
def sampleBufferDriverTwoTypes : BufferDriver :=
  { sampleBufferDriver with
    memoryReqs := { size := 256, alignment := 16, memoryTypeBits := 3 }
    memoryTypes :=
      [{ propertyFlags := 1, heapIndex := 0 }, { propertyFlags := 6, heapIndex := 1 }] }

/-- A bootstrap in which every check passes and every creation call succeeds. -/
def sampleBootstrapDriver : BootstrapDriver :=
  { supportedInstanceExtensions := ["VK_KHR_surface", "VK_KHR_xcb_surface"]
    extensions := ["VK_KHR_surface", "VK_KHR_xcb_surface"]
    instanceResult := 0, surfaceResult := 0, deviceResult := 0, commandPoolResult := 0
    commandBufferResult := 0
    surfaceCapabilities := sampleSwapchain.capabilities
    surfaceFormats := [⟨44, 0⟩, ⟨50, 0⟩]
    swapchainResult := 0, swapchainImageCount := 2
    imageWaitSemaphoreResult := 0, presentWaitSemaphoreResult := 0
    renderPassResult := 0, imageViewResults := [], framebufferResults := []
    vertexShaderResult := 0, fragmentShaderResult := 0, pipelineLayoutResult := 0
    pipelineResult := 0 }

/-! # Theorems -/

/-! ## Machine integers -/

theorem toInt32_of_lt (n : Nat) (h : n < 2147483648) : toInt32 n = (n : Int) := by
  unfold toInt32
  omega

theorem toInt32_ne_neg_one_of_lt (n : Nat) (h : n < 2147483648) : toInt32 n ≠ -1 := by
  rw [toInt32_of_lt n h]
  omega

theorem toUInt32_of_nonneg (z : Int) (h0 : 0 ≤ z) (h1 : z < 4294967296) :
    (toUInt32 z : Int) = z := by
  unfold toUInt32
  omega

theorem toUInt32_toInt32 (n : Nat) (h : n < 2147483648) : toUInt32 (toInt32 n) = n := by
  rw [toInt32_of_lt n h]
  unfold toUInt32
  omega

/-! ## The last-match scan -/

theorem scanLast_of_none {α : Type} (p : α → Bool) (xs : List α) (i : Nat) (index : Int)
    (h : ∀ x ∈ xs, p x = false) : scanLast p xs i index = index := by
  induction xs generalizing i index with
  | nil => rfl
  | cons x rest ih =>
    have hx : p x = false := h x (List.mem_cons_self x rest)
    have hrest : ∀ y ∈ rest, p y = false := fun y hy => h y (List.mem_cons_of_mem x hy)
    simp [scanLast, hx, ih (i + 1) index hrest]

/-- Either no element satisfies `p` and the scan returns the initial value, or it returns
the converted position of the last element that satisfies `p`. -/
theorem scanLast_spec {α : Type} (p : α → Bool) (xs : List α) (i : Nat) (index : Int) :
    ((∀ x ∈ xs, p x = false) ∧ scanLast p xs i index = index) ∨
    (∃ j x, xs[j]? = some x ∧ p x = true ∧
      (∀ k y, j < k → xs[k]? = some y → p y = false) ∧
      scanLast p xs i index = toInt32 (i + j)) := by
  induction xs generalizing i index with
  | nil => left; exact ⟨by simp, rfl⟩
  | cons x rest ih =>
    rcases ih (i + 1) (if p x then toInt32 i else index) with
      ⟨hnone, _⟩ | ⟨j, y, hj, hy, hlast, hres⟩
    · by_cases hx : p x = true
      · right
        refine ⟨0, x, by simp, hx, ?_, ?_⟩
        · intro k y hk hky
          obtain ⟨k, rfl⟩ : ∃ m, k = m + 1 := ⟨k - 1, by omega⟩
          rw [List.getElem?_cons_succ] at hky
          exact hnone y (List.getElem?_mem hky)
        · simp [scanLast, hx, scanLast_of_none p rest (i + 1) (toInt32 i) hnone]
      · left
        have hx0 : p x = false := by simpa using hx
        refine ⟨?_, ?_⟩
        · intro y hy
          rcases List.mem_cons.mp hy with rfl | hy
          · exact hx0
          · exact hnone y hy
        · simp [scanLast, hx0, scanLast_of_none p rest (i + 1) index hnone]
    · right
      refine ⟨j + 1, y, by simpa using hj, hy, ?_, ?_⟩
      · intro k z hk hkz
        obtain ⟨k, rfl⟩ : ∃ m, k = m + 1 := ⟨k - 1, by omega⟩
        rw [List.getElem?_cons_succ] at hkz
        exact hlast k z (by omega) hkz
      · simp only [scanLast, hres]
        congr 1
        omega

theorem Memory.selectLoop_eq_scanLast (memoryReqs : VkMemoryRequirements) (flags : Nat)
    (memoryTypes : List VkMemoryType) (i : Nat) (index : Int) :
    Memory.selectLoop memoryReqs flags memoryTypes i index
      = scanLast (Memory.accepts memoryReqs flags) memoryTypes i index := by
  induction memoryTypes generalizing i index with
  | nil => rfl
  | cons t rest ih =>
    by_cases h1 : t.propertyFlags &&& flags = flags
    · by_cases h2 : t.propertyFlags &&& memoryReqs.memoryTypeBits = memoryReqs.memoryTypeBits
      · simp [Memory.selectLoop, scanLast, Memory.accepts, h1, h2, ih]
      · simp [Memory.selectLoop, scanLast, Memory.accepts, h1, h2, ih]
    · simp [Memory.selectLoop, scanLast, Memory.accepts, h1, ih]

/-! ## `Memory::select` -/

/-- What the loop of `Memory::select` delivers: when the call returns `i` (and at most
`2^31` types are reported), `i` is the position of the last reported type that passes
the two tests of the loop body. -/
theorem Memory.select_ok_last_accepted (memoryTypes : List VkMemoryType)
    (memoryReqs : VkMemoryRequirements) (flags i : Nat)
    (hlen : memoryTypes.length ≤ 2147483648)
    (h : Memory.select memoryTypes memoryReqs flags = .ok i) :
    ∃ t, memoryTypes[i]? = some t ∧ Memory.accepts memoryReqs flags t = true ∧
      ∀ k y, i < k → memoryTypes[k]? = some y → Memory.accepts memoryReqs flags y = false := by
  unfold Memory.select at h
  rw [Memory.selectLoop_eq_scanLast] at h
  rcases scanLast_spec (Memory.accepts memoryReqs flags) memoryTypes 0 (-1) with
    ⟨_, hres⟩ | ⟨j, t, hj, ht, hlast, hres⟩
  · simp [hres] at h
  · have hjlt : j < memoryTypes.length := (List.getElem?_eq_some.mp hj).1
    have hconv : toUInt32 (toInt32 (0 + j)) = j := by
      rw [Nat.zero_add]
      exact toUInt32_toInt32 j (by omega)
    rw [hres] at h
    simp only [ne_eq] at h
    split at h
    · injection h with h
      rw [hconv] at h
      subst h
      exact ⟨t, hj, ht, hlast⟩
    · cases h

/-- Claim C1 (the code departs from the claim).  `Memory::select` is evaluated on two
reported types, type 0 host-visible and host-coherent, type 1 device-local, for a
resource whose `memoryTypeBits` is `0b10` (only type 1 is compatible) and the requested
flag `HOST_COHERENT`: the call returns index 0 although bit 0 of `memoryTypeBits` is not
set.  The returned index is in range and its flags contain the request, but the
compatibility test of the loop compares `propertyFlags` with `memoryTypeBits` instead of
testing bit `i`. -/
theorem Memory.select_returns_incompatible_type :
    Memory.select [⟨6, 0⟩, ⟨1, 1⟩] ⟨256, 16, 2⟩ VK_MEMORY_PROPERTY_HOST_COHERENT_BIT = .ok 0
      ∧ (2 : Nat).testBit 0 = false
      ∧ Memory.qualifies [⟨6, 0⟩, ⟨1, 1⟩] ⟨256, 16, 2⟩
          VK_MEMORY_PROPERTY_HOST_COHERENT_BIT 0 = false := by
  decide

/-- Claim C2 (the code departs from the claim).  Two types are reported, type 0
device-local, type 1 device-local, host-visible and host-coherent; the resource allows
type 0 only (`memoryTypeBits = 0b01`) and `HOST_COHERENT` is requested.  No index
qualifies (type 0 lacks the flag, bit 1 is not set), yet `Memory::select` does not fail:
it returns index 1. -/
theorem Memory.select_returns_without_qualifying_type :
    (∀ i, Memory.qualifies [⟨1, 0⟩, ⟨7, 0⟩] ⟨64, 4, 1⟩
        VK_MEMORY_PROPERTY_HOST_COHERENT_BIT i = false)
      ∧ Memory.select [⟨1, 0⟩, ⟨7, 0⟩] ⟨64, 4, 1⟩ VK_MEMORY_PROPERTY_HOST_COHERENT_BIT
          = .ok 1 := by
  refine ⟨?_, by decide⟩
  intro i
  match i with
  | 0 => decide
  | 1 => decide
  | n + 2 => simp [Memory.qualifies]

/-! ## Surface negotiation -/

theorem clamp_mem_range (v lo hi : Nat) (h : lo ≤ hi) :
    lo ≤ clamp v lo hi ∧ clamp v lo hi ≤ hi := by
  unfold clamp
  split_ifs <;> omega

theorem clamp_of_mem_range (v lo hi : Nat) (h1 : lo ≤ v) (h2 : v ≤ hi) :
    clamp v lo hi = v := by
  unfold clamp
  split_ifs <;> omega

/-- Claim C3.  For a swapchain object whose capability record has
`minImageExtent ≤ maxImageExtent` componentwise and `minImageCount ≤ maxImageCount`,
after `selectExtent` and `selectImageCount` (run in the order `Swapchain::create` runs
them) the width, the height and the image count lie in the reported ranges, bounds
included, and each of them equals the desired value (800, 800, 2) whenever that value
lies in its range. -/
theorem Swapchain.select_within_capabilities (s : Swapchain)
    (hw : s.capabilities.minImageExtent.width ≤ s.capabilities.maxImageExtent.width)
    (hh : s.capabilities.minImageExtent.height ≤ s.capabilities.maxImageExtent.height)
    (hc : s.capabilities.minImageCount ≤ s.capabilities.maxImageCount) :
    let r := Swapchain.selectImageCount (Swapchain.selectExtent s)
    (s.capabilities.minImageExtent.width ≤ r.extent.width
        ∧ r.extent.width ≤ s.capabilities.maxImageExtent.width)
      ∧ (s.capabilities.minImageExtent.height ≤ r.extent.height
        ∧ r.extent.height ≤ s.capabilities.maxImageExtent.height)
      ∧ (s.capabilities.minImageCount ≤ r.imageCount
        ∧ r.imageCount ≤ s.capabilities.maxImageCount)
      ∧ (s.capabilities.minImageExtent.width ≤ 800
          → 800 ≤ s.capabilities.maxImageExtent.width → r.extent.width = 800)
      ∧ (s.capabilities.minImageExtent.height ≤ 800
          → 800 ≤ s.capabilities.maxImageExtent.height → r.extent.height = 800)
      ∧ (s.capabilities.minImageCount ≤ 2
          → 2 ≤ s.capabilities.maxImageCount → r.imageCount = 2) := by
  intro r
  refine ⟨clamp_mem_range 800 _ _ hw, clamp_mem_range 800 _ _ hh,
    clamp_mem_range 2 _ _ hc, ?_, ?_, ?_⟩
  · intro h1 h2
    exact clamp_of_mem_range 800 _ _ h1 h2
  · intro h1 h2
    exact clamp_of_mem_range 800 _ _ h1 h2
  · intro h1 h2
    exact clamp_of_mem_range 2 _ _ h1 h2

/-! ## Sharing mode -/

/-- Every create info that `Swapchain::create` hands to `vkCreateSwapchainKHR` is the one
built from some negotiated object and the two family indices of the call. -/
theorem Swapchain.create_createCall (driver : SwapchainDriver) (uninit : Swapchain)
    (surface : Nat) (g p : Int) (info : VkSwapchainCreateInfoKHR)
    (h : (Swapchain.create driver uninit surface g p).createCall = some info) :
    ∃ result, info = Swapchain.swapchainInfo result surface g p := by
  unfold Swapchain.create at h
  simp only [] at h
  split at h
  · cases h
  · split at h
    · cases h
    · split at h
      · cases h
      · rename_i result2 _
        split at h
        · exact ⟨result2, by injection h with h; exact h.symm⟩
        · exact ⟨result2, by injection h with h; exact h.symm⟩

/-- Claim C4.  Let `info` be the create info that `Swapchain::create` passes to
`vkCreateSwapchainKHR` for the family indices graphics `g` and present `p`, and `bi` the
create info that `Buffer::createUploadBuffer` passes to `vkCreateBuffer` for the same
pair.  If `g ≠ p` both name concurrent sharing, count 2 and the list `[p, g]` (as
`uint32_t`); if `g = p` both name exclusive sharing, count 0 and no list.  Hence sharing
is concurrent iff the indices differ, and the swapchain and the buffer get the same
configuration.  For resolved indices (`0 ≤ g, p < 2^31`) the conversion to `uint32_t`
changes nothing, so the list holds `p` and `g` themselves, two distinct numbers. -/
theorem Swapchain.sharing_mode_rule (driver : SwapchainDriver) (uninit : Swapchain)
    (surface : Nat) (g p : Int) (sizeInBytes usage : Nat) (info : VkSwapchainCreateInfoKHR)
    (h : (Swapchain.create driver uninit surface g p).createCall = some info) :
    let bi := Buffer.bufferInfo { graphics := g, present := p } sizeInBytes usage
    (g ≠ p →
        (info.imageSharingMode = .VK_SHARING_MODE_CONCURRENT
          ∧ info.queueFamilyIndexCount = 2
          ∧ info.pQueueFamilyIndices = some [toUInt32 p, toUInt32 g])
        ∧ (bi.sharingMode = .VK_SHARING_MODE_CONCURRENT
          ∧ bi.queueFamilyIndexCount = 2
          ∧ bi.pQueueFamilyIndices = some [toUInt32 p, toUInt32 g]))
      ∧ (g = p →
        (info.imageSharingMode = .VK_SHARING_MODE_EXCLUSIVE
          ∧ info.queueFamilyIndexCount = 0
          ∧ info.pQueueFamilyIndices = none)
        ∧ (bi.sharingMode = .VK_SHARING_MODE_EXCLUSIVE
          ∧ bi.queueFamilyIndexCount = 0
          ∧ bi.pQueueFamilyIndices = none))
      ∧ (info.imageSharingMode = .VK_SHARING_MODE_CONCURRENT ↔ g ≠ p)
      ∧ (bi.sharingMode = .VK_SHARING_MODE_CONCURRENT ↔ g ≠ p)
      ∧ (info.imageSharingMode = bi.sharingMode
          ∧ info.queueFamilyIndexCount = bi.queueFamilyIndexCount
          ∧ info.pQueueFamilyIndices = bi.pQueueFamilyIndices)
      ∧ (0 ≤ g → g < 2147483648 → 0 ≤ p → p < 2147483648 →
          (toUInt32 p : Int) = p ∧ (toUInt32 g : Int) = g
            ∧ (g ≠ p → toUInt32 p ≠ toUInt32 g)) := by
  obtain ⟨result, rfl⟩ := Swapchain.create_createCall driver uninit surface g p info h
  intro bi
  have hconv : 0 ≤ g → g < 2147483648 → 0 ≤ p → p < 2147483648 →
      (toUInt32 p : Int) = p ∧ (toUInt32 g : Int) = g
        ∧ (g ≠ p → toUInt32 p ≠ toUInt32 g) := by
    intro hg0 hg1 hp0 hp1
    have e1 := toUInt32_of_nonneg p hp0 (by omega)
    have e2 := toUInt32_of_nonneg g hg0 (by omega)
    refine ⟨e1, e2, ?_⟩
    intro hne heq
    apply hne
    rw [← e1, ← e2, heq]
  by_cases hgp : g = p
  · subst hgp
    simp [bi, Swapchain.swapchainInfo, Buffer.bufferInfo]
    intro h1 h2 _ _
    exact (hconv h1 h2 h1 h2).1
  · have hpg : p ≠ g := fun e => hgp e.symm
    simp [bi, Swapchain.swapchainInfo, Buffer.bufferInfo, hgp, hpg]
    intro h1 h2 h3 h4
    obtain ⟨e1, e2, e3⟩ := hconv h1 h2 h3 h4
    exact ⟨e1, e2, e3 hgp⟩

/-! ## The set of available names -/

theorem mem_stringSetInsert (name ext : String) (set : List String) :
    name ∈ stringSetInsert ext set ↔ name = ext ∨ name ∈ set := by
  unfold stringSetInsert
  split_ifs with h
  · constructor
    · exact fun hm => Or.inr hm
    · rintro (rfl | hm)
      · exact h
      · exact hm
  · exact List.mem_cons

theorem mem_foldl_stringSetInsert (supported : List String) (acc : List String)
    (name : String) :
    name ∈ supported.foldl (fun set ext => stringSetInsert ext set) acc
      ↔ name ∈ acc ∨ name ∈ supported := by
  induction supported generalizing acc with
  | nil => simp
  | cons ext rest ih =>
    rw [List.foldl_cons, ih, mem_stringSetInsert, List.mem_cons]
    tauto

/-- A freshly constructed registry reports exactly the enumerated names as available. -/
theorem Extensions.available_create (supported : List String) (name : String) :
    (Extensions.create supported).available name = true ↔ name ∈ supported := by
  simp [Extensions.available, Extensions.create, mem_foldl_stringSetInsert]

/-! ## `QueueFamilies::select` -/

theorem QueueFamilies.selectLoop_graphics (qs : List QueueFamilyAnswers) (i : Nat)
    (f : QueueFamilies) :
    (QueueFamilies.selectLoop qs i f).graphics
      = scanLast QueueFamilies.graphicsCapable qs i f.graphics := by
  induction qs generalizing i f with
  | nil => rfl
  | cons q rest ih =>
    simp only [QueueFamilies.selectLoop, scanLast, ih, QueueFamilies.graphicsCapable]
    by_cases h1 : q.queueFlags &&& VK_QUEUE_GRAPHICS_BIT = VK_QUEUE_GRAPHICS_BIT <;>
      by_cases h2 : (q.presentationSupport && q.surfaceSupport) = true <;>
      simp [h1, h2]

theorem QueueFamilies.selectLoop_present (qs : List QueueFamilyAnswers) (i : Nat)
    (f : QueueFamilies) :
    (QueueFamilies.selectLoop qs i f).present
      = scanLast QueueFamilies.presentCapable qs i f.present := by
  induction qs generalizing i f with
  | nil => rfl
  | cons q rest ih =>
    simp only [QueueFamilies.selectLoop, scanLast, ih, QueueFamilies.presentCapable]
    by_cases h1 : q.queueFlags &&& VK_QUEUE_GRAPHICS_BIT = VK_QUEUE_GRAPHICS_BIT <;>
      by_cases h2 : (q.presentationSupport && q.surfaceSupport) = true <;>
      simp [h1, h2]

/-- With at most `2^31` elements, a scan started at counter 0 with `-1` returns `-1` when
no element satisfies `p`, and otherwise the position of the last one that does. -/
theorem scanLast_zero_spec {α : Type} (p : α → Bool) (xs : List α)
    (hlen : xs.length ≤ 2147483648) :
    IsLastMatch p xs (scanLast p xs 0 (-1)) := by
  rcases scanLast_spec p xs 0 (-1) with h | ⟨j, x, hj, hx, hlast, hres⟩
  · exact Or.inl h
  · right
    have hjlt : j < xs.length := (List.getElem?_eq_some.mp hj).1
    refine ⟨j, x, hj, hx, hlast, ?_⟩
    rw [hres, Nat.zero_add]
    exact toInt32_of_lt j (by omega)

/-- Claim C8 (the claim as stated fails).  On two queue families that both have the
graphics bit and both can present, the first capable family is family 0 for either
index, but `QueueFamilies::select` leaves 1 in `graphics` and in `present`. -/
theorem QueueFamilies.select_not_first_family :
    ¬ ((QueueFamilies.select sampleFamilies).graphics
          = ((List.findIdx QueueFamilies.graphicsCapable sampleFamilies : Nat) : Int)
        ∧ (QueueFamilies.select sampleFamilies).present
          = ((List.findIdx QueueFamilies.presentCapable sampleFamilies : Nat) : Int)) := by
  decide

/-- Both indices that `QueueFamilies::select` computes are last matches of their tests
(at most `2^31` queue families, so that the stored counters are exact). -/
theorem QueueFamilies.select_isLastMatch (queueFamilies : List QueueFamilyAnswers)
    (hlen : queueFamilies.length ≤ 2147483648) :
    IsLastMatch QueueFamilies.graphicsCapable queueFamilies
        (QueueFamilies.select queueFamilies).graphics
      ∧ IsLastMatch QueueFamilies.presentCapable queueFamilies
        (QueueFamilies.select queueFamilies).present := by
  unfold QueueFamilies.select
  rw [QueueFamilies.selectLoop_graphics, QueueFamilies.selectLoop_present]
  exact ⟨scanLast_zero_spec _ _ hlen, scanLast_zero_spec _ _ hlen⟩

/-- Claim C8 (amended).  For every list of at most `2^31` queue families,
`QueueFamilies::select` sets `graphics` to the index of the last family whose queue flags
include the graphics bit, and `present` to the index of the last family for which both
the platform presentation-support query and the surface-support query answer yes; an
index for which no family qualifies stays at `-1`. -/
theorem QueueFamilies.select_last_family (queueFamilies : List QueueFamilyAnswers)
    (hlen : queueFamilies.length ≤ 2147483648) :
    IsLastMatch QueueFamilies.graphicsCapable queueFamilies
        (QueueFamilies.select queueFamilies).graphics
      ∧ IsLastMatch QueueFamilies.presentCapable queueFamilies
        (QueueFamilies.select queueFamilies).present := by
  exact QueueFamilies.select_isLastMatch queueFamilies hlen

/-- The amended C8 statement at `sampleFamilies`. -/
theorem QueueFamilies.select_last_family_witness :
    sampleFamilies.length ≤ 2147483648
      ∧ IsLastMatch QueueFamilies.graphicsCapable sampleFamilies
          (QueueFamilies.select sampleFamilies).graphics
      ∧ IsLastMatch QueueFamilies.presentCapable sampleFamilies
          (QueueFamilies.select sampleFamilies).present :=
  ⟨by decide, QueueFamilies.select_last_family sampleFamilies (by decide)⟩

/-! ## `PhysicalDevice::select` -/

theorem PhysicalDevice.selectLoop_of_none (ds : List PhysicalDeviceInfo)
    (cur : Option PhysicalDeviceInfo) (out : QueueFamilies)
    (h : ∀ d ∈ ds, PhysicalDevice.eligible d = false) :
    PhysicalDevice.selectLoop ds cur out = (cur, out) := by
  induction ds generalizing cur out with
  | nil => rfl
  | cons d rest ih =>
    have hd : PhysicalDevice.eligible d = false := h d (List.mem_cons_self d rest)
    have hrest : ∀ y ∈ rest, PhysicalDevice.eligible y = false :=
      fun y hy => h y (List.mem_cons_of_mem d hy)
    unfold PhysicalDevice.eligible at hd
    unfold PhysicalDevice.selectLoop
    by_cases hv : (QueueFamilies.select d.queueFamilies).valid = true
    · have ha : (Extensions.create d.deviceExtensions).available "VK_KHR_swapchain" = false := by
        simpa [hv] using hd
      simp [hv, ha, ih cur out hrest]
    · simp [hv, ih cur out hrest]

theorem PhysicalDevice.selectLoop_cons_eligible (d : PhysicalDeviceInfo)
    (rest : List PhysicalDeviceInfo) (cur : Option PhysicalDeviceInfo) (out : QueueFamilies)
    (h : PhysicalDevice.eligible d = true) :
    PhysicalDevice.selectLoop (d :: rest) cur out
      = PhysicalDevice.selectLoop rest (some d) (QueueFamilies.select d.queueFamilies) := by
  unfold PhysicalDevice.eligible at h
  have hv : (QueueFamilies.select d.queueFamilies).valid = true := by
    simp only [Bool.and_eq_true] at h
    exact h.1
  have ha : (Extensions.create d.deviceExtensions).available "VK_KHR_swapchain" = true := by
    simp only [Bool.and_eq_true] at h
    exact h.2
  conv => lhs; unfold PhysicalDevice.selectLoop
  simp [hv, ha]

theorem PhysicalDevice.selectLoop_cons_ineligible (d : PhysicalDeviceInfo)
    (rest : List PhysicalDeviceInfo) (cur : Option PhysicalDeviceInfo) (out : QueueFamilies)
    (h : PhysicalDevice.eligible d = false) :
    PhysicalDevice.selectLoop (d :: rest) cur out
      = PhysicalDevice.selectLoop rest cur out := by
  unfold PhysicalDevice.eligible at h
  conv => lhs; unfold PhysicalDevice.selectLoop
  by_cases hv : (QueueFamilies.select d.queueFamilies).valid = true
  · have ha : (Extensions.create d.deviceExtensions).available "VK_KHR_swapchain" = false := by
      simpa [hv] using h
    simp [hv, ha]
  · simp [hv]

/-- The loop of `PhysicalDevice::select` either meets no eligible device and leaves both
variables as they were, or ends with the last eligible device of the enumeration and the
family pair of that device. -/
theorem PhysicalDevice.selectLoop_spec (ds : List PhysicalDeviceInfo)
    (cur : Option PhysicalDeviceInfo) (out : QueueFamilies) :
    ((∀ d ∈ ds, PhysicalDevice.eligible d = false)
        ∧ PhysicalDevice.selectLoop ds cur out = (cur, out)) ∨
    (∃ (j : Nat) (d : PhysicalDeviceInfo), ds[j]? = some d ∧ PhysicalDevice.eligible d = true ∧
      (∀ (k : Nat) (y : PhysicalDeviceInfo), j < k → ds[k]? = some y →
        PhysicalDevice.eligible y = false) ∧
      PhysicalDevice.selectLoop ds cur out
        = (some d, QueueFamilies.select d.queueFamilies)) := by
  induction ds generalizing cur out with
  | nil => left; exact ⟨by simp, rfl⟩
  | cons d rest ih =>
    by_cases hd : PhysicalDevice.eligible d = true
    · rw [PhysicalDevice.selectLoop_cons_eligible d rest cur out hd]
      rcases ih (some d) (QueueFamilies.select d.queueFamilies) with
        ⟨hnone, hres⟩ | ⟨j, y, hj, hy, hlast, hres⟩
      · right
        refine ⟨0, d, by simp, hd, ?_, hres⟩
        intro k y hk hky
        obtain ⟨k, rfl⟩ : ∃ m, k = m + 1 := ⟨k - 1, by omega⟩
        rw [List.getElem?_cons_succ] at hky
        exact hnone y (List.getElem?_mem hky)
      · right
        refine ⟨j + 1, y, by simpa using hj, hy, ?_, hres⟩
        intro k z hk hkz
        obtain ⟨k, rfl⟩ : ∃ m, k = m + 1 := ⟨k - 1, by omega⟩
        rw [List.getElem?_cons_succ] at hkz
        exact hlast k z (by omega) hkz
    · have hd0 : PhysicalDevice.eligible d = false := by simpa using hd
      rw [PhysicalDevice.selectLoop_cons_ineligible d rest cur out hd0]
      rcases ih cur out with ⟨hnone, hres⟩ | ⟨j, y, hj, hy, hlast, hres⟩
      · left
        refine ⟨?_, hres⟩
        intro y hy
        rcases List.mem_cons.mp hy with rfl | hy
        · exact hd0
        · exact hnone y hy
      · right
        refine ⟨j + 1, y, by simpa using hj, hy, ?_, hres⟩
        intro k z hk hkz
        obtain ⟨k, rfl⟩ : ∃ m, k = m + 1 := ⟨k - 1, by omega⟩
        rw [List.getElem?_cons_succ] at hkz
        exact hlast k z (by omega) hkz

/-- A valid family pair computed from at most `2^31` queue families has two non-negative
indices. -/
theorem QueueFamilies.select_nonneg_of_valid (queueFamilies : List QueueFamilyAnswers)
    (hlen : queueFamilies.length ≤ 2147483648)
    (hvalid : (QueueFamilies.select queueFamilies).valid = true) :
    0 ≤ (QueueFamilies.select queueFamilies).graphics
      ∧ 0 ≤ (QueueFamilies.select queueFamilies).present := by
  obtain ⟨hg, hp⟩ := QueueFamilies.select_isLastMatch queueFamilies hlen
  simp only [QueueFamilies.valid, Bool.and_eq_true, bne_iff_ne, ne_eq] at hvalid
  constructor
  · rcases hg with ⟨_, h⟩ | ⟨j, _, _, _, _, h⟩
    · exact absurd h hvalid.1
    · rw [h]; exact Int.ofNat_nonneg j
  · rcases hp with ⟨_, h⟩ | ⟨j, _, _, _, _, h⟩
    · exact absurd h hvalid.2
    · rw [h]; exact Int.ofNat_nonneg j

/-- Claim C5.  Whenever `PhysicalDevice::select` returns a device `pd`, leaving `out` in the
caller's `outQueueFamilies`: `pd` is one of the enumerated devices, `out` is the family
pair `QueueFamilies::select` computes for `pd`, `out.valid()` holds, and `pd` reports
`VK_KHR_swapchain` among its device extensions.  Both indices are non-negative (the
device reporting at most `2^31` queue families, so that the stored counters are exact). -/
theorem PhysicalDevice.select_returns_eligible (physicalDevices : List PhysicalDeviceInfo)
    (outQueueFamilies out : QueueFamilies) (pd : PhysicalDeviceInfo)
    (h : PhysicalDevice.select physicalDevices outQueueFamilies = (.ok pd, out)) :
    pd ∈ physicalDevices
      ∧ out = QueueFamilies.select pd.queueFamilies
      ∧ out.valid = true
      ∧ (Extensions.create pd.deviceExtensions).available "VK_KHR_swapchain" = true
      ∧ "VK_KHR_swapchain" ∈ pd.deviceExtensions
      ∧ (pd.queueFamilies.length ≤ 2147483648 → 0 ≤ out.graphics ∧ 0 ≤ out.present) := by
  unfold PhysicalDevice.select at h
  rcases PhysicalDevice.selectLoop_spec physicalDevices none outQueueFamilies with
    ⟨_, hres⟩ | ⟨j, d, hj, hd, _, hres⟩
  · rw [hres] at h
    simp at h
  · rw [hres] at h
    simp only [Prod.mk.injEq, Except.ok.injEq] at h
    obtain ⟨rfl, rfl⟩ := h
    have hd2 := hd
    unfold PhysicalDevice.eligible at hd2
    simp only [Bool.and_eq_true] at hd2
    refine ⟨List.getElem?_mem hj, rfl, hd2.1, hd2.2,
      (Extensions.available_create _ _).mp hd2.2, ?_⟩
    intro hlen
    exact QueueFamilies.select_nonneg_of_valid d.queueFamilies hlen hd2.1

/-- The C5 statement at an enumeration of an ineligible and an eligible device. -/
theorem PhysicalDevice.select_returns_eligible_witness :
    PhysicalDevice.select [sampleDeviceC, sampleDeviceB] ⟨-1, -1⟩
        = (.ok sampleDeviceB, ⟨1, 1⟩)
      ∧ (sampleDeviceB ∈ [sampleDeviceC, sampleDeviceB]
        ∧ (⟨1, 1⟩ : QueueFamilies) = QueueFamilies.select sampleDeviceB.queueFamilies
        ∧ (⟨1, 1⟩ : QueueFamilies).valid = true
        ∧ (Extensions.create sampleDeviceB.deviceExtensions).available "VK_KHR_swapchain" = true
        ∧ "VK_KHR_swapchain" ∈ sampleDeviceB.deviceExtensions
        ∧ (sampleDeviceB.queueFamilies.length ≤ 2147483648 →
            0 ≤ (⟨1, 1⟩ : QueueFamilies).graphics ∧ 0 ≤ (⟨1, 1⟩ : QueueFamilies).present)) :=
  ⟨by decide,
    PhysicalDevice.select_returns_eligible [sampleDeviceC, sampleDeviceB] ⟨-1, -1⟩ ⟨1, 1⟩
      sampleDeviceB (by decide)⟩

/-- Claim C6 (the code departs from the claim and from its own comment "picks the first one
that supports our needs").  Two eligible devices are enumerated, `sampleDeviceA` first:
`PhysicalDevice::select` returns the second one, `sampleDeviceB`, and writes the family
pair of the second one.  The loop has no `break` after `physicalDevice = pd`. -/
theorem PhysicalDevice.select_returns_last_eligible :
    PhysicalDevice.eligible sampleDeviceA = true
      ∧ PhysicalDevice.eligible sampleDeviceB = true
      ∧ PhysicalDevice.select [sampleDeviceA, sampleDeviceB] ⟨-1, -1⟩
          = (.ok sampleDeviceB, QueueFamilies.select sampleDeviceB.queueFamilies)
      ∧ sampleDeviceB ≠ sampleDeviceA
      ∧ QueueFamilies.select sampleDeviceB.queueFamilies
          ≠ QueueFamilies.select sampleDeviceA.queueFamilies := by
  decide

/-- Claim C7.  When no enumerated device is eligible (the empty enumeration included),
`PhysicalDevice::select` stops at the assertion `physicalDevice != nullptr`, returns no
device, and the caller's `outQueueFamilies` holds the value it held before the call. -/
theorem PhysicalDevice.select_fails_without_eligible
    (physicalDevices : List PhysicalDeviceInfo) (outQueueFamilies : QueueFamilies)
    (h : ∀ d ∈ physicalDevices, PhysicalDevice.eligible d = false) :
    PhysicalDevice.select physicalDevices outQueueFamilies
      = (.error (.assertion "physicalDevice != nullptr"), outQueueFamilies) := by
  unfold PhysicalDevice.select
  rw [PhysicalDevice.selectLoop_of_none physicalDevices none outQueueFamilies h]

/-- The C7 statement at an enumeration of one ineligible device. -/
theorem PhysicalDevice.select_fails_without_eligible_witness :
    (∀ d ∈ [sampleDeviceC], PhysicalDevice.eligible d = false)
      ∧ PhysicalDevice.select [sampleDeviceC] ⟨5, 6⟩
          = (.error (.assertion "physicalDevice != nullptr"), ⟨5, 6⟩) :=
  ⟨by decide, PhysicalDevice.select_fails_without_eligible [sampleDeviceC] ⟨5, 6⟩ (by decide)⟩

/-- The C3 statement at `sampleSwapchain`: the desired width is kept. -/
theorem Swapchain.select_within_capabilities_witness :
    (sampleSwapchain.capabilities.minImageExtent.width
        ≤ sampleSwapchain.capabilities.maxImageExtent.width
      ∧ sampleSwapchain.capabilities.minImageExtent.height
        ≤ sampleSwapchain.capabilities.maxImageExtent.height
      ∧ sampleSwapchain.capabilities.minImageCount
        ≤ sampleSwapchain.capabilities.maxImageCount)
      ∧ (Swapchain.selectImageCount (Swapchain.selectExtent sampleSwapchain)).extent.width
          = 800 :=
  ⟨by decide,
    (Swapchain.select_within_capabilities sampleSwapchain (by decide) (by decide)
      (by decide)).2.2.2.1 (by decide) (by decide)⟩

/-- The C4 statement at a successful run of `Swapchain::create` with families 0 and 1. -/
theorem Swapchain.sharing_mode_rule_witness :
    (Swapchain.create sampleDriver Swapchain.empty 7 0 1).createCall = some sampleInfo
      ∧ (sampleInfo.imageSharingMode = .VK_SHARING_MODE_CONCURRENT ↔ (0 : Int) ≠ 1) :=
  ⟨by decide,
    (Swapchain.sharing_mode_rule sampleDriver Swapchain.empty 7 0 1 64 128 sampleInfo
      (by decide)).2.2.1⟩

/-! ## `Extensions::add` -/

/-- After an insertion the set holds a pointer with address `a` iff the inserted pointer
has address `a` or the set held one before. -/
theorem any_pointerSetInsert (p : CString) (set : List CString) (a : Nat) :
    (pointerSetInsert p set).any (fun q => q.addr == a)
      = (p.addr == a || set.any (fun q => q.addr == a)) := by
  induction set with
  | nil => simp [pointerSetInsert]
  | cons q rest ih =>
    unfold pointerSetInsert
    split_ifs with h1 h2
    · simp
    · simp only [List.any_cons, h2]
      cases (q.addr == a) <;> simp
    · simp only [List.any_cons, ih]
      cases (q.addr == a) <;> cases (p.addr == a) <;> simp

theorem any_foldl_pointerSetInsert (names : List CString) (set : List CString) (a : Nat) :
    (names.foldl (fun acc p => pointerSetInsert p acc) set).any (fun q => q.addr == a)
      = (set.any (fun q => q.addr == a) || names.any (fun q => q.addr == a)) := by
  induction names generalizing set with
  | nil => simp
  | cons n rest ih =>
    rw [List.foldl_cons, ih, any_pointerSetInsert, List.any_cons]
    cases (n.addr == a) <;> cases (set.any fun q => q.addr == a) <;> simp

theorem Extensions.add_of_available (e : Extensions) (n : CString) (t : Bool)
    (h : e.available n.chars = true) :
    e.add n t = ({ e with m_enabled := pointerSetInsert n e.m_enabled }, .ok true) := by
  simp [Extensions.add, h]

theorem Extensions.add_of_unavailable (e : Extensions) (n : CString) (t : Bool)
    (h : e.available n.chars = false) :
    e.add n t = (e, if t then .error (.thrown "Failed to load required extension")
      else .ok false) := by
  cases t <;> simp [Extensions.add, h]

/-- Claim C9.  For every registry state `e`, every name `n` and either value of `required`:
`add` returns `true` iff `n` is available; after a call that returned `true`, `enabled(n)`
is true; after a call that returned `false`, the enabled set is the one before the call
(and so is the whole registry). -/
theorem Extensions.add_returns_true_iff_available (e : Extensions) (n : CString)
    (required : Bool) :
    ((e.add n required).2 = .ok true ↔ e.available n.chars = true)
      ∧ ((e.add n required).2 = .ok true → (e.add n required).1.enabled n = true)
      ∧ ((e.add n required).2 = .ok false →
          (e.add n required).1.m_enabled = e.m_enabled ∧ (e.add n required).1 = e) := by
  by_cases h : e.available n.chars = true
  · rw [Extensions.add_of_available e n required h]
    refine ⟨by simp [h], ?_, by simp⟩
    intro _
    simp [Extensions.enabled, any_pointerSetInsert]
  · have h0 : e.available n.chars = false := by simpa using h
    rw [Extensions.add_of_unavailable e n required h0]
    cases required <;> simp [h0]

/-- The C9 statement at `sampleRegistry` and an available name. -/
theorem Extensions.add_returns_true_iff_available_witness :
    (sampleRegistry.add sampleNameSurface false).2 = .ok true
      ∧ (sampleRegistry.add sampleNameSurface false).1.enabled sampleNameSurface = true :=
  ⟨by decide,
    (Extensions.add_returns_true_iff_available sampleRegistry sampleNameSurface false).2.1
      (by decide)⟩

/-- With `throwIfNotSupported` set, the loop of the array overload stops at the first
unavailable name: the names before it have been inserted into the enabled set, in order,
and the exception of the single `add` leaves the loop. -/
theorem Extensions.addArrayLoop_throws_at_first (pre : List CString) (n : CString)
    (post : List CString) (i : Nat) (e : Extensions) (results : List Bool)
    (hpre : ∀ q ∈ pre, e.available q.chars = true) (hn : e.available n.chars = false) :
    Extensions.addArrayLoop true (pre ++ n :: post) i e results
      = ({ e with m_enabled := pre.foldl (fun acc q => pointerSetInsert q acc) e.m_enabled },
          .error (.thrown "Failed to load required extension")) := by
  induction pre generalizing i e results with
  | nil =>
    simp [Extensions.addArrayLoop, Extensions.add_of_unavailable e n true hn]
  | cons q rest ih =>
    have hq : e.available q.chars = true := hpre q (List.mem_cons_self q rest)
    have hrest : ∀ r ∈ rest, e.available r.chars = true :=
      fun r hr => hpre r (List.mem_cons_of_mem q hr)
    simp only [List.cons_append, Extensions.addArrayLoop,
      Extensions.add_of_available e q true hq]
    exact (ih (i + 1) { e with m_enabled := pointerSetInsert q e.m_enabled }
      (results.set i true) hrest hn).trans (by simp)

theorem Extensions.addArrayLoop_all_available (t : Bool) (names : List CString) (i : Nat)
    (e : Extensions) (results : List Bool)
    (h : ∀ q ∈ names, e.available q.chars = true) :
    ∃ rs, Extensions.addArrayLoop t names i e results
      = ({ e with m_enabled := names.foldl (fun acc q => pointerSetInsert q acc) e.m_enabled },
          .ok rs) := by
  induction names generalizing i e results with
  | nil => exact ⟨results, rfl⟩
  | cons q rest ih =>
    have hq : e.available q.chars = true := h q (List.mem_cons_self q rest)
    have hrest : ∀ r ∈ rest, e.available r.chars = true :=
      fun r hr => h r (List.mem_cons_of_mem q hr)
    simp only [Extensions.addArrayLoop, Extensions.add_of_available e q t hq]
    obtain ⟨rs, hrs⟩ := ih (i + 1) { e with m_enabled := pointerSetInsert q e.m_enabled }
      (results.set i true) hrest
    exact ⟨rs, by rw [hrs]; simp⟩

theorem Extensions.addArrayLoop_no_throw (names : List CString) (i : Nat)
    (e : Extensions) (results : List Bool) :
    ∃ rs, (Extensions.addArrayLoop false names i e results).2 = .ok rs := by
  induction names generalizing i e results with
  | nil => exact ⟨results, rfl⟩
  | cons q rest ih =>
    by_cases hq : e.available q.chars = true
    · simp only [Extensions.addArrayLoop, Extensions.add_of_available e q false hq]
      exact ih _ _ _
    · have hq0 : e.available q.chars = false := by simpa using hq
      simp only [Extensions.addArrayLoop, Extensions.add_of_unavailable e q false hq0]
      exact ih _ _ _

theorem exists_first_unavailable (e : Extensions) (names : List CString)
    (h : ∃ q ∈ names, e.available q.chars = false) :
    ∃ pre n post, names = pre ++ n :: post ∧ (∀ q ∈ pre, e.available q.chars = true)
      ∧ e.available n.chars = false := by
  induction names with
  | nil => simp at h
  | cons q rest ih =>
    by_cases hq : e.available q.chars = true
    · have hrest : ∃ r ∈ rest, e.available r.chars = false := by
        obtain ⟨r, hr, hra⟩ := h
        rcases List.mem_cons.mp hr with rfl | hr
        · rw [hq] at hra; cases hra
        · exact ⟨r, hr, hra⟩
      obtain ⟨pre, n, post, hsplit, hpre, hn⟩ := ih hrest
      refine ⟨q :: pre, n, post, by rw [hsplit]; rfl, ?_, hn⟩
      intro r hr
      rcases List.mem_cons.mp hr with rfl | hr
      · exact hq
      · exact hpre r hr
    · exact ⟨[], q, rest, rfl, by simp, by simpa using hq⟩

/-- Claim C10.  For every registry state `e`, name `n` and flag `throwIfNotSupported`,
`add` throws iff `n` is not available and the flag is set, and a call that throws leaves
the registry (so the enabled set) as it was.  The array overload throws iff the flag is
set and some name of the array is not available; when the array is `pre ++ n :: post`
with every name of `pre` available and `n` not, the call with the flag set throws, the
registry it leaves is the one a call on `pre` alone leaves (nothing of `n :: post` is
processed), every name of `pre` is enabled, and a pointer is enabled afterwards iff it was
enabled before or has the address of a name of `pre`. -/
theorem Extensions.add_throws_iff_unavailable_and_required (e : Extensions) (n : CString)
    (throwIfNotSupported : Bool) (names pre post : List CString) :
    ((∃ err, (e.add n throwIfNotSupported).2 = .error err)
        ↔ (e.available n.chars = false ∧ throwIfNotSupported = true))
      ∧ (∀ err, (e.add n throwIfNotSupported).2 = .error err →
          err = .thrown "Failed to load required extension"
            ∧ (e.add n throwIfNotSupported).1 = e)
      ∧ ((∃ err, (e.addArray names throwIfNotSupported).2 = .error err)
        ↔ (throwIfNotSupported = true ∧ ∃ q ∈ names, e.available q.chars = false))
      ∧ ((∀ q ∈ pre, e.available q.chars = true) → e.available n.chars = false →
          (e.addArray (pre ++ n :: post) true).2
              = .error (.thrown "Failed to load required extension")
            ∧ (e.addArray (pre ++ n :: post) true).1 = (e.addArray pre true).1
            ∧ (∀ q ∈ pre, (e.addArray (pre ++ n :: post) true).1.enabled q = true)
            ∧ (∀ q, (e.addArray (pre ++ n :: post) true).1.enabled q = true
                ↔ (e.enabled q = true ∨ ∃ r ∈ pre, r.addr = q.addr))) := by
  refine ⟨?_, ?_, ?_, ?_⟩
  · by_cases h : e.available n.chars = true
    · rw [Extensions.add_of_available e n throwIfNotSupported h]
      simp [h]
    · have h0 : e.available n.chars = false := by simpa using h
      rw [Extensions.add_of_unavailable e n throwIfNotSupported h0]
      cases throwIfNotSupported <;> simp [h0]
  · intro err herr
    by_cases h : e.available n.chars = true
    · rw [Extensions.add_of_available e n throwIfNotSupported h] at herr
      cases herr
    · have h0 : e.available n.chars = false := by simpa using h
      rw [Extensions.add_of_unavailable e n throwIfNotSupported h0] at herr ⊢
      cases throwIfNotSupported
      · cases herr
      · simp only [if_true] at herr
        injection herr with herr
        exact ⟨herr.symm, rfl⟩
  · unfold Extensions.addArray
    constructor
    · rintro ⟨err, herr⟩
      cases throwIfNotSupported
      · obtain ⟨rs, hrs⟩ := Extensions.addArrayLoop_no_throw names 0 e
          (List.replicate names.length false)
        rw [hrs] at herr
        cases herr
      · refine ⟨rfl, ?_⟩
        by_contra hall
        have hall2 : ∀ q ∈ names, e.available q.chars = true := by
          intro q hq
          by_contra hqa
          exact hall ⟨q, hq, by simpa using hqa⟩
        obtain ⟨rs, hrs⟩ := Extensions.addArrayLoop_all_available true names 0 e
          (List.replicate names.length false) hall2
        rw [hrs] at herr
        cases herr
    · rintro ⟨rfl, hex⟩
      obtain ⟨pre2, n2, post2, rfl, hpre2, hn2⟩ := exists_first_unavailable e names hex
      rw [Extensions.addArrayLoop_throws_at_first pre2 n2 post2 0 e _ hpre2 hn2]
      exact ⟨_, rfl⟩
  · intro hpre hn
    unfold Extensions.addArray
    rw [Extensions.addArrayLoop_throws_at_first pre n post 0 e _ hpre hn]
    obtain ⟨rs, hrs⟩ := Extensions.addArrayLoop_all_available true pre 0 e
      (List.replicate pre.length false) hpre
    rw [hrs]
    have hen : ∀ q : CString,
        (Extensions.enabled
          { e with m_enabled := pre.foldl (fun acc q => pointerSetInsert q acc) e.m_enabled }
          q = true) ↔ (e.enabled q = true ∨ ∃ r ∈ pre, r.addr = q.addr) := by
      intro q
      simp [Extensions.enabled, any_foldl_pointerSetInsert]
    refine ⟨rfl, rfl, ?_, hen⟩
    intro q hq
    exact (hen q).mpr (Or.inr ⟨q, hq, rfl⟩)

/-- The C10 statement at an array whose second name is not available. -/
theorem Extensions.add_throws_iff_unavailable_and_required_witness :
    ((∀ q ∈ [sampleNameSurface], sampleRegistry.available q.chars = true)
        ∧ sampleRegistry.available sampleNameDebug.chars = false)
      ∧ (sampleRegistry.addArray ([sampleNameSurface] ++ sampleNameDebug :: [sampleNameXcb])
            true).2 = .error (.thrown "Failed to load required extension") :=
  ⟨by decide,
    ((Extensions.add_throws_iff_unavailable_and_required sampleRegistry sampleNameDebug true
      [] [sampleNameSurface] [sampleNameXcb]).2.2.2 (by decide) (by decide)).1⟩

/-! ## Idempotence of `Extensions::add` and the registry invariant -/

theorem pointerSetInsert_idem (p : CString) (set : List CString) :
    pointerSetInsert p (pointerSetInsert p set) = pointerSetInsert p set := by
  induction set with
  | nil => simp [pointerSetInsert]
  | cons q rest ih =>
    by_cases h1 : p.addr < q.addr
    · simp [pointerSetInsert, h1]
    · by_cases h2 : p.addr = q.addr
      · simp [pointerSetInsert, h2]
      · simp [pointerSetInsert, h1, h2, ih]

/-- What the code does guarantee: a second `add` with the same pointer returns `true` and
leaves the registry as the first call left it. -/
theorem Extensions.add_same_pointer_idem (e : Extensions) (n : CString) (t1 t2 : Bool)
    (h : e.available n.chars = true) :
    (e.add n t1).1.add n t2 = ((e.add n t1).1, .ok true) := by
  rw [Extensions.add_of_available e n t1 h]
  have h2 : Extensions.available { e with m_enabled := pointerSetInsert n e.m_enabled }
      n.chars = true := h
  rw [Extensions.add_of_available _ n t2 h2]
  simp [pointerSetInsert_idem]

/-- Claim C11 (the code departs from the claim).  On a registry in which `VK_KHR_surface`
is available, `add` is called with a pointer to these characters and then with another
pointer to the same characters.  The second call returns `true`, but the enabled set is
not the one the first call left: it holds both pointers, and `get()` returns the name
twice.  The set `m_enabled` is keyed by address, not by characters. -/
theorem Extensions.add_same_characters_twice :
    sampleNameSurfaceCopy.chars = sampleNameSurface.chars
      ∧ sampleRegistry.available sampleNameSurface.chars = true
      ∧ (sampleRegistry.add sampleNameSurface false).1.get = [sampleNameSurface]
      ∧ ((sampleRegistry.add sampleNameSurface false).1.add sampleNameSurfaceCopy false).2
          = .ok true
      ∧ ((sampleRegistry.add sampleNameSurface false).1.add sampleNameSurfaceCopy false).1.get
          = [sampleNameSurface, sampleNameSurfaceCopy]
      ∧ ((sampleRegistry.add sampleNameSurface false).1.add sampleNameSurfaceCopy
            false).1.m_enabled
          ≠ (sampleRegistry.add sampleNameSurface false).1.m_enabled := by
  decide

theorem mem_pointerSetInsert (q p : CString) (set : List CString)
    (h : q ∈ pointerSetInsert p set) : q = p ∨ q ∈ set := by
  induction set with
  | nil =>
    simp only [pointerSetInsert, List.mem_singleton] at h
    exact Or.inl h
  | cons r rest ih =>
    unfold pointerSetInsert at h
    split_ifs at h with h1 h2
    · rcases List.mem_cons.mp h with h | h
      · exact Or.inl h
      · exact Or.inr h
    · exact Or.inr h
    · rcases List.mem_cons.mp h with h | h
      · exact Or.inr (h ▸ List.mem_cons_self r rest)
      · rcases ih h with h | h
        · exact Or.inl h
        · exact Or.inr (List.mem_cons_of_mem r h)

/-- A single `add` keeps the available set and keeps every enabled name available. -/
theorem Extensions.add_preserves (e : Extensions) (n : CString) (t : Bool)
    (hinv : ∀ q ∈ e.m_enabled, q.chars ∈ e.m_available) :
    (e.add n t).1.m_available = e.m_available
      ∧ ∀ q ∈ (e.add n t).1.m_enabled, q.chars ∈ e.m_available := by
  by_cases h : e.available n.chars = true
  · rw [Extensions.add_of_available e n t h]
    refine ⟨rfl, ?_⟩
    intro q hq
    rcases mem_pointerSetInsert q n e.m_enabled hq with rfl | hq
    · simpa [Extensions.available] using h
    · exact hinv q hq
  · have h0 : e.available n.chars = false := by simpa using h
    rw [Extensions.add_of_unavailable e n t h0]
    exact ⟨rfl, hinv⟩

theorem Extensions.addArrayLoop_preserves (t : Bool) (names : List CString) (i : Nat)
    (e : Extensions) (results : List Bool)
    (hinv : ∀ q ∈ e.m_enabled, q.chars ∈ e.m_available) :
    (Extensions.addArrayLoop t names i e results).1.m_available = e.m_available
      ∧ ∀ q ∈ (Extensions.addArrayLoop t names i e results).1.m_enabled,
          q.chars ∈ e.m_available := by
  induction names generalizing i e results with
  | nil => exact ⟨rfl, hinv⟩
  | cons n rest ih =>
    obtain ⟨ha, hb⟩ := Extensions.add_preserves e n t hinv
    unfold Extensions.addArrayLoop
    cases hres : e.add n t with
    | mk e1 r =>
      rw [hres] at ha hb
      simp only at ha hb
      cases r with
      | error err => exact ⟨ha, hb⟩
      | ok b =>
        simp only
        obtain ⟨hc, hd⟩ := ih (i + 1) e1 (results.set i b) (by rw [ha]; exact hb)
        rw [ha] at hc hd
        exact ⟨hc, hd⟩

theorem Extensions.afterCall_preserves (e : Extensions) (call : ExtensionsCall)
    (hinv : ∀ q ∈ e.m_enabled, q.chars ∈ e.m_available) :
    (e.afterCall call).m_available = e.m_available
      ∧ ∀ q ∈ (e.afterCall call).m_enabled, q.chars ∈ e.m_available := by
  cases call with
  | add n t => exact Extensions.add_preserves e n t hinv
  | addArray names t =>
    exact Extensions.addArrayLoop_preserves t names 0 e _ hinv
  | addRequiredGLFW names =>
    have h := Extensions.addArrayLoop_preserves true names 0 e
      (List.replicate names.length false) hinv
    simp only [Extensions.afterCall, Extensions.addRequiredGLFW, Extensions.addArray]
    cases hres : Extensions.addArrayLoop true names 0 e (List.replicate names.length false) with
    | mk e1 r =>
      rw [hres] at h
      cases r <;> exact h

theorem Extensions.afterCalls_preserves (e : Extensions) (calls : List ExtensionsCall)
    (hinv : ∀ q ∈ e.m_enabled, q.chars ∈ e.m_available) :
    (e.afterCalls calls).m_available = e.m_available
      ∧ ∀ q ∈ (e.afterCalls calls).m_enabled, q.chars ∈ e.m_available := by
  induction calls generalizing e with
  | nil => exact ⟨rfl, hinv⟩
  | cons call rest ih =>
    obtain ⟨ha, hb⟩ := Extensions.afterCall_preserves e call hinv
    obtain ⟨hc, hd⟩ := ih (e.afterCall call) (by rw [ha]; exact hb)
    rw [ha] at hc hd
    exact ⟨hc, hd⟩

/-- Claim C12.  Start from a freshly constructed registry (any list of supported names,
empty enabled set) and apply any finite sequence of calls of `add`, of its array overload
and of `addRequiredGLFW`, with any arguments, throwing or not.  Afterwards the available
set is the one the constructor built, and every pointer in the enabled set points to
characters that are in the available set: they are reported by `available` and they are
among the supported names. -/
theorem Extensions.enabled_subset_available (supported : List String)
    (calls : List ExtensionsCall) :
    ((Extensions.create supported).afterCalls calls).m_available
        = (Extensions.create supported).m_available
      ∧ ∀ q ∈ ((Extensions.create supported).afterCalls calls).m_enabled,
          ((Extensions.create supported).afterCalls calls).available q.chars = true
            ∧ q.chars ∈ supported := by
  have hinv : ∀ q ∈ (Extensions.create supported).m_enabled,
      q.chars ∈ (Extensions.create supported).m_available := by
    intro q hq
    simp [Extensions.create] at hq
  obtain ⟨ha, hb⟩ := Extensions.afterCalls_preserves (Extensions.create supported) calls hinv
  refine ⟨ha, ?_⟩
  intro q hq
  have hmem := hb q hq
  refine ⟨?_, ?_⟩
  · simp only [Extensions.available, ha, decide_eq_true_eq]
    exact hmem
  · have := (Extensions.available_create supported q.chars).mp
      (by simp only [Extensions.available, decide_eq_true_eq]; exact hmem)
    exact this

/-! ## `Swapchain::selectFormat` -/

theorem Swapchain.selectFormatLoop_of_none (formats : List VkSurfaceFormatKHR)
    (s : Swapchain) (h : ∀ f ∈ formats, f.format ≠ VK_FORMAT_B8G8R8A8_SRGB) :
    Swapchain.selectFormatLoop formats s = s := by
  induction formats generalizing s with
  | nil => rfl
  | cons f rest ih =>
    have hf : f.format ≠ VK_FORMAT_B8G8R8A8_SRGB := h f (List.mem_cons_self f rest)
    have hrest : ∀ y ∈ rest, y.format ≠ VK_FORMAT_B8G8R8A8_SRGB :=
      fun y hy => h y (List.mem_cons_of_mem f hy)
    simp [Swapchain.selectFormatLoop, hf, ih s hrest]

/-- The loop of `Swapchain::selectFormat` leaves the object untouched when no entry has
the preferred format, and otherwise stores the format and colour space of the last entry
that has it. -/
theorem Swapchain.selectFormatLoop_spec (formats : List VkSurfaceFormatKHR) (s : Swapchain) :
    ((∀ f ∈ formats, f.format ≠ VK_FORMAT_B8G8R8A8_SRGB)
        ∧ Swapchain.selectFormatLoop formats s = s) ∨
    (∃ (j : Nat) (f : VkSurfaceFormatKHR), formats[j]? = some f
      ∧ f.format = VK_FORMAT_B8G8R8A8_SRGB
      ∧ (∀ (k : Nat) (y : VkSurfaceFormatKHR), j < k → formats[k]? = some y →
          y.format ≠ VK_FORMAT_B8G8R8A8_SRGB)
      ∧ Swapchain.selectFormatLoop formats s
          = { s with format := f.format, colorSpace := f.colorSpace }) := by
  induction formats generalizing s with
  | nil => left; exact ⟨by simp, rfl⟩
  | cons f rest ih =>
    by_cases hf : f.format = VK_FORMAT_B8G8R8A8_SRGB
    · right
      rcases ih { s with format := f.format, colorSpace := f.colorSpace } with
        ⟨hnone, hres⟩ | ⟨j, y, hj, hy, hlast, hres⟩
      · refine ⟨0, f, by simp, hf, ?_, ?_⟩
        · intro k y hk hky
          obtain ⟨k, rfl⟩ : ∃ m, k = m + 1 := ⟨k - 1, by omega⟩
          rw [List.getElem?_cons_succ] at hky
          exact hnone y (List.getElem?_mem hky)
        · simp only [Swapchain.selectFormatLoop, hf, if_true]
          rw [← hf]
          exact hres
      · refine ⟨j + 1, y, by simpa using hj, hy, ?_, ?_⟩
        · intro k z hk hkz
          obtain ⟨k, rfl⟩ : ∃ m, k = m + 1 := ⟨k - 1, by omega⟩
          rw [List.getElem?_cons_succ] at hkz
          exact hlast k z (by omega) hkz
        · simp only [Swapchain.selectFormatLoop, hf, if_true]
          rw [← hf]
          exact hres
    · rcases ih s with ⟨hnone, hres⟩ | ⟨j, y, hj, hy, hlast, hres⟩
      · left
        refine ⟨?_, ?_⟩
        · intro y hy
          rcases List.mem_cons.mp hy with rfl | hy
          · exact hf
          · exact hnone y hy
        · simp [Swapchain.selectFormatLoop, hf, hres]
      · right
        refine ⟨j + 1, y, by simpa using hj, hy, ?_, ?_⟩
        · intro k z hk hkz
          obtain ⟨k, rfl⟩ : ∃ m, k = m + 1 := ⟨k - 1, by omega⟩
          rw [List.getElem?_cons_succ] at hkz
          exact hlast k z (by omega) hkz
        · simp [Swapchain.selectFormatLoop, hf, hres]

/-- The inline loop of 000_clear keeps `selectedFormat` when no entry has the preferred
format, and otherwise ends with the last entry that has it. -/
theorem Sample000Clear.inlineFormatLoop_spec (formats : List VkSurfaceFormatKHR)
    (selected : VkSurfaceFormatKHR) :
    ((∀ f ∈ formats, f.format ≠ VK_FORMAT_B8G8R8A8_SRGB)
        ∧ Sample000Clear.selectFormatLoop formats selected = selected) ∨
    (∃ (j : Nat) (f : VkSurfaceFormatKHR), formats[j]? = some f
      ∧ f.format = VK_FORMAT_B8G8R8A8_SRGB
      ∧ (∀ (k : Nat) (y : VkSurfaceFormatKHR), j < k → formats[k]? = some y →
          y.format ≠ VK_FORMAT_B8G8R8A8_SRGB)
      ∧ Sample000Clear.selectFormatLoop formats selected = f) := by
  induction formats generalizing selected with
  | nil => left; exact ⟨by simp, rfl⟩
  | cons f rest ih =>
    by_cases hf : f.format = VK_FORMAT_B8G8R8A8_SRGB
    · right
      rcases ih f with ⟨hnone, hres⟩ | ⟨j, y, hj, hy, hlast, hres⟩
      · refine ⟨0, f, by simp, hf, ?_, ?_⟩
        · intro k y hk hky
          obtain ⟨k, rfl⟩ : ∃ m, k = m + 1 := ⟨k - 1, by omega⟩
          rw [List.getElem?_cons_succ] at hky
          exact hnone y (List.getElem?_mem hky)
        · simp only [Sample000Clear.selectFormatLoop, hf, if_true]
          exact hres
      · refine ⟨j + 1, y, by simpa using hj, hy, ?_, ?_⟩
        · intro k z hk hkz
          obtain ⟨k, rfl⟩ : ∃ m, k = m + 1 := ⟨k - 1, by omega⟩
          rw [List.getElem?_cons_succ] at hkz
          exact hlast k z (by omega) hkz
        · simp only [Sample000Clear.selectFormatLoop, hf, if_true]
          exact hres
    · rcases ih selected with ⟨hnone, hres⟩ | ⟨j, y, hj, hy, hlast, hres⟩
      · left
        refine ⟨?_, ?_⟩
        · intro y hy
          rcases List.mem_cons.mp hy with rfl | hy
          · exact hf
          · exact hnone y hy
        · simp [Sample000Clear.selectFormatLoop, hf, hres]
      · right
        refine ⟨j + 1, y, by simpa using hj, hy, ?_, ?_⟩
        · intro k z hk hkz
          obtain ⟨k, rfl⟩ : ∃ m, k = m + 1 := ⟨k - 1, by omega⟩
          rw [List.getElem?_cons_succ] at hkz
          exact hlast k z (by omega) hkz
        · simp [Sample000Clear.selectFormatLoop, hf, hres]

/-- Claim C13 (the code departs from the claim).  The driver reports the two formats
`B8G8R8A8_UNORM` and `R8G8B8A8_UNORM`, the preferred format is not among them, and every
call succeeds.  `Swapchain::selectFormat` returns with `format` and `colorSpace` holding
what they held before the call (here the stale values of the default-initialised
object), not the first entry `(44, 0)`; `Swapchain::create` passes these values on to
`vkCreateSwapchainKHR`.  The local `selectedFormat` receives the fallback but is never
copied to the members.  The inline selection of 000_clear, on the same list, selects the
first entry. -/
theorem Swapchain.selectFormat_ignores_fallback :
    (∀ f ∈ sampleDriverNoSrgb.surfaceFormats, f.format ≠ VK_FORMAT_B8G8R8A8_SRGB)
      ∧ sampleDriverNoSrgb.surfaceFormats.head? = some ⟨44, 0⟩
      ∧ Swapchain.selectFormat sampleDriverNoSrgb sampleUninit = .ok sampleUninit
      ∧ sampleUninit.format = 3735928559 ∧ sampleUninit.colorSpace = 12345
      ∧ ((Swapchain.create sampleDriverNoSrgb sampleUninit 7 0 0).createCall.map
          (fun info => (info.imageFormat, info.imageColorSpace))) = some (3735928559, 12345)
      ∧ Sample000Clear.selectFormat sampleDriverNoSrgb.surfaceFormats = .ok ⟨44, 0⟩ := by
  decide

/-- Claim C14.  When both format queries succeed and at least one reported entry has the
preferred format `B8G8R8A8_SRGB`, `Swapchain::selectFormat` returns, and the object it
leaves differs from the one it got only in `format` and `colorSpace`, which are those of
the last reported entry with the preferred format; the selected pair is an element of
the reported list.  The inline selection of 000_clear selects the same entry. -/
theorem Swapchain.selectFormat_last_preferred (driver : SwapchainDriver) (s : Swapchain)
    (h1 : driver.formatCountResult = VK_SUCCESS) (h2 : driver.formatsResult = VK_SUCCESS)
    (h3 : ∃ f ∈ driver.surfaceFormats, f.format = VK_FORMAT_B8G8R8A8_SRGB) :
    ∃ (j : Nat) (f : VkSurfaceFormatKHR), driver.surfaceFormats[j]? = some f
      ∧ f.format = VK_FORMAT_B8G8R8A8_SRGB
      ∧ (∀ (k : Nat) (y : VkSurfaceFormatKHR), j < k → driver.surfaceFormats[k]? = some y →
          y.format ≠ VK_FORMAT_B8G8R8A8_SRGB)
      ∧ Swapchain.selectFormat driver s
          = .ok { s with format := f.format, colorSpace := f.colorSpace }
      ∧ (⟨f.format, f.colorSpace⟩ : VkSurfaceFormatKHR) ∈ driver.surfaceFormats
      ∧ Sample000Clear.selectFormat driver.surfaceFormats = .ok f := by
  obtain ⟨g, hg, hgf⟩ := h3
  rcases Swapchain.selectFormatLoop_spec driver.surfaceFormats s with
    ⟨hnone, _⟩ | ⟨j, f, hj, hf, hlast, hres⟩
  · exact absurd hgf (hnone g hg)
  · refine ⟨j, f, hj, hf, hlast, ?_, List.getElem?_mem hj, ?_⟩
    · unfold Swapchain.selectFormat
      rw [if_neg (by simp [h1]), if_neg (by simp [h2])]
      cases hlist : driver.surfaceFormats with
      | nil => rw [hlist] at hg; cases hg
      | cons first rest =>
        simp only
        rw [← hlist, hres]
    · unfold Sample000Clear.selectFormat
      cases hlist : driver.surfaceFormats with
      | nil => rw [hlist] at hg; cases hg
      | cons first rest =>
        simp only
        rw [← hlist]
        rcases Sample000Clear.inlineFormatLoop_spec driver.surfaceFormats first with
          ⟨hnone, _⟩ | ⟨j2, f2, hj2, hf2, hlast2, hres2⟩
        · exact absurd hgf (hnone g hg)
        · rw [hres2]
          have hjj : j2 = j := by
            rcases Nat.lt_trichotomy j2 j with hlt | heq | hgt
            · exact absurd hf (hlast2 j f hlt hj)
            · exact heq
            · exact absurd hf2 (hlast j2 f2 hgt hj2)
          subst hjj
          rw [hj2] at hj
          injection hj with hj
          rw [hj]

/-- The C14 statement at `sampleDriver`, whose second format is the preferred one. -/
theorem Swapchain.selectFormat_last_preferred_witness :
    (sampleDriver.formatCountResult = VK_SUCCESS ∧ sampleDriver.formatsResult = VK_SUCCESS
        ∧ ∃ f ∈ sampleDriver.surfaceFormats, f.format = VK_FORMAT_B8G8R8A8_SRGB)
      ∧ ∃ (j : Nat) (f : VkSurfaceFormatKHR), sampleDriver.surfaceFormats[j]? = some f
        ∧ f.format = VK_FORMAT_B8G8R8A8_SRGB
        ∧ (∀ (k : Nat) (y : VkSurfaceFormatKHR), j < k →
            sampleDriver.surfaceFormats[k]? = some y → y.format ≠ VK_FORMAT_B8G8R8A8_SRGB)
        ∧ Swapchain.selectFormat sampleDriver sampleUninit
            = .ok { sampleUninit with format := f.format, colorSpace := f.colorSpace }
        ∧ (⟨f.format, f.colorSpace⟩ : VkSurfaceFormatKHR) ∈ sampleDriver.surfaceFormats
        ∧ Sample000Clear.selectFormat sampleDriver.surfaceFormats = .ok f :=
  ⟨⟨by decide, by decide, ⟨⟨50, 0⟩, by decide, by decide⟩⟩,
    Swapchain.selectFormat_last_preferred sampleDriver sampleUninit (by decide) (by decide)
      ⟨⟨50, 0⟩, by decide, by decide⟩⟩

/-! ## Unsupported surfaces -/

/-- The function `Swapchain::supported` answers yes exactly when both usage bits are
reported. -/
theorem Swapchain.supported_iff (s : Swapchain) :
    s.supported = true ↔
      (s.capabilities.supportedUsageFlags &&& VK_IMAGE_USAGE_COLOR_ATTACHMENT_BIT
          = VK_IMAGE_USAGE_COLOR_ATTACHMENT_BIT
        ∧ s.capabilities.supportedUsageFlags &&& VK_IMAGE_USAGE_TRANSFER_DST_BIT
          = VK_IMAGE_USAGE_TRANSFER_DST_BIT) := by
  unfold Swapchain.supported
  split_ifs with h1 h2 <;> simp_all

/-- When the capability query succeeds and a usage bit is missing, `Swapchain::create`
issues no `vkCreateSwapchainKHR` and returns the empty object in the normal way. -/
theorem Swapchain.create_of_unsupported (driver : SwapchainDriver) (uninit : Swapchain)
    (surface : Nat) (g p : Int) (hq : driver.capabilitiesResult = VK_SUCCESS)
    (h : ¬ (driver.capabilities.supportedUsageFlags &&& VK_IMAGE_USAGE_COLOR_ATTACHMENT_BIT
          = VK_IMAGE_USAGE_COLOR_ATTACHMENT_BIT
        ∧ driver.capabilities.supportedUsageFlags &&& VK_IMAGE_USAGE_TRANSFER_DST_BIT
          = VK_IMAGE_USAGE_TRANSFER_DST_BIT)) :
    Swapchain.create driver uninit surface g p
      = { createCall := none, outcome := .ok Swapchain.empty } := by
  unfold Swapchain.create
  simp only [hq, ne_eq, not_true_eq_false, if_false]
  have hs : Swapchain.supported
      { surface := surface, swapchain := uninit.swapchain
        capabilities := driver.capabilities, extent := uninit.extent
        imageCount := uninit.imageCount, format := uninit.format
        colorSpace := uninit.colorSpace, m_images := [], m_imageViews := [] } = false := by
    have := (Swapchain.supported_iff
      { surface := surface, swapchain := uninit.swapchain
        capabilities := driver.capabilities, extent := uninit.extent
        imageCount := uninit.imageCount, format := uninit.format
        colorSpace := uninit.colorSpace, m_images := [], m_imageViews := [] }).not.mpr h
    simpa using this
  simp [hs]

/-- Claim C15 (the code departs from the claim).  The surface reports the
colour-attachment usage but not the transfer-destination usage, and the capability query
succeeds.  `Swapchain::create` issues no `vkCreateSwapchainKHR`, as the claim says, but
it signals nothing fatal: it returns, in the normal way, the empty object of
`return {}` (null swapchain handle, format 0), with which the caller goes on. -/
theorem Swapchain.create_unsupported_returns_normally :
    sampleDriverNoTransferDst.capabilitiesResult = VK_SUCCESS
      ∧ sampleDriverNoTransferDst.capabilities.supportedUsageFlags
          &&& VK_IMAGE_USAGE_TRANSFER_DST_BIT ≠ VK_IMAGE_USAGE_TRANSFER_DST_BIT
      ∧ (Swapchain.create sampleDriverNoTransferDst sampleUninit 7 0 0).createCall = none
      ∧ (Swapchain.create sampleDriverNoTransferDst sampleUninit 7 0 0).outcome
          = .ok Swapchain.empty
      ∧ Swapchain.empty.swapchain = 0 := by
  decide

/-! ## `Memory::select` with a qualifying type -/

/-- Claim C16 (the code departs from the claim).  Two types are reported, type 0
device-local, type 1 host-visible and host-coherent; the resource allows both
(`memoryTypeBits = 0b11`) and `HOST_COHERENT` is requested.  Type 1 qualifies and is the
greatest qualifying index, but `Memory::select` does not return it: the loop tests
`(propertyFlags & memoryTypeBits) == memoryTypeBits`, that is `6 & 3 == 3`, which is
false, so `index` stays `-1` and the assertion `index != -1` fails. -/
theorem Memory.select_misses_qualifying_type :
    Memory.qualifies [⟨1, 0⟩, ⟨6, 1⟩] ⟨256, 16, 3⟩ VK_MEMORY_PROPERTY_HOST_COHERENT_BIT 1 = true
      ∧ Memory.qualifies [⟨1, 0⟩, ⟨6, 1⟩] ⟨256, 16, 3⟩ VK_MEMORY_PROPERTY_HOST_COHERENT_BIT 0
          = false
      ∧ Memory.select [⟨1, 0⟩, ⟨6, 1⟩] ⟨256, 16, 3⟩ VK_MEMORY_PROPERTY_HOST_COHERENT_BIT
          = .error (.assertion "index != -1") := by
  decide

/-! ## `Buffer::createUploadBuffer` -/

/-- The run of `Buffer::createUploadBuffer` when every status is `VK_SUCCESS` and
`Memory::select` returns `index`. -/
theorem Buffer.createUploadBuffer_of_success (driver : BufferDriver)
    (device physicalDevice : Nat) (families : QueueFamilies) (sizeInBytes : Nat)
    (data : List Nat) (usage index : Nat)
    (hcreate : driver.createBufferResult = VK_SUCCESS)
    (hselect : Memory.select driver.memoryTypes driver.memoryReqs
      VK_MEMORY_PROPERTY_HOST_COHERENT_BIT = .ok index)
    (halloc : driver.allocateResult = VK_SUCCESS)
    (hbind : driver.bindResult = VK_SUCCESS)
    (hmap : driver.mapResult = VK_SUCCESS) :
    Buffer.createUploadBuffer driver device physicalDevice families sizeInBytes data usage
      = { calls :=
            [ .vkCreateBuffer device (Buffer.bufferInfo families sizeInBytes usage),
              .vkGetBufferMemoryRequirements device driver.createdBuffer,
              .vkGetPhysicalDeviceMemoryProperties physicalDevice,
              .vkAllocateMemory device
                { allocationSize := driver.memoryReqs.size, memoryTypeIndex := index },
              .vkBindBufferMemory device driver.createdBuffer driver.allocatedMemory 0,
              .vkMapMemory device driver.allocatedMemory 0 sizeInBytes 0,
              .memcpy data sizeInBytes,
              .vkUnmapMemory device driver.allocatedMemory ]
          afterCopy := some (memcpy
            ((List.range driver.memoryReqs.size).map
              (fun i => driver.initialContents.getD i 0)) data sizeInBytes)
          outcome := .ok { buffer := driver.createdBuffer, memory := driver.allocatedMemory
                           m_device := device } } := by
  unfold Buffer.createUploadBuffer
  simp [hcreate, hselect, halloc, hbind, hmap]

/-- The call order of a run that gets past the memory-type selection.  In a run of
`Buffer::createUploadBuffer` in which every driver call reports `VK_SUCCESS` and
`Memory::select` returns an index, the calls issued are, in this order and nothing else: create buffer, query the memory requirements of that
buffer, query the memory types (inside `Memory::select`), allocate, bind, map, copy,
unmap.  The allocate call carries `memoryReqs.size` as its size, whatever `sizeInBytes`
is, and the index `Memory::select` returned; the bind call sits right before the map
call; the map and the copy carry `sizeInBytes`; the function returns the buffer. -/
theorem Buffer.createUploadBuffer_call_order (driver : BufferDriver)
    (device physicalDevice : Nat) (families : QueueFamilies) (sizeInBytes : Nat)
    (data : List Nat) (usage index : Nat)
    (hcreate : driver.createBufferResult = VK_SUCCESS)
    (hselect : Memory.select driver.memoryTypes driver.memoryReqs
      VK_MEMORY_PROPERTY_HOST_COHERENT_BIT = .ok index)
    (halloc : driver.allocateResult = VK_SUCCESS)
    (hbind : driver.bindResult = VK_SUCCESS)
    (hmap : driver.mapResult = VK_SUCCESS) :
    let run := Buffer.createUploadBuffer driver device physicalDevice families sizeInBytes
      data usage
    run.calls =
        [ .vkCreateBuffer device (Buffer.bufferInfo families sizeInBytes usage),
          .vkGetBufferMemoryRequirements device driver.createdBuffer,
          .vkGetPhysicalDeviceMemoryProperties physicalDevice,
          .vkAllocateMemory device
            { allocationSize := driver.memoryReqs.size, memoryTypeIndex := index },
          .vkBindBufferMemory device driver.createdBuffer driver.allocatedMemory 0,
          .vkMapMemory device driver.allocatedMemory 0 sizeInBytes 0,
          .memcpy data sizeInBytes,
          .vkUnmapMemory device driver.allocatedMemory ]
      ∧ run.calls[4]? = some (.vkBindBufferMemory device driver.createdBuffer
          driver.allocatedMemory 0)
      ∧ run.calls[5]? = some (.vkMapMemory device driver.allocatedMemory 0 sizeInBytes 0)
      ∧ run.outcome = .ok { buffer := driver.createdBuffer, memory := driver.allocatedMemory
                            m_device := device } := by
  intro run
  have h := Buffer.createUploadBuffer_of_success driver device physicalDevice families
    sizeInBytes data usage index hcreate hselect halloc hbind hmap
  refine ⟨?_, ?_, ?_, ?_⟩ <;> simp [run, h]

/-- The call order at `sampleBufferDriver` and four bytes of data: the allocation size
passed is 256, not 4. -/
theorem Buffer.createUploadBuffer_call_order_witness :
    (sampleBufferDriver.createBufferResult = VK_SUCCESS
        ∧ Memory.select sampleBufferDriver.memoryTypes sampleBufferDriver.memoryReqs
            VK_MEMORY_PROPERTY_HOST_COHERENT_BIT = .ok 0
        ∧ sampleBufferDriver.allocateResult = VK_SUCCESS
        ∧ sampleBufferDriver.bindResult = VK_SUCCESS
        ∧ sampleBufferDriver.mapResult = VK_SUCCESS)
      ∧ (Buffer.createUploadBuffer sampleBufferDriver 1 2 sampleFamilyPair 4 [1, 2, 3, 4]
            128).calls[3]?
          = some (.vkAllocateMemory 1 { allocationSize := 256, memoryTypeIndex := 0 }) :=
  ⟨by decide,
    by
      have h := (Buffer.createUploadBuffer_call_order sampleBufferDriver 1 2 sampleFamilyPair
        4 [1, 2, 3, 4] 128 0 (by decide) (by decide) (by decide) (by decide)
        (by decide)).1
      rw [h]
      rfl⟩

/-- Claim C17 (the code departs from the claim; the defect is the one of C1, C2 and C16,
the compatibility test of `Memory::select`).  Every driver call succeeds, and memory
type 1 is host-coherent and allowed for the buffer, so a type to allocate from exists.
`Buffer::createUploadBuffer` creates the buffer, queries its requirements, queries the
memory types inside `Memory::select`, and stops at the assertion `index != -1`: no
memory is allocated, bound or mapped, nothing is copied, no buffer is returned. -/
theorem Buffer.createUploadBuffer_stops_at_select :
    sampleBufferDriverTwoTypes.createBufferResult = VK_SUCCESS
      ∧ sampleBufferDriverTwoTypes.allocateResult = VK_SUCCESS
      ∧ sampleBufferDriverTwoTypes.bindResult = VK_SUCCESS
      ∧ sampleBufferDriverTwoTypes.mapResult = VK_SUCCESS
      ∧ Memory.qualifies sampleBufferDriverTwoTypes.memoryTypes
          sampleBufferDriverTwoTypes.memoryReqs VK_MEMORY_PROPERTY_HOST_COHERENT_BIT 1 = true
      ∧ Buffer.createUploadBuffer sampleBufferDriverTwoTypes 1 2 sampleFamilyPair 4
          [1, 2, 3, 4] 128
        = { calls :=
              [ .vkCreateBuffer 1 (Buffer.bufferInfo sampleFamilyPair 4 128),
                .vkGetBufferMemoryRequirements 1 21,
                .vkGetPhysicalDeviceMemoryProperties 2 ]
            afterCopy := none
            outcome := .error (.assertion "index != -1") } := by
  decide

theorem take_memcpy (dst src : List Nat) (n : Nat) (h : src.length = n) :
    (memcpy dst src n).take n = src := by
  have hs : src.take n = src := List.take_of_length_le (by omega)
  unfold memcpy
  rw [hs, List.take_append_of_le_length (by omega), hs]

theorem length_memcpy (dst src : List Nat) (n : Nat) (h1 : src.length = n)
    (h2 : n ≤ dst.length) : (memcpy dst src n).length = dst.length := by
  unfold memcpy
  rw [List.length_append, List.length_take, List.length_drop]
  omega

/-- Claim C18.  Let `data` hold `N = sizeInBytes` bytes, let the reported requirement
size be at least `N`, and let every driver call succeed (and `Memory::select` return).
Then the run reaches the copy; the allocation has `memoryReqs.size` bytes, so the mapped
range `[0, N)` (offset 0 and size `N` in the map call) lies inside it; and between the
copy and the unmap the first `N` bytes of the mapped memory are `data`, byte for byte,
while the bytes from `N` on are unchanged. -/
theorem Buffer.createUploadBuffer_round_trip (driver : BufferDriver)
    (device physicalDevice : Nat) (families : QueueFamilies) (sizeInBytes : Nat)
    (data : List Nat) (usage index : Nat)
    (hdata : data.length = sizeInBytes)
    (hsize : sizeInBytes ≤ driver.memoryReqs.size)
    (hcreate : driver.createBufferResult = VK_SUCCESS)
    (hselect : Memory.select driver.memoryTypes driver.memoryReqs
      VK_MEMORY_PROPERTY_HOST_COHERENT_BIT = .ok index)
    (halloc : driver.allocateResult = VK_SUCCESS)
    (hbind : driver.bindResult = VK_SUCCESS)
    (hmap : driver.mapResult = VK_SUCCESS) :
    let run := Buffer.createUploadBuffer driver device physicalDevice families sizeInBytes
      data usage
    ∃ bytes, run.afterCopy = some bytes
      ∧ bytes.take sizeInBytes = data
      ∧ (∀ i, i < sizeInBytes → bytes[i]? = data[i]?)
      ∧ bytes.length = driver.memoryReqs.size
      ∧ (∀ i, sizeInBytes ≤ i → i < driver.memoryReqs.size →
          bytes[i]? = some (driver.initialContents.getD i 0))
      ∧ run.calls[3]? = some (.vkAllocateMemory device
          { allocationSize := driver.memoryReqs.size, memoryTypeIndex := index })
      ∧ run.calls[5]? = some (.vkMapMemory device driver.allocatedMemory 0 sizeInBytes 0)
      ∧ 0 + sizeInBytes ≤ driver.memoryReqs.size := by
  intro run
  have h := Buffer.createUploadBuffer_of_success driver device physicalDevice families
    sizeInBytes data usage index hcreate hselect halloc hbind hmap
  have hlen : ((List.range driver.memoryReqs.size).map
      (fun i => driver.initialContents.getD i 0)).length = driver.memoryReqs.size := by
    simp
  refine ⟨memcpy ((List.range driver.memoryReqs.size).map
      (fun i => driver.initialContents.getD i 0)) data sizeInBytes, ?_, ?_, ?_, ?_, ?_, ?_, ?_, ?_⟩
  · simp only [run, h]
  · exact take_memcpy _ _ _ hdata
  · intro i hi
    have hs : data.take sizeInBytes = data := List.take_of_length_le (by omega)
    unfold memcpy
    rw [hs, List.getElem?_append_left (by omega)]
  · rw [length_memcpy _ _ _ hdata (by omega), hlen]
  · intro i hi1 hi2
    have hs : data.take sizeInBytes = data := List.take_of_length_le (by omega)
    unfold memcpy
    rw [hs, List.getElem?_append_right (by omega)]
    rw [List.getElem?_drop]
    have hidx : sizeInBytes + (i - data.length) = i := by omega
    rw [hidx]
    simp [hi2]
  · simp [run, h]
  · simp [run, h]
  · omega

/-- The C18 statement at `sampleBufferDriver` (256 bytes required) and 64 bytes of
data. -/
theorem Buffer.createUploadBuffer_round_trip_witness :
    ((List.replicate 64 9).length = 64
        ∧ 64 ≤ sampleBufferDriver.memoryReqs.size
        ∧ sampleBufferDriver.createBufferResult = VK_SUCCESS
        ∧ Memory.select sampleBufferDriver.memoryTypes sampleBufferDriver.memoryReqs
            VK_MEMORY_PROPERTY_HOST_COHERENT_BIT = .ok 0
        ∧ sampleBufferDriver.allocateResult = VK_SUCCESS
        ∧ sampleBufferDriver.bindResult = VK_SUCCESS
        ∧ sampleBufferDriver.mapResult = VK_SUCCESS)
      ∧ ∃ bytes, (Buffer.createUploadBuffer sampleBufferDriver 1 2 sampleFamilyPair 64
            (List.replicate 64 9) 128).afterCopy = some bytes
          ∧ bytes.take 64 = List.replicate 64 9 :=
  ⟨by decide,
    by
      obtain ⟨bytes, h1, h2, _⟩ := Buffer.createUploadBuffer_round_trip sampleBufferDriver
        1 2 sampleFamilyPair 64 (List.replicate 64 9) 128 0 (by decide) (by decide)
        (by decide) (by decide) (by decide) (by decide) (by decide)
      exact ⟨bytes, h1, h2⟩⟩

/-! ## The frame loops -/

theorem Sample000Clear.clearLoop_from (ctx : FrameContext) (shouldClose : Nat → Bool)
    (acquired : Nat → Nat) (m fuel k : Nat)
    (hrun : ∀ j, k ≤ j → j < k + m → shouldClose j = false)
    (hstop : shouldClose (k + m) = true) (hfuel : m < fuel) :
    Sample000Clear.frameLoop ctx shouldClose acquired fuel k
      = some ((List.range' k m).flatMap
          (fun j => .glfwWindowShouldClose false :: Sample000Clear.frame ctx (acquired j))
        ++ [.glfwWindowShouldClose true]) := by
  induction m generalizing fuel k with
  | zero =>
    obtain ⟨f, rfl⟩ : ∃ f, fuel = f + 1 := ⟨fuel - 1, by omega⟩
    have hs : shouldClose k = true := by simpa using hstop
    simp [Sample000Clear.frameLoop, hs]
  | succ m ih =>
    obtain ⟨f, rfl⟩ : ∃ f, fuel = f + 1 := ⟨fuel - 1, by omega⟩
    have hk : shouldClose k = false := hrun k (Nat.le_refl k) (by omega)
    have hrest := ih f (k + 1) (fun j h1 h2 => hrun j (by omega) (by omega))
      (by rw [show k + 1 + m = k + (m + 1) by omega]; exact hstop) (by omega)
    simp [Sample000Clear.frameLoop, hk, hrest, List.range'_succ]

theorem Sample003Restructure.restructureLoop_from (ctx : FrameContext) (shouldClose : Nat → Bool)
    (acquired : Nat → Nat) (m fuel k : Nat)
    (hrun : ∀ j, k ≤ j → j < k + m → shouldClose j = false)
    (hstop : shouldClose (k + m) = true) (hfuel : m < fuel) :
    Sample003Restructure.frameLoop ctx shouldClose acquired fuel k
      = some ((List.range' k m).flatMap
          (fun j => .glfwWindowShouldClose false :: Sample003Restructure.frame ctx (acquired j))
        ++ [.glfwWindowShouldClose true]) := by
  induction m generalizing fuel k with
  | zero =>
    obtain ⟨f, rfl⟩ : ∃ f, fuel = f + 1 := ⟨fuel - 1, by omega⟩
    have hs : shouldClose k = true := by simpa using hstop
    simp [Sample003Restructure.frameLoop, hs]
  | succ m ih =>
    obtain ⟨f, rfl⟩ : ∃ f, fuel = f + 1 := ⟨fuel - 1, by omega⟩
    have hk : shouldClose k = false := hrun k (Nat.le_refl k) (by omega)
    have hrest := ih f (k + 1) (fun j h1 h2 => hrun j (by omega) (by omega))
      (by rw [show k + 1 + m = k + (m + 1) by omega]; exact hstop) (by omega)
    simp [Sample003Restructure.frameLoop, hk, hrest, List.range'_succ]

/-- Claim C19.  Let the window answer "do not close" to the first `n` evaluations of the
loop condition and "close" to the next one (`n ≥ 0`).  Then each of the two frame loops
(000_clear and 003_restructure) returns, and the calls it issued are exactly `n`
repetitions of: loop condition, poll events, acquire on the swapchain naming the
image-available semaphore (and no fence), begin the command buffer, recording commands
only, end the command buffer, one submit on the graphics queue that waits on the
image-available semaphore with the all-commands stage mask and signals the work-complete
semaphore, one present on the present queue that waits on the work-complete semaphore
for the image index the acquire stored, device wait-idle; followed by the evaluation of
the loop condition that ends the loop.  The condition is never evaluated inside an
iteration. -/
theorem frameLoop_calls (ctx : FrameContext) (shouldClose : Nat → Bool)
    (acquired : Nat → Nat) (n fuel : Nat)
    (hrun : ∀ k, k < n → shouldClose k = false) (hstop : shouldClose n = true)
    (hfuel : n < fuel) :
    Sample000Clear.frameLoop ctx shouldClose acquired fuel 0
        = some (iterations (Sample000Clear.frame ctx) acquired n)
      ∧ Sample003Restructure.frameLoop ctx shouldClose acquired fuel 0
        = some (iterations (Sample003Restructure.frame ctx) acquired n)
      ∧ (∀ imageIndex, Sample000Clear.frame ctx imageIndex =
          [ .glfwPollEvents,
            .vkAcquireNextImageKHR ctx.device ctx.swapchain UINT_MAX ctx.imageWaitSemaphore 0
              imageIndex,
            .vkBeginCommandBuffer ctx.cmd 0 ]
          ++ Sample000Clear.recordCommands ctx imageIndex
          ++ [ .vkEndCommandBuffer ctx.cmd,
               .vkQueueSubmit ctx.graphicsQueue 1
                 [{ waitSemaphoreCount := 1, pWaitSemaphores := [ctx.imageWaitSemaphore]
                    pWaitDstStageMask := [VK_PIPELINE_STAGE_ALL_COMMANDS_BIT]
                    commandBufferCount := 1, pCommandBuffers := [ctx.cmd]
                    signalSemaphoreCount := 1
                    pSignalSemaphores := [ctx.presentWaitSemaphore] }] 0,
               .vkQueuePresentKHR ctx.presentQueue
                 { waitSemaphoreCount := 1, pWaitSemaphores := [ctx.presentWaitSemaphore]
                   swapchainCount := 1, pSwapchains := [ctx.swapchain]
                   pImageIndices := [imageIndex] },
               .vkDeviceWaitIdle ctx.device ])
      ∧ (∀ imageIndex, Sample003Restructure.frame ctx imageIndex =
          [ .glfwPollEvents,
            .vkAcquireNextImageKHR ctx.device ctx.swapchain UINT_MAX ctx.imageWaitSemaphore 0
              imageIndex,
            .vkBeginCommandBuffer ctx.cmd 0 ]
          ++ Sample003Restructure.recordCommands ctx imageIndex
          ++ [ .vkEndCommandBuffer ctx.cmd,
               .vkQueueSubmit ctx.graphicsQueue 1
                 [{ waitSemaphoreCount := 1, pWaitSemaphores := [ctx.imageWaitSemaphore]
                    pWaitDstStageMask := [VK_PIPELINE_STAGE_ALL_COMMANDS_BIT]
                    commandBufferCount := 1, pCommandBuffers := [ctx.cmd]
                    signalSemaphoreCount := 1
                    pSignalSemaphores := [ctx.presentWaitSemaphore] }] 0,
               .vkQueuePresentKHR ctx.presentQueue
                 { waitSemaphoreCount := 1, pWaitSemaphores := [ctx.presentWaitSemaphore]
                   swapchainCount := 1, pSwapchains := [ctx.swapchain]
                   pImageIndices := [imageIndex] },
               .vkDeviceWaitIdle ctx.device ])
      ∧ (∀ imageIndex, ∀ c ∈ Sample000Clear.recordCommands ctx imageIndex,
          c.isRecording = true)
      ∧ (∀ imageIndex, ∀ c ∈ Sample003Restructure.recordCommands ctx imageIndex,
          c.isRecording = true)
      ∧ (∀ imageIndex b, FrameCall.glfwWindowShouldClose b ∉ Sample000Clear.frame ctx imageIndex
          ∧ FrameCall.glfwWindowShouldClose b ∉ Sample003Restructure.frame ctx imageIndex) := by
  have h0 := Sample000Clear.clearLoop_from ctx shouldClose acquired n fuel 0
    (fun j _ h2 => hrun j (by omega)) (by simpa using hstop) hfuel
  have h3 := Sample003Restructure.restructureLoop_from ctx shouldClose acquired n fuel 0
    (fun j _ h2 => hrun j (by omega)) (by simpa using hstop) hfuel
  refine ⟨?_, ?_, fun _ => rfl, fun _ => rfl, ?_, ?_, ?_⟩
  · rw [h0, iterations, List.range_eq_range']
  · rw [h3, iterations, List.range_eq_range']
  · intro imageIndex c hc
    simp only [Sample000Clear.recordCommands, List.mem_cons, List.mem_singleton,
      List.not_mem_nil, or_false] at hc
    rcases hc with rfl | rfl | rfl <;> rfl
  · intro imageIndex c hc
    simp only [Sample003Restructure.recordCommands, List.mem_cons, List.mem_singleton,
      List.not_mem_nil, or_false] at hc
    rcases hc with rfl | rfl | rfl | rfl | rfl <;> rfl
  · intro imageIndex b
    constructor
    · simp [Sample000Clear.frame, Sample000Clear.recordCommands]
    · simp [Sample003Restructure.frame, Sample003Restructure.recordCommands]

/-- The C19 statement at a window that closes after ten iterations. -/
theorem frameLoop_calls_witness :
    ((∀ k, k < 10 → sampleShouldClose k = false) ∧ sampleShouldClose 10 = true)
      ∧ Sample000Clear.frameLoop sampleContext sampleShouldClose sampleAcquired 11 0
          = some (iterations (Sample000Clear.frame sampleContext) sampleAcquired 10) :=
  ⟨⟨by intro k hk; simp [sampleShouldClose]; omega, by decide⟩,
    (frameLoop_calls sampleContext sampleShouldClose sampleAcquired 10 11
      (by intro k hk; simp [sampleShouldClose]; omega) (by decide) (by decide)).1⟩

/-! ## Frames in flight -/

theorem outstandingFrom_append (work : Nat) (a b : List FrameCall) :
    outstandingFrom work (a ++ b) = outstandingFrom (outstandingFrom work a) b := by
  induction a generalizing work with
  | nil => rfl
  | cons c rest ih =>
    cases c <;> exact ih _

theorem WorkBounded.nil : WorkBounded [] := by
  refine ⟨rfl, ?_, ?_⟩
  · intro m
    simp [outstanding, outstandingFrom]
  · intro m b h
    simp at h

theorem WorkBounded.append (a b : List FrameCall) (ha : WorkBounded a) (hb : WorkBounded b) :
    WorkBounded (a ++ b) := by
  obtain ⟨ha1, ha2, ha3⟩ := ha
  obtain ⟨hb1, hb2, hb3⟩ := hb
  unfold outstanding at ha1 ha2 ha3 hb1 hb2 hb3
  refine ⟨?_, ?_, ?_⟩
  · unfold outstanding
    rw [outstandingFrom_append, ha1, hb1]
  · intro m
    unfold outstanding
    rw [List.take_append_eq_append_take, outstandingFrom_append]
    by_cases hm : m ≤ a.length
    · have : m - a.length = 0 := by omega
      rw [this, List.take_zero]
      exact ha2 m
    · rw [List.take_of_length_le (by omega), ha1]
      exact hb2 (m - a.length)
  · intro m c h
    unfold outstanding
    rw [List.take_append_eq_append_take, outstandingFrom_append]
    by_cases hm : m < a.length
    · rw [List.getElem?_append_left hm] at h
      have : m - a.length = 0 := by omega
      rw [this, List.take_zero]
      exact ha3 m c h
    · rw [List.getElem?_append_right (by omega)] at h
      rw [List.take_of_length_le (by omega), ha1]
      exact hb3 (m - a.length) c h

theorem WorkBounded.flatMap (block : Nat → List FrameCall) (ks : List Nat)
    (h : ∀ k, WorkBounded (block k)) : WorkBounded (ks.flatMap block) := by
  induction ks with
  | nil => exact WorkBounded.nil
  | cons k rest ih =>
    rw [List.flatMap_cons]
    exact WorkBounded.append _ _ (h k) ih

theorem WorkBounded.shouldClose (b : Bool) : WorkBounded [.glfwWindowShouldClose b] := by
  refine ⟨rfl, ?_, ?_⟩
  · intro m
    rcases m with _ | m <;> simp [outstanding, outstandingFrom]
  · intro m c h
    rcases m with _ | m
    · rfl
    · simp at h

theorem WorkBounded.waitIdle (device : Nat) : WorkBounded [.vkDeviceWaitIdle device] := by
  refine ⟨rfl, ?_, ?_⟩
  · intro m
    rcases m with _ | m <;> simp [outstanding, outstandingFrom]
  · intro m c h
    rcases m with _ | m <;> simp at h

/-- One iteration of the loop of 000_clear, with the evaluation of the loop condition
that precedes it, keeps at most one frame in flight. -/
theorem Sample000Clear.workBounded_clearFrame (ctx : FrameContext) (imageIndex : Nat) :
    WorkBounded (.glfwWindowShouldClose false :: Sample000Clear.frame ctx imageIndex) := by
  refine ⟨rfl, ?_, ?_⟩
  · intro m
    rcases m with _ | _ | _ | _ | _ | _ | _ | _ | _ | _ | _ | _ | m <;>
      simp [outstanding, outstandingFrom, Sample000Clear.frame,
        Sample000Clear.recordCommands]
  · intro m b h
    rcases m with _ | _ | _ | _ | _ | _ | _ | _ | _ | _ | _ | _ | m
    · rfl
    all_goals simp [Sample000Clear.frame, Sample000Clear.recordCommands] at h

/-- One iteration of the loop of 003_restructure, with the evaluation of the loop
condition that precedes it, keeps at most one frame in flight. -/
theorem Sample003Restructure.workBounded_restructureFrame (ctx : FrameContext) (imageIndex : Nat) :
    WorkBounded (.glfwWindowShouldClose false :: Sample003Restructure.frame ctx imageIndex) := by
  refine ⟨rfl, ?_, ?_⟩
  · intro m
    rcases m with _ | _ | _ | _ | _ | _ | _ | _ | _ | _ | _ | _ | _ | _ | m <;>
      simp [outstanding, outstandingFrom, Sample003Restructure.frame,
        Sample003Restructure.recordCommands]
  · intro m b h
    rcases m with _ | _ | _ | _ | _ | _ | _ | _ | _ | _ | _ | _ | _ | _ | m
    · rfl
    all_goals simp [Sample003Restructure.frame, Sample003Restructure.recordCommands] at h

theorem workBounded_iterations (frame : Nat → List FrameCall) (acquired : Nat → Nat)
    (n : Nat) (h : ∀ i, WorkBounded (.glfwWindowShouldClose false :: frame i)) :
    WorkBounded (iterations frame acquired n) := by
  unfold iterations
  exact WorkBounded.append _ _
    (WorkBounded.flatMap (fun k => .glfwWindowShouldClose false :: frame (acquired k)) _
      (fun k => h (acquired k)))
    (WorkBounded.shouldClose true)

/-- Claim C20.  Count one unit of outstanding GPU work for each `vkQueueSubmit` and let
each `vkDeviceWaitIdle` retire all of it.  For every run of either frame loop that makes
`n` iterations (`n ≥ 0`), the loop returns a call sequence in which no work is outstanding
whenever the loop condition is evaluated (the start of every iteration, and the end of
the loop), at most one unit is outstanding at every point, and none is outstanding at
the end, where the teardown starts; in 003_restructure this also holds with the
`vkDeviceWaitIdle` that follows the loop. -/
theorem frameLoop_one_frame_in_flight (ctx : FrameContext) (shouldClose : Nat → Bool)
    (acquired : Nat → Nat) (n fuel : Nat)
    (hrun : ∀ k, k < n → shouldClose k = false) (hstop : shouldClose n = true)
    (hfuel : n < fuel) :
    (∃ calls, Sample000Clear.frameLoop ctx shouldClose acquired fuel 0 = some calls
        ∧ outstanding calls = 0
        ∧ (∀ m, outstanding (calls.take m) ≤ 1)
        ∧ (∀ m b, calls[m]? = some (.glfwWindowShouldClose b) →
            outstanding (calls.take m) = 0))
      ∧ (∃ calls, Sample003Restructure.frameLoopThenWaitIdle ctx shouldClose acquired fuel
            = some calls
        ∧ outstanding calls = 0
        ∧ (∀ m, outstanding (calls.take m) ≤ 1)
        ∧ (∀ m b, calls[m]? = some (.glfwWindowShouldClose b) →
            outstanding (calls.take m) = 0)) := by
  have h0 := Sample000Clear.clearLoop_from ctx shouldClose acquired n fuel 0
    (fun j _ h2 => hrun j (by omega)) (by simpa using hstop) hfuel
  have h3 := Sample003Restructure.restructureLoop_from ctx shouldClose acquired n fuel 0
    (fun j _ h2 => hrun j (by omega)) (by simpa using hstop) hfuel
  rw [← List.range_eq_range'] at h0 h3
  constructor
  · exact ⟨_, h0, workBounded_iterations (Sample000Clear.frame ctx) acquired n
      (Sample000Clear.workBounded_clearFrame ctx)⟩
  · refine ⟨iterations (Sample003Restructure.frame ctx) acquired n
      ++ [.vkDeviceWaitIdle ctx.device], ?_, ?_⟩
    · simp only [Sample003Restructure.frameLoopThenWaitIdle, h3, iterations]
    exact WorkBounded.append _ _
      (workBounded_iterations (Sample003Restructure.frame ctx) acquired n
        (Sample003Restructure.workBounded_restructureFrame ctx))
      (WorkBounded.waitIdle ctx.device)

/-- The C20 statement at ten iterations on a swapchain of two images: the loop of
000_clear returns and no work is outstanding when it does. -/
theorem frameLoop_one_frame_in_flight_witness :
    ((∀ k, k < 10 → sampleShouldClose k = false) ∧ sampleShouldClose 10 = true)
      ∧ ∃ calls, Sample000Clear.frameLoop sampleContext sampleShouldClose sampleAcquired 11 0
            = some calls
          ∧ outstanding calls = 0 :=
  ⟨⟨by intro k hk; simp [sampleShouldClose]; omega, by decide⟩,
    by
      obtain ⟨calls, h1, h2, _⟩ := (frameLoop_one_frame_in_flight sampleContext
        sampleShouldClose sampleAcquired 10 11
        (by intro k hk; simp [sampleShouldClose]; omega) (by decide) (by decide)).1
      exact ⟨calls, h1, h2⟩⟩

/-! ## Semaphore discipline -/

theorem Sample001Triangle.triangleLoop_from (ctx : FrameContext) (shouldClose : Nat → Bool)
    (acquired : Nat → Nat) (m fuel k : Nat)
    (hrun : ∀ j, k ≤ j → j < k + m → shouldClose j = false)
    (hstop : shouldClose (k + m) = true) (hfuel : m < fuel) :
    Sample001Triangle.frameLoop ctx shouldClose acquired fuel k
      = some ((List.range' k m).flatMap
          (fun j => .glfwWindowShouldClose false :: Sample001Triangle.frame ctx (acquired j))
        ++ [.glfwWindowShouldClose true]) := by
  induction m generalizing fuel k with
  | zero =>
    obtain ⟨f, rfl⟩ : ∃ f, fuel = f + 1 := ⟨fuel - 1, by omega⟩
    have hs : shouldClose k = true := by simpa using hstop
    simp [Sample001Triangle.frameLoop, hs]
  | succ m ih =>
    obtain ⟨f, rfl⟩ : ∃ f, fuel = f + 1 := ⟨fuel - 1, by omega⟩
    have hk : shouldClose k = false := hrun k (Nat.le_refl k) (by omega)
    have hrest := ih f (k + 1) (fun j h1 h2 => hrun j (by omega) (by omega))
      (by rw [show k + 1 + m = k + (m + 1) by omega]; exact hstop) (by omega)
    simp [Sample001Triangle.frameLoop, hk, hrest, List.range'_succ]

theorem semaphoreOpsOf_append (a b : List FrameCall) :
    semaphoreOpsOf (a ++ b) = semaphoreOpsOf a ++ semaphoreOpsOf b := by
  simp [semaphoreOpsOf, List.flatMap_append]

/-- The semaphore operations of a sequence of blocks, each of which enqueues the four
operations of `cycle`, are as many copies of `cycle` as there are blocks. -/
theorem semaphoreOpsOf_blocks (block : Nat → List FrameCall) (cycle : List SemaphoreOp)
    (ks : List Nat) (h : ∀ k, semaphoreOpsOf (block k) = cycle) :
    semaphoreOpsOf (ks.flatMap block) = (List.replicate ks.length cycle).flatten := by
  induction ks with
  | nil => rfl
  | cons k rest ih =>
    rw [List.flatMap_cons, semaphoreOpsOf_append, h k, ih]
    simp [List.replicate_succ]

theorem semaphoreOpsOf_iterations (frame : Nat → List FrameCall) (cycle : List SemaphoreOp)
    (acquired : Nat → Nat) (n : Nat) (h : ∀ i, semaphoreOpsOf (frame i) = cycle) :
    semaphoreOpsOf (iterations frame acquired n) = (List.replicate n cycle).flatten := by
  unfold iterations
  rw [semaphoreOpsOf_append,
    semaphoreOpsOf_blocks (fun k => .glfwWindowShouldClose false :: frame (acquired k)) cycle]
  · simp [semaphoreOpsOf, FrameCall.semaphoreOps]
  · intro k
    have := h (acquired k)
    simpa [semaphoreOpsOf, FrameCall.semaphoreOps] using this

theorem semaphoreRun_cycles (ctx : FrameContext) (n : Nat) :
    semaphoreRun (List.replicate n (semaphoreCycle ctx)).flatten = some [] := by
  unfold semaphoreRun
  induction n with
  | zero => rfl
  | succ n ih =>
    rw [List.replicate_succ, List.flatten_cons, List.foldl_append]
    have hcycle : List.foldl semaphoreStep (some []) (semaphoreCycle ctx) = some [] := by
      simp [semaphoreCycle, semaphoreStep]
    rw [hcycle, ih]

/-- Claim C21.  For every run of the frame loop of 003_restructure or of 001_triangle
that makes `n` iterations, the semaphore operations of the call trace are exactly `n`
repetitions of: signal of image-available by the acquire, wait on image-available by the
submit, signal of work-complete by the submit, wait on work-complete by the present.  So
each semaphore has one signal and one wait in each iteration, the signal first, always
by the same calls; and run against the binary-semaphore discipline (a signal needs no
pending signal, a wait needs one) the trace never breaks it and ends with no signal
pending. -/
theorem frameLoop_semaphore_discipline (ctx : FrameContext) (shouldClose : Nat → Bool)
    (acquired : Nat → Nat) (n fuel : Nat)
    (hrun : ∀ k, k < n → shouldClose k = false) (hstop : shouldClose n = true)
    (hfuel : n < fuel) :
    (∃ calls, Sample003Restructure.frameLoop ctx shouldClose acquired fuel 0 = some calls
        ∧ semaphoreOpsOf calls = (List.replicate n (semaphoreCycle ctx)).flatten
        ∧ semaphoreRun (semaphoreOpsOf calls) = some [])
      ∧ (∃ calls, Sample001Triangle.frameLoop ctx shouldClose acquired fuel 0 = some calls
        ∧ semaphoreOpsOf calls = (List.replicate n (semaphoreCycle ctx)).flatten
        ∧ semaphoreRun (semaphoreOpsOf calls) = some [])
      ∧ (∀ imageIndex, semaphoreOpsOf (Sample003Restructure.frame ctx imageIndex)
          = [ .signal ctx.imageWaitSemaphore .acquire, .wait ctx.imageWaitSemaphore .submit,
              .signal ctx.presentWaitSemaphore .submit,
              .wait ctx.presentWaitSemaphore .present ])
      ∧ (∀ imageIndex, semaphoreOpsOf (Sample001Triangle.frame ctx imageIndex)
          = [ .signal ctx.imageWaitSemaphore .acquire, .wait ctx.imageWaitSemaphore .submit,
              .signal ctx.presentWaitSemaphore .submit,
              .wait ctx.presentWaitSemaphore .present ]) := by
  have h3 := Sample003Restructure.restructureLoop_from ctx shouldClose acquired n fuel 0
    (fun j _ h2 => hrun j (by omega)) (by simpa using hstop) hfuel
  have h1 := Sample001Triangle.triangleLoop_from ctx shouldClose acquired n fuel 0
    (fun j _ h2 => hrun j (by omega)) (by simpa using hstop) hfuel
  rw [← List.range_eq_range'] at h3 h1
  have f3 : ∀ i, semaphoreOpsOf (Sample003Restructure.frame ctx i) = semaphoreCycle ctx := by
    intro i
    simp [semaphoreOpsOf, FrameCall.semaphoreOps, Sample003Restructure.frame,
      Sample003Restructure.recordCommands, submitInfo, presentInfo, semaphoreCycle]
  have f1 : ∀ i, semaphoreOpsOf (Sample001Triangle.frame ctx i) = semaphoreCycle ctx := by
    intro i
    simp [semaphoreOpsOf, FrameCall.semaphoreOps, Sample001Triangle.frame,
      Sample001Triangle.recordCommands, submitInfo, presentInfo, semaphoreCycle]
  have o3 := semaphoreOpsOf_iterations (Sample003Restructure.frame ctx) (semaphoreCycle ctx)
    acquired n f3
  have o1 := semaphoreOpsOf_iterations (Sample001Triangle.frame ctx) (semaphoreCycle ctx)
    acquired n f1
  refine ⟨⟨_, h3, o3, ?_⟩, ⟨_, h1, o1, ?_⟩, f3, f1⟩
  · unfold iterations at o3
    rw [o3]
    exact semaphoreRun_cycles ctx n
  · unfold iterations at o1
    rw [o1]
    exact semaphoreRun_cycles ctx n

/-- The C21 statement at a window that closes after ten iterations. -/
theorem frameLoop_semaphore_discipline_witness :
    ((∀ k, k < 10 → sampleShouldClose k = false) ∧ sampleShouldClose 10 = true)
      ∧ ∃ calls, Sample003Restructure.frameLoop sampleContext sampleShouldClose
            sampleAcquired 11 0 = some calls
          ∧ semaphoreRun (semaphoreOpsOf calls) = some [] :=
  ⟨⟨by intro k hk; simp [sampleShouldClose]; omega, by decide⟩,
    by
      obtain ⟨calls, h1, _, h2⟩ := (frameLoop_semaphore_discipline sampleContext
        sampleShouldClose sampleAcquired 10 11
        (by intro k hk; simp [sampleShouldClose]; omega) (by decide) (by decide)).1
      exact ⟨calls, h1, h2⟩⟩

/-! ## The lists of a swapchain -/

theorem createLoop_of_success (results : List Int) (base : Nat) (what : String)
    (remaining i : Nat) (created : List Nat)
    (h : ∀ k, results.getD k VK_SUCCESS = VK_SUCCESS) :
    ∃ l, createLoop results base what remaining i created = .ok l
      ∧ l.length = created.length + remaining := by
  induction remaining generalizing i created with
  | zero => exact ⟨created, rfl, rfl⟩
  | succ n ih =>
    obtain ⟨l, hl, hlen⟩ := ih (i + 1) (created ++ [base + i])
    refine ⟨l, ?_, ?_⟩
    · simp [createLoop, hl]
      simpa using h i
    · rw [hlen, List.length_append]
      simp
      omega

/-- What the code does guarantee: on a freshly created object, in the order in which
`main` of 003_restructure calls them (images, then views, then framebuffers) and with
every creation call succeeding, the three getters return lists of the same length, the
number of images the driver reports. -/
theorem Swapchain.yields_in_main_order (driver : SwapchainObjectsDriver) (s : Swapchain)
    (renderpass : Nat) (hi : s.m_images = []) (hv : s.m_imageViews = [])
    (h1 : ∀ k, driver.imageViewResults.getD k VK_SUCCESS = VK_SUCCESS)
    (h2 : ∀ k, driver.framebufferResults.getD k VK_SUCCESS = VK_SUCCESS) :
    ∃ views framebuffers,
      Swapchain.yields driver s [.getImages, .getImageViews, .getFramebuffers renderpass]
        = .ok [(.getImages, driver.swapchainImages), (.getImageViews, views),
            (.getFramebuffers renderpass, framebuffers)]
      ∧ views.length = driver.swapchainImages.length
      ∧ framebuffers.length = driver.swapchainImages.length := by
  obtain ⟨views, hviews, hvl⟩ := createLoop_of_success driver.imageViewResults
    driver.imageViewBase "vkCreateImageView" driver.swapchainImages.length 0 [] h1
  obtain ⟨fbs, hfbs, hfl⟩ := createLoop_of_success driver.framebufferResults
    driver.framebufferBase "vkCreateFramebuffer" driver.swapchainImages.length 0 [] h2
  refine ⟨views, fbs, ?_, by simpa using hvl, by simpa using hfl⟩
  by_cases hempty : driver.swapchainImages = []
  · rw [hempty] at hviews hfbs
    simp only [List.length_nil] at hviews hfbs
    simp [Swapchain.yields, Swapchain.getImages, Swapchain.getImageViews,
      Swapchain.getFramebuffers, hi, hv, hempty, hviews, hfbs]
  · have hvne : views ≠ [] := by
      intro hnil
      rw [hnil] at hvl
      simp at hvl
      exact hempty (List.length_eq_zero.mp hvl.symm)
    simp [Swapchain.yields, Swapchain.getImages, Swapchain.getImageViews,
      Swapchain.getFramebuffers, hi, hv, hviews, hfbs, hvne]

/-- Claim C22 (the code departs from the claim).  On the object that `Swapchain::create`
returns, with a driver that reports two swapchain images, `getImageViews` is called first
and `getImages` second.  The first call yields an empty view list (it sizes the views by
`m_images`, which nobody has filled yet), the second one yields the two images: the
lists differ in length.  After the two calls the object itself holds two images and no
view. -/
theorem Swapchain.getImageViews_before_getImages :
    (Swapchain.create sampleDriver sampleUninit 7 0 1).outcome = .ok sampleCreated
      ∧ Swapchain.yields sampleObjectsDriver sampleCreated [.getImageViews, .getImages]
          = .ok [(.getImageViews, []), (.getImages, [31, 32])]
      ∧ ([] : List Nat).length ≠ [31, 32].length
      ∧ ((Swapchain.getImageViews sampleObjectsDriver sampleCreated).map
          (fun r => ((Swapchain.getImages sampleObjectsDriver r.1).1.m_images.length,
            (Swapchain.getImages sampleObjectsDriver r.1).1.m_imageViews.length)))
          = .ok (2, 0) := by
  decide

/-! ## Teardown order -/

/-- In a sequence sorted by rank, a call of smaller rank stands before a call of greater
rank. -/
theorem lt_of_rank_lt (calls : List TeardownCall)
    (hsorted : calls.Pairwise (fun a b => a.rank ≤ b.rank)) (i j : Nat)
    (a b : TeardownCall) (hi : calls[i]? = some a) (hj : calls[j]? = some b)
    (hrank : a.rank < b.rank) : i < j := by
  rw [List.pairwise_iff_getElem] at hsorted
  obtain ⟨hil, hia⟩ := List.getElem?_eq_some.mp hi
  obtain ⟨hjl, hjb⟩ := List.getElem?_eq_some.mp hj
  by_contra hnot
  rcases Nat.lt_or_eq_of_le (Nat.le_of_not_lt hnot) with hlt | heq
  · have := hsorted j i hjl hil hlt
    rw [hia, hjb] at this
    omega
  · subst heq
    rw [hia] at hjb
    subst hjb
    omega

theorem pairwise_rank_append (front back : List TeardownCall)
    (hfront : ∀ a ∈ front, a.rank = 0)
    (hback : back.Pairwise (fun a b => a.rank ≤ b.rank)) :
    (front ++ back).Pairwise (fun a b => a.rank ≤ b.rank) := by
  rw [List.pairwise_append]
  refine ⟨?_, hback, ?_⟩
  · apply List.pairwise_of_forall_mem_list
    intro a ha b hb
    rw [hfront a ha]
    exact Nat.zero_le _
  · intro a ha b _
    rw [hfront a ha]
    exact Nat.zero_le _

theorem pairwise_rank_destroyRest (ctx : TeardownContext) :
    (destroyRest ctx).Pairwise (fun a b => a.rank ≤ b.rank) := by
  simp [destroyRest, TeardownCall.rank]

theorem rank_destroyFramebuffersAndViews (ctx : TeardownContext) :
    ∀ a ∈ destroyFramebuffersAndViews ctx, a.rank = 0 := by
  intro a ha
  simp only [destroyFramebuffersAndViews, List.mem_flatMap, List.mem_range, List.mem_cons,
    List.mem_singleton, List.not_mem_nil, or_false] at ha
  obtain ⟨i, _, rfl | rfl⟩ := ha <;> rfl

/-- The teardown of 001_triangle is its rank-0 calls followed by the common ending. -/
theorem Sample001Triangle.triangleTeardown_split (ctx : TeardownContext) :
    ∃ front, Sample001Triangle.teardown ctx = front ++ destroyRest ctx
      ∧ (∀ a ∈ front, a.rank = 0)
      ∧ (∀ a ∈ destroyFramebuffersAndViews ctx, a ∈ front)
      ∧ (TeardownCall.vkDestroyPipeline ctx.device ctx.pipeline ∈ front
        ∧ TeardownCall.vkDestroyPipelineLayout ctx.device ctx.pipelineLayout ∈ front
        ∧ TeardownCall.vkDestroyShaderModule ctx.device ctx.vertexShader ∈ front
        ∧ TeardownCall.vkDestroyShaderModule ctx.device ctx.fragmentShader ∈ front) := by
  refine ⟨[ .vkDeviceWaitIdle ctx.device, .vkDestroyPipeline ctx.device ctx.pipeline,
      .vkDestroyPipelineLayout ctx.device ctx.pipelineLayout,
      .vkDestroyShaderModule ctx.device ctx.vertexShader,
      .vkDestroyShaderModule ctx.device ctx.fragmentShader ]
    ++ destroyFramebuffersAndViews ctx, rfl, ?_, ?_, by simp⟩
  · intro a ha
    rcases List.mem_append.mp ha with h | h
    · simp only [List.mem_cons, List.mem_singleton, List.not_mem_nil, or_false] at h
      rcases h with rfl | rfl | rfl | rfl | rfl <;> rfl
    · exact rank_destroyFramebuffersAndViews ctx a h
  · intro a ha
    exact List.mem_append_right _ ha

/-- The teardown of 003_restructure is its rank-0 calls followed by the common ending. -/
theorem Sample003Restructure.restructureTeardown_split (ctx : TeardownContext) :
    ∃ front, Sample003Restructure.teardown ctx = front ++ destroyRest ctx
      ∧ (∀ a ∈ front, a.rank = 0)
      ∧ (∀ a ∈ destroyFramebuffersAndViews ctx, a ∈ front)
      ∧ (TeardownCall.vkDestroyPipeline ctx.device ctx.pipeline ∈ front
        ∧ TeardownCall.vkDestroyPipelineLayout ctx.device ctx.pipelineLayout ∈ front
        ∧ TeardownCall.vkDestroyShaderModule ctx.device ctx.vertexShader ∈ front
        ∧ TeardownCall.vkDestroyShaderModule ctx.device ctx.fragmentShader ∈ front) := by
  refine ⟨[ TeardownCall.vkDeviceWaitIdle ctx.device ] ++ (uniquePtrReset ctx.vertexBuffer).1
    ++ [ .vkDestroyPipeline ctx.device ctx.pipeline,
      .vkDestroyPipelineLayout ctx.device ctx.pipelineLayout,
      .vkDestroyShaderModule ctx.device ctx.vertexShader,
      .vkDestroyShaderModule ctx.device ctx.fragmentShader ]
    ++ destroyFramebuffersAndViews ctx, ?_, ?_, ?_, by simp⟩
  · unfold Sample003Restructure.teardown
    cases ctx.vertexBuffer <;> simp [uniquePtrReset]
  · intro a ha
    rcases List.mem_append.mp ha with h | h
    · rcases List.mem_append.mp h with h | h
      · rcases List.mem_append.mp h with h | h
        · simp only [List.mem_singleton] at h
          subst h
          rfl
        · cases hvb : ctx.vertexBuffer with
          | none => simp [hvb, uniquePtrReset] at h
          | some b =>
            simp only [hvb, uniquePtrReset, Buffer.destroy, List.mem_cons,
              List.mem_singleton, List.not_mem_nil, or_false] at h
            rcases h with rfl | rfl <;> rfl
      · simp only [List.mem_cons, List.mem_singleton, List.not_mem_nil, or_false] at h
        rcases h with rfl | rfl | rfl | rfl <;> rfl
    · exact rank_destroyFramebuffersAndViews ctx a h
  · intro a ha
    exact List.mem_append_right _ ha

/-- A sequence that is rank-0 calls followed by the common ending, and that holds the
calls of the framebuffer and image-view loop and the destruction of pipeline, pipeline
layout and shader modules, has the destruction order. -/
theorem teardownOrdered_of_split (ctx : TeardownContext) (front : List TeardownCall)
    (hfront : ∀ a ∈ front, a.rank = 0)
    (hloop : ∀ a ∈ destroyFramebuffersAndViews ctx, a ∈ front)
    (hobjects : TeardownCall.vkDestroyPipeline ctx.device ctx.pipeline ∈ front
      ∧ TeardownCall.vkDestroyPipelineLayout ctx.device ctx.pipelineLayout ∈ front
      ∧ TeardownCall.vkDestroyShaderModule ctx.device ctx.vertexShader ∈ front
      ∧ TeardownCall.vkDestroyShaderModule ctx.device ctx.fragmentShader ∈ front) :
    TeardownOrdered ctx (front ++ destroyRest ctx) := by
  have hsorted := pairwise_rank_append front (destroyRest ctx) hfront
    (pairwise_rank_destroyRest ctx)
  refine ⟨?_, ?_, ?_, ?_, ?_, ?_, ?_⟩
  · intro i j x hi hx hj
    refine lt_of_rank_lt _ hsorted i j x _ hi hj ?_
    cases x <;> simp [TeardownCall.isFramebufferOrView] at hx <;> simp [TeardownCall.rank]
  · intro i j hi hj
    exact lt_of_rank_lt _ hsorted i j _ _ hi hj (by simp [TeardownCall.rank])
  · intro i j hi hj
    exact lt_of_rank_lt _ hsorted i j _ _ hi hj (by simp [TeardownCall.rank])
  · intro i j x hi hx hj
    refine lt_of_rank_lt _ hsorted i j x _ hi hj ?_
    cases x <;> simp [TeardownCall.isDeviceObject] at hx <;> simp [TeardownCall.rank]
  · refine ⟨?_, ?_, ?_, ?_⟩ <;>
      exact List.mem_append_right _ (by simp [destroyRest])
  · intro i hi
    constructor
    · apply List.mem_append_left
      apply hloop
      simp only [destroyFramebuffersAndViews, List.mem_flatMap, List.mem_range]
      exact ⟨i, hi, by simp⟩
    · apply List.mem_append_left
      apply hloop
      simp only [destroyFramebuffersAndViews, List.mem_flatMap, List.mem_range]
      exact ⟨i, hi, by simp⟩
  · obtain ⟨h1, h2, h3, h4⟩ := hobjects
    refine ⟨List.mem_append_left _ h1, List.mem_append_left _ h2, List.mem_append_left _ h3,
      List.mem_append_left _ h4, ?_, ?_, ?_, ?_⟩ <;>
      exact List.mem_append_right _ (by simp [destroyRest])

/-- With a vertex buffer owned, the teardown of 003_restructure destroys the buffer as
its second call and frees the memory as its third. -/
theorem Sample003Restructure.teardown_buffer_calls (ctx : TeardownContext) (b : Buffer)
    (hb : ctx.vertexBuffer = some b) :
    (Sample003Restructure.teardown ctx)[1]?
        = some (.vkDestroyBuffer b.m_device b.buffer)
      ∧ (Sample003Restructure.teardown ctx)[2]?
        = some (.vkFreeMemory b.m_device b.memory) := by
  unfold Sample003Restructure.teardown
  simp [hb, uniquePtrReset, Buffer.destroy]

theorem nodup_destroyFramebuffersAndViews (ctx : TeardownContext)
    (hfb : ctx.framebuffers.Nodup) (hviews : ctx.swapchainImageViews.Nodup)
    (hlen1 : ctx.framebuffers.length = ctx.swapchainImages.length)
    (hlen2 : ctx.swapchainImageViews.length = ctx.swapchainImages.length) :
    (destroyFramebuffersAndViews ctx).Nodup := by
  unfold destroyFramebuffersAndViews
  rw [List.nodup_flatMap]
  constructor
  · intro i _
    simp
  · refine List.Pairwise.imp_of_mem ?_ (List.nodup_range ctx.swapchainImages.length)
    intro a b ha hb hab
    rw [List.mem_range] at ha hb
    intro x hx1 hx2
    simp only [List.mem_cons, List.mem_singleton, List.not_mem_nil, or_false] at hx1 hx2
    rcases hx1 with rfl | rfl
    · rcases hx2 with h | h
      · injection h with _ h
        exact hab (List.getElem?_inj (by omega) hfb h)
      · cases h
    · rcases hx2 with h | h
      · cases h
      · injection h with _ h
        exact hab (List.getElem?_inj (by omega) hviews h)

theorem nodup_destroyRest (ctx : TeardownContext)
    (hsem : ctx.imageWaitSemaphore ≠ ctx.presentWaitSemaphore) :
    (destroyRest ctx).Nodup := by
  simp [destroyRest, hsem]

theorem Sample001Triangle.triangleTeardown_nodup (ctx : TeardownContext)
    (hfb : ctx.framebuffers.Nodup) (hviews : ctx.swapchainImageViews.Nodup)
    (hlen1 : ctx.framebuffers.length = ctx.swapchainImages.length)
    (hlen2 : ctx.swapchainImageViews.length = ctx.swapchainImages.length)
    (hshader : ctx.vertexShader ≠ ctx.fragmentShader)
    (hsem : ctx.imageWaitSemaphore ≠ ctx.presentWaitSemaphore) :
    (Sample001Triangle.teardown ctx).Nodup := by
  unfold Sample001Triangle.teardown
  rw [List.nodup_append, List.nodup_append]
  refine ⟨⟨by simp [hshader],
    nodup_destroyFramebuffersAndViews ctx hfb hviews hlen1 hlen2, ?_⟩,
    nodup_destroyRest ctx hsem, ?_⟩
  · intro x hx1 hx2
    simp only [destroyFramebuffersAndViews, List.mem_flatMap, List.mem_range, List.mem_cons,
      List.mem_singleton, List.not_mem_nil, or_false] at hx1 hx2
    obtain ⟨i, _, h | h⟩ := hx2 <;> subst h <;> simp at hx1
  · intro x hx1 hx2
    simp only [destroyRest, List.mem_cons, List.mem_singleton, List.not_mem_nil,
      or_false] at hx2
    simp only [destroyFramebuffersAndViews, List.mem_append, List.mem_flatMap, List.mem_range,
      List.mem_cons, List.mem_singleton, List.not_mem_nil, or_false] at hx1
    rcases hx2 with rfl | rfl | rfl | rfl | rfl | rfl | rfl | rfl | rfl | rfl <;>
      simp at hx1

theorem Sample003Restructure.restructureTeardown_nodup (ctx : TeardownContext)
    (hfb : ctx.framebuffers.Nodup) (hviews : ctx.swapchainImageViews.Nodup)
    (hlen1 : ctx.framebuffers.length = ctx.swapchainImages.length)
    (hlen2 : ctx.swapchainImageViews.length = ctx.swapchainImages.length)
    (hshader : ctx.vertexShader ≠ ctx.fragmentShader)
    (hsem : ctx.imageWaitSemaphore ≠ ctx.presentWaitSemaphore) :
    (Sample003Restructure.teardown ctx).Nodup := by
  have h001 := Sample001Triangle.triangleTeardown_nodup ctx hfb hviews hlen1 hlen2 hshader hsem
  unfold Sample001Triangle.teardown at h001
  unfold Sample003Restructure.teardown
  cases hvb : ctx.vertexBuffer with
  | none =>
    simpa [uniquePtrReset] using h001
  | some b =>
    simp only [uniquePtrReset, Buffer.destroy, List.append_nil]
    have hsplit : [TeardownCall.vkDeviceWaitIdle ctx.device]
          ++ [TeardownCall.vkDestroyBuffer b.m_device b.buffer,
              TeardownCall.vkFreeMemory b.m_device b.memory]
          ++ [ TeardownCall.vkDestroyPipeline ctx.device ctx.pipeline,
               .vkDestroyPipelineLayout ctx.device ctx.pipelineLayout,
               .vkDestroyShaderModule ctx.device ctx.vertexShader,
               .vkDestroyShaderModule ctx.device ctx.fragmentShader ]
          ++ destroyFramebuffersAndViews ctx ++ destroyRest ctx
        = TeardownCall.vkDeviceWaitIdle ctx.device
          :: TeardownCall.vkDestroyBuffer b.m_device b.buffer
          :: TeardownCall.vkFreeMemory b.m_device b.memory
          :: ([ TeardownCall.vkDestroyPipeline ctx.device ctx.pipeline,
               .vkDestroyPipelineLayout ctx.device ctx.pipelineLayout,
               .vkDestroyShaderModule ctx.device ctx.vertexShader,
               .vkDestroyShaderModule ctx.device ctx.fragmentShader ]
          ++ destroyFramebuffersAndViews ctx ++ destroyRest ctx) := by
      simp
    rw [hsplit]
    have htail : ([ TeardownCall.vkDestroyPipeline ctx.device ctx.pipeline,
               .vkDestroyPipelineLayout ctx.device ctx.pipelineLayout,
               .vkDestroyShaderModule ctx.device ctx.vertexShader,
               .vkDestroyShaderModule ctx.device ctx.fragmentShader ]
          ++ destroyFramebuffersAndViews ctx ++ destroyRest ctx).Nodup := by
      have : ([TeardownCall.vkDeviceWaitIdle ctx.device,
          TeardownCall.vkDestroyPipeline ctx.device ctx.pipeline,
          .vkDestroyPipelineLayout ctx.device ctx.pipelineLayout,
          .vkDestroyShaderModule ctx.device ctx.vertexShader,
          .vkDestroyShaderModule ctx.device ctx.fragmentShader ]
          ++ destroyFramebuffersAndViews ctx ++ destroyRest ctx).Nodup := h001
      exact (List.nodup_cons.mp this).2
    have hwait : TeardownCall.vkDeviceWaitIdle ctx.device ∉
        ([ TeardownCall.vkDestroyPipeline ctx.device ctx.pipeline,
               .vkDestroyPipelineLayout ctx.device ctx.pipelineLayout,
               .vkDestroyShaderModule ctx.device ctx.vertexShader,
               .vkDestroyShaderModule ctx.device ctx.fragmentShader ]
          ++ destroyFramebuffersAndViews ctx ++ destroyRest ctx) := by
      have : ([TeardownCall.vkDeviceWaitIdle ctx.device,
          TeardownCall.vkDestroyPipeline ctx.device ctx.pipeline,
          .vkDestroyPipelineLayout ctx.device ctx.pipelineLayout,
          .vkDestroyShaderModule ctx.device ctx.vertexShader,
          .vkDestroyShaderModule ctx.device ctx.fragmentShader ]
          ++ destroyFramebuffersAndViews ctx ++ destroyRest ctx).Nodup := h001
      exact (List.nodup_cons.mp this).1
    have hbuf : ∀ y, (y = TeardownCall.vkDestroyBuffer b.m_device b.buffer
          ∨ y = TeardownCall.vkFreeMemory b.m_device b.memory) →
        y ∉ ([ TeardownCall.vkDestroyPipeline ctx.device ctx.pipeline,
               .vkDestroyPipelineLayout ctx.device ctx.pipelineLayout,
               .vkDestroyShaderModule ctx.device ctx.vertexShader,
               .vkDestroyShaderModule ctx.device ctx.fragmentShader ]
          ++ destroyFramebuffersAndViews ctx ++ destroyRest ctx) := by
      intro y hy hmem
      simp only [destroyFramebuffersAndViews, destroyRest, List.mem_append, List.mem_flatMap,
        List.mem_range, List.mem_cons, List.mem_singleton, List.not_mem_nil,
        or_false] at hmem
      rcases hy with rfl | rfl <;> simp at hmem
    rw [List.nodup_cons, List.nodup_cons, List.nodup_cons]
    refine ⟨?_, ?_, ?_, htail⟩
    · intro hmem
      rcases List.mem_cons.mp hmem with h | hmem
      · cases h
      · rcases List.mem_cons.mp hmem with h | hmem
        · cases h
        · exact hwait hmem
    · intro hmem
      rcases List.mem_cons.mp hmem with h | hmem
      · cases h
      · exact hbuf _ (Or.inl rfl) hmem
    · exact hbuf _ (Or.inr rfl)

/-- Claim C23.  In the teardown sequences of `main` in 001_triangle and in
003_restructure, for any number of swapchain images: every framebuffer and every image
view is destroyed, and before the swapchain; the swapchain is destroyed before the
surface, the device before the instance; every object created from the device (pipeline,
pipeline layout, both shader modules, render pass, both semaphores, swapchain, command
pool, framebuffers, image views) is destroyed, and before the device.  In 003_restructure
with a vertex buffer owned, the buffer is destroyed by the second call and its memory
freed by the third, both before the device is destroyed.  When the handles are those of
distinct objects (the framebuffers pairwise distinct, the image views pairwise distinct,
one of each per swapchain image, two different shader modules, two different
semaphores), no call occurs twice in either sequence, so no object is destroyed twice;
in 003_restructure the destructor of `vertexBuffer` that runs at the end of `main`
finds the pointer empty after `reset()`. -/
theorem teardown_order (ctx : TeardownContext) :
    TeardownOrdered ctx (Sample001Triangle.teardown ctx)
      ∧ TeardownOrdered ctx (Sample003Restructure.teardown ctx)
      ∧ (∀ b : Buffer, ctx.vertexBuffer = some b →
          (Sample003Restructure.teardown ctx)[1]?
              = some (.vkDestroyBuffer b.m_device b.buffer)
            ∧ (Sample003Restructure.teardown ctx)[2]?
              = some (.vkFreeMemory b.m_device b.memory)
            ∧ (∃ k : Nat, (Sample003Restructure.teardown ctx)[k]?
                = some (TeardownCall.vkDestroyDevice ctx.device))
            ∧ (∀ k : Nat, (Sample003Restructure.teardown ctx)[k]?
                = some (TeardownCall.vkDestroyDevice ctx.device) → 2 < k))
      ∧ (ctx.framebuffers.Nodup → ctx.swapchainImageViews.Nodup →
          ctx.framebuffers.length = ctx.swapchainImages.length →
          ctx.swapchainImageViews.length = ctx.swapchainImages.length →
          ctx.vertexShader ≠ ctx.fragmentShader →
          ctx.imageWaitSemaphore ≠ ctx.presentWaitSemaphore →
          (Sample001Triangle.teardown ctx).Nodup
            ∧ (Sample003Restructure.teardown ctx).Nodup) := by
  have h003 : TeardownOrdered ctx (Sample003Restructure.teardown ctx) := by
    obtain ⟨front, heq, hfront, hloop, hobjects⟩ :=
      Sample003Restructure.restructureTeardown_split ctx
    rw [heq]
    exact teardownOrdered_of_split ctx front hfront hloop hobjects
  refine ⟨?_, h003, ?_, ?_⟩
  · obtain ⟨front, heq, hfront, hloop, hobjects⟩ :=
      Sample001Triangle.triangleTeardown_split ctx
    rw [heq]
    exact teardownOrdered_of_split ctx front hfront hloop hobjects
  · intro b hb
    obtain ⟨h1, h2⟩ := Sample003Restructure.teardown_buffer_calls ctx b hb
    obtain ⟨_, _, _, hdev, ⟨_, _, hmem, _⟩, _, _⟩ := h003
    refine ⟨h1, h2, ?_, ?_⟩
    · obtain ⟨k, hk, hget⟩ := List.mem_iff_getElem.mp hmem
      exact ⟨k, (List.getElem?_eq_getElem hk).trans (congrArg some hget)⟩
    · intro k hk
      exact hdev 2 k _ h2 rfl hk
  · intro hfb hviews hlen1 hlen2 hshader hsem
    exact ⟨Sample001Triangle.triangleTeardown_nodup ctx hfb hviews hlen1 hlen2 hshader hsem,
      Sample003Restructure.restructureTeardown_nodup ctx hfb hviews hlen1 hlen2 hshader hsem⟩

/-- The C23 statement at a teardown with two swapchain images and a vertex buffer: the
buffer 21 is destroyed by the second call, its memory 22 freed by the third, and no call
occurs twice. -/
theorem teardown_order_witness :
    (sampleTeardownContext.vertexBuffer = some ⟨21, 22, 3⟩
        ∧ sampleTeardownContext.framebuffers.Nodup
        ∧ sampleTeardownContext.swapchainImageViews.Nodup
        ∧ sampleTeardownContext.framebuffers.length
            = sampleTeardownContext.swapchainImages.length
        ∧ sampleTeardownContext.swapchainImageViews.length
            = sampleTeardownContext.swapchainImages.length
        ∧ sampleTeardownContext.vertexShader ≠ sampleTeardownContext.fragmentShader
        ∧ sampleTeardownContext.imageWaitSemaphore
            ≠ sampleTeardownContext.presentWaitSemaphore)
      ∧ (Sample003Restructure.teardown sampleTeardownContext)[1]?
          = some (.vkDestroyBuffer 3 21)
      ∧ (Sample003Restructure.teardown sampleTeardownContext)[2]?
          = some (.vkFreeMemory 3 22)
      ∧ (Sample003Restructure.teardown sampleTeardownContext).Nodup :=
  ⟨by decide,
    ((teardown_order sampleTeardownContext).2.2.1 ⟨21, 22, 3⟩ (by decide)).1,
    ((teardown_order sampleTeardownContext).2.2.1 ⟨21, 22, 3⟩ (by decide)).2.1,
    ((teardown_order sampleTeardownContext).2.2.2 (by decide) (by decide) (by decide)
      (by decide) (by decide) (by decide)).2⟩

/-! ## Required instance extensions -/

theorem strcmpChars_eq_zero_iff (as bs : List Char) : strcmpChars as bs = 0 ↔ as = bs := by
  induction as generalizing bs with
  | nil => cases bs <;> simp [strcmpChars]
  | cons a as ih =>
    cases bs with
    | nil => simp [strcmpChars]
    | cons b bs =>
      unfold strcmpChars
      split_ifs with h1 h2
      · have hne : a ≠ b := by
          intro h
          rw [h] at h1
          omega
        simp [hne]
      · have hne : a ≠ b := by
          intro h
          rw [h] at h2
          omega
        simp [hne]
      · have hab : a = b := by
          apply Char.ext
          apply UInt32.ext
          have : a.toNat = b.toNat := by omega
          exact this
        rw [ih bs]
        simp [hab]

theorem strcmp_eq_zero_iff (a b : String) : strcmp a b = 0 ↔ a = b := by
  unfold strcmp
  rw [strcmpChars_eq_zero_iff, String.toList_inj]

theorem strcmp_ne_zero_iff (a b : String) : strcmp a b ≠ 0 ↔ a ≠ b :=
  not_congr (strcmp_eq_zero_iff a b)

/-- What the check of 000_clear and 001_triangle computes: `main` returns `-1` exactly
when some entry of `extensions` equals every supported name (in particular when no
instance extension is supported and `extensions` is not empty). -/
theorem Sample000Clear.requiredExtensionsCheck_eq_some_iff (supported required : List String) :
    Sample000Clear.requiredExtensionsCheck supported required = some (-1)
      ↔ ∃ e ∈ required, ∀ item ∈ supported, item = e := by
  induction required with
  | nil => simp [Sample000Clear.requiredExtensionsCheck]
  | cons e rest ih =>
    unfold Sample000Clear.requiredExtensionsCheck
    by_cases h : ∀ item ∈ supported, item = e
    · have hnone : (supported.find? (fun item => strcmp item e != 0)).isNone = true := by
        rw [Option.isNone_iff_eq_none, List.find?_eq_none]
        intro item hitem
        have hz := (strcmp_eq_zero_iff item e).mpr (h item hitem)
        simp [hz]
      simp only [hnone, if_true, true_iff]
      exact ⟨e, List.mem_cons_self e rest, h⟩
    · have hsome : (supported.find? (fun item => strcmp item e != 0)).isNone = false := by
        rw [Bool.eq_false_iff]
        intro hn
        rw [Option.isNone_iff_eq_none, List.find?_eq_none] at hn
        apply h
        intro item hitem
        have := hn item hitem
        by_contra hne
        exact this (by simpa using (strcmp_ne_zero_iff item e).mpr hne)
      simp only [hsome, Bool.false_eq_true, if_false, ih, List.mem_cons]
      constructor
      · rintro ⟨x, hx, hall⟩
        exact ⟨x, Or.inr hx, hall⟩
      · rintro ⟨x, hx | hx, hall⟩
        · subst hx
          exact absurd hall h
        · exact ⟨x, hx, hall⟩

/-- Claim C24 (the code departs from the claim).  With the supported instance extensions
`VK_KHR_surface` and `VK_KHR_display` and the required ones `VK_KHR_surface` and
`VK_KHR_xcb_surface`, the second required name is absent, yet the check lets `main` go
on.  With `VK_KHR_surface` as the only supported and the only required extension,
nothing is absent, yet `main` returns `-1`.  The lambda handed to `find_if` returns
`strcmp(...)` itself, which is non-zero for names that differ, so the search looks for a
supported name different from the required one. -/
theorem Sample000Clear.requiredExtensionsCheck_inverted :
    ("VK_KHR_xcb_surface" ∉ ["VK_KHR_surface", "VK_KHR_display"]
        ∧ Sample000Clear.requiredExtensionsCheck ["VK_KHR_surface", "VK_KHR_display"]
            ["VK_KHR_surface", "VK_KHR_xcb_surface"] = none)
      ∧ ((∀ e ∈ ["VK_KHR_surface"], e ∈ ["VK_KHR_surface"])
        ∧ Sample000Clear.requiredExtensionsCheck ["VK_KHR_surface"] ["VK_KHR_surface"]
            = some (-1)) := by
  decide

/-! ## Creation failures during the bootstrap -/

/-- What the code does guarantee in 000_clear: the frame loop is entered only if the six
creation calls whose status is examined (instance, surface, device, command pool, command
buffer, swapchain) all reported `VK_SUCCESS`. -/
theorem Sample000Clear.bootstrap_frameLoop_checked (d : BootstrapDriver)
    (h : (Sample000Clear.bootstrap d).ending = .frameLoop) :
    d.instanceResult = VK_SUCCESS ∧ d.surfaceResult = VK_SUCCESS
      ∧ d.deviceResult = VK_SUCCESS ∧ d.commandPoolResult = VK_SUCCESS
      ∧ d.commandBufferResult = VK_SUCCESS ∧ d.swapchainResult = VK_SUCCESS := by
  unfold Sample000Clear.bootstrap at h
  split at h
  · cases h
  · by_cases h1 : d.instanceResult = VK_SUCCESS
    · by_cases h2 : d.surfaceResult = VK_SUCCESS
      · by_cases h3 : d.deviceResult = VK_SUCCESS
        · by_cases h4 : d.commandPoolResult = VK_SUCCESS
          · by_cases h5 : d.commandBufferResult = VK_SUCCESS
            · by_cases h6 : d.swapchainResult = VK_SUCCESS
              · exact ⟨h1, h2, h3, h4, h5, h6⟩
              · exfalso
                simp only [h1, h2, h3, h4, h5, h6, ne_eq, not_true_eq_false, not_false_eq_true,
                  if_true, if_false] at h
                split_ifs at h
                split at h <;> cases h
            · simp [h1, h2, h3, h4, h5] at h
          · simp [h1, h2, h3, h4] at h
        · simp [h1, h2, h3] at h
      · simp [h1, h2] at h
    · simp [h1] at h

/-- Claim C25 (the code departs from the claim).  Every check passes and every creation
call succeeds, except that in 000_clear the creation of the first semaphore reports
`VK_ERROR_OUT_OF_HOST_MEMORY` (-1), and in 001_triangle the creation of the fragment
shader module does.  In both cases `main` does not return: it issues the creation calls
that follow and enters the frame loop.  The statuses of the two semaphores, of the
fragment shader module, of the pipeline layout and of the graphics pipeline are stored
in `result` and never examined. -/
theorem bootstrap_goes_on_after_unchecked_failure :
    Sample000Clear.bootstrap { sampleBootstrapDriver with imageWaitSemaphoreResult := -1 }
        = { creations := [ .vkCreateInstance, .glfwCreateWindowSurface, .vkCreateDevice,
              .vkCreateCommandPool, .vkAllocateCommandBuffers, .vkCreateSwapchainKHR,
              .vkCreateSemaphore "imageWaitSemaphore",
              .vkCreateSemaphore "presentWaitSemaphore" ]
            ending := .frameLoop }
      ∧ Sample001Triangle.bootstrap { sampleBootstrapDriver with fragmentShaderResult := -1 }
        = { creations := [ .vkCreateInstance, .glfwCreateWindowSurface, .vkCreateDevice,
              .vkCreateCommandPool, .vkAllocateCommandBuffers, .vkCreateSwapchainKHR,
              .vkCreateSemaphore "imageWaitSemaphore",
              .vkCreateSemaphore "presentWaitSemaphore", .vkCreateRenderPass,
              .vkCreateImageView 0, .vkCreateFramebuffer 0, .vkCreateImageView 1,
              .vkCreateFramebuffer 1, .vkCreateShaderModule "vertexShader",
              .vkCreateShaderModule "fragmentShader", .vkCreatePipelineLayout,
              .vkCreateGraphicsPipelines ]
            ending := .frameLoop } := by
  decide

/-! ## The draw call of 003_restructure -/

/-- Claim C26 (the code departs from the claim).  With the vertex data of `main`, the
render-pass recording of 003_restructure for the acquired image index 1 is: begin of the
render pass on the framebuffer of image 1, bind pipeline, bind vertex buffer, one draw,
end of the render pass.  The vertex buffer holds 144 bytes, that is 6 vertices of stride
24, but the draw is recorded with vertex count 36: `vertices.size()` counts floats, not
vertices. -/
theorem Sample003Restructure.draw_counts_floats :
    Sample003Restructure.recordCommands (Sample003Restructure.mainContext sampleContext) 1
        = [ .vkCmdBeginRenderPass 3
              { renderPass := 8, framebuffer := some 42, renderAreaOffset := (0, 0)
                renderAreaExtent := ⟨800, 800⟩, clearValueCount := 1
                pClearValues := [[0, 0, 0, 1]] } 0,
            .vkCmdBindPipeline 3 0 10,
            .vkCmdBindVertexBuffers 3 0 1 [21] [0],
            .vkCmdDraw 3 36 1 0 0,
            .vkCmdEndRenderPass 3 ]
      ∧ Sample003Restructure.vertexBufferSizeInBytes = 144
      ∧ Sample003Restructure.vertexBindingStride = 24
      ∧ Sample003Restructure.vertexBufferSizeInBytes
          / Sample003Restructure.vertexBindingStride = 6
      ∧ (36 : Nat) ≠ 6 := by
  decide

/-! ## The timeout of the acquire -/

/-- Claim C27 (the code departs from the claim).  The acquire of each frame loop passes
`UINT_MAX` as the timeout, that is `2^32 - 1` nanoseconds (about 4.3 seconds), not the
largest value `2^64 - 1` of the 64-bit parameter. -/
theorem acquire_timeout_is_UINT_MAX :
    (Sample000Clear.frame sampleContext 0)[1]?
        = some (.vkAcquireNextImageKHR 1 9 4294967295 6 0 0)
      ∧ (Sample003Restructure.frame sampleContext 0)[1]?
        = some (.vkAcquireNextImageKHR 1 9 4294967295 6 0 0)
      ∧ UINT_MAX = 2 ^ 32 - 1
      ∧ UINT_MAX ≠ 2 ^ 64 - 1 := by
  decide

/-! ## The clear path of 000_clear -/

/-- Claim C28.  For every image index the acquire may store, the recording of 000_clear
consists of exactly three commands, in this order: a pipeline barrier with one image
barrier from `UNDEFINED` to `TRANSFER_DST_OPTIMAL`; a clear of the image, declared in
layout `TRANSFER_DST_OPTIMAL`, to the colour (1, 0, 1, 1); a pipeline barrier with one
image barrier from `TRANSFER_DST_OPTIMAL` to `PRESENT_SRC_KHR`.  All three name the
element `swapchainImages[imageIndex]`, which exists when the index is below the number of
images.  The old layout of the second barrier is the new layout of the first; both
pipeline barriers use the all-commands stage mask for source and destination; in both
image barriers the source and the destination queue family are the same, the graphics
family. -/
theorem Sample000Clear.recordCommands_clear_path (ctx : FrameContext) (imageIndex : Nat) :
    Sample000Clear.recordCommands ctx imageIndex
        = [ .vkCmdPipelineBarrier ctx.cmd VK_PIPELINE_STAGE_ALL_COMMANDS_BIT
              VK_PIPELINE_STAGE_ALL_COMMANDS_BIT
              [{ srcAccessMask := 0, dstAccessMask := 0
                 oldLayout := VK_IMAGE_LAYOUT_UNDEFINED
                 newLayout := VK_IMAGE_LAYOUT_TRANSFER_DST_OPTIMAL
                 srcQueueFamilyIndex := toUInt32 ctx.graphicsFamily
                 dstQueueFamilyIndex := toUInt32 ctx.graphicsFamily
                 image := ctx.swapchainImages[imageIndex]?
                 subresourceRange := ⟨VK_IMAGE_ASPECT_COLOR_BIT, 0, 1, 0, 1⟩ }],
            .vkCmdClearColorImage ctx.cmd ctx.swapchainImages[imageIndex]?
              VK_IMAGE_LAYOUT_TRANSFER_DST_OPTIMAL [1, 0, 1, 1]
              [⟨VK_IMAGE_ASPECT_COLOR_BIT, 0, 1, 0, 1⟩],
            .vkCmdPipelineBarrier ctx.cmd VK_PIPELINE_STAGE_ALL_COMMANDS_BIT
              VK_PIPELINE_STAGE_ALL_COMMANDS_BIT
              [{ srcAccessMask := 0, dstAccessMask := 0
                 oldLayout := VK_IMAGE_LAYOUT_TRANSFER_DST_OPTIMAL
                 newLayout := VK_IMAGE_LAYOUT_PRESENT_SRC_KHR
                 srcQueueFamilyIndex := toUInt32 ctx.graphicsFamily
                 dstQueueFamilyIndex := toUInt32 ctx.graphicsFamily
                 image := ctx.swapchainImages[imageIndex]?
                 subresourceRange := ⟨VK_IMAGE_ASPECT_COLOR_BIT, 0, 1, 0, 1⟩ }] ]
      ∧ (Sample000Clear.recordCommands ctx imageIndex).length = 3
      ∧ (∀ h : imageIndex < ctx.swapchainImages.length,
          ctx.swapchainImages[imageIndex]? = some (ctx.swapchainImages.get ⟨imageIndex, h⟩))
      ∧ (Sample000Clear.frame ctx imageIndex =
          [ .glfwPollEvents,
            .vkAcquireNextImageKHR ctx.device ctx.swapchain UINT_MAX ctx.imageWaitSemaphore 0
              imageIndex,
            .vkBeginCommandBuffer ctx.cmd 0 ]
          ++ Sample000Clear.recordCommands ctx imageIndex
          ++ [ .vkEndCommandBuffer ctx.cmd,
               .vkQueueSubmit ctx.graphicsQueue 1 [submitInfo ctx] 0,
               .vkQueuePresentKHR ctx.presentQueue (presentInfo ctx imageIndex),
               .vkDeviceWaitIdle ctx.device ]) := by
  refine ⟨rfl, rfl, ?_, rfl⟩
  intro h
  simp [List.getElem?_eq_getElem h]

/-- The C28 statement at the second image of a swapchain with two images. -/
theorem Sample000Clear.recordCommands_clear_path_witness :
    (1 < sampleContext.swapchainImages.length)
      ∧ sampleContext.swapchainImages[1]? = some 32
      ∧ (Sample000Clear.recordCommands sampleContext 1).length = 3 :=
  ⟨by decide,
    ((Sample000Clear.recordCommands_clear_path sampleContext 1).2.2.1 (by decide)).trans
      (by decide),
    (Sample000Clear.recordCommands_clear_path sampleContext 1).2.1⟩

/-! ## The inline device selection against `PhysicalDevice::select` -/

/-- The inner loop of the inline selection computes the pair that the loop of
`QueueFamilies::select` computes. -/
theorem Sample000Clear.queueFamilyLoop_eq_selectLoop (qs : List QueueFamilyAnswers) (i : Nat)
    (graphicsFamily presentFamily : Int) :
    Sample000Clear.queueFamilyLoop qs i graphicsFamily presentFamily
      = ((QueueFamilies.selectLoop qs i ⟨graphicsFamily, presentFamily⟩).graphics,
         (QueueFamilies.selectLoop qs i ⟨graphicsFamily, presentFamily⟩).present) := by
  induction qs generalizing i graphicsFamily presentFamily with
  | nil => rfl
  | cons q rest ih =>
    simp only [Sample000Clear.queueFamilyLoop, QueueFamilies.selectLoop, ih]
    by_cases h1 : q.queueFlags &&& VK_QUEUE_GRAPHICS_BIT = VK_QUEUE_GRAPHICS_BIT <;>
      by_cases h2 : (q.presentationSupport && q.surfaceSupport) = true <;>
      simp [h1, h2]

/-- Claim C29 (the code departs from the claim; the defect is the one of C6, the missing
`break` in `PhysicalDevice::select`).  Two eligible devices are enumerated,
`sampleDeviceA` first.  The inline selection of 000_clear / 001_triangle stops at the
first one and leaves the family pair (0, 0); `PhysicalDevice::select` with
`QueueFamilies::select` returns the second one and writes the family pair (1, 1). -/
theorem PhysicalDevice.select_differs_from_inline :
    PhysicalDevice.eligible sampleDeviceA = true
      ∧ PhysicalDevice.eligible sampleDeviceB = true
      ∧ Sample000Clear.selectDevice [sampleDeviceA, sampleDeviceB]
          = (some sampleDeviceA, 0, 0)
      ∧ PhysicalDevice.select [sampleDeviceA, sampleDeviceB] ⟨-1, -1⟩
          = (.ok sampleDeviceB, ⟨1, 1⟩)
      ∧ sampleDeviceA ≠ sampleDeviceB
      ∧ ((0 : Int), (0 : Int)) ≠ (1, 1) := by
  decide

/-! ## Soundness of the indices of `QueueFamilies::select` -/

/-- A last match is `-1` or the position of an element that satisfies the test, and it is
`-1` exactly when no element satisfies the test. -/
theorem isLastMatch_sound {α : Type} (p : α → Bool) (xs : List α) (r : Int)
    (h : IsLastMatch p xs r) :
    (r = -1 ∨ ∃ (i : Nat) (x : α), r = (i : Int) ∧ i < xs.length ∧ xs[i]? = some x
        ∧ p x = true)
      ∧ (r = -1 ↔ ∀ x ∈ xs, p x = false) := by
  rcases h with ⟨hnone, hr⟩ | ⟨j, x, hj, hx, _, hr⟩
  · exact ⟨Or.inl hr, fun _ => hnone, fun _ => hr⟩
  · have hjlt : j < xs.length := (List.getElem?_eq_some.mp hj).1
    refine ⟨Or.inr ⟨j, x, hr, hjlt, hj, hx⟩, ?_, ?_⟩
    · intro h1
      omega
    · intro hall
      have := hall x (List.getElem?_mem hj)
      rw [hx] at this
      cases this

/-- The scan depends on the elements only through the answers of the test. -/
theorem scanLast_congr {α β : Type} (p : α → Bool) (q : β → Bool) (xs : List α)
    (ys : List β) (i : Nat) (index : Int) (h : xs.map p = ys.map q) :
    scanLast p xs i index = scanLast q ys i index := by
  induction xs generalizing ys i index with
  | nil =>
    cases ys with
    | nil => rfl
    | cons y ys => simp at h
  | cons x xs ih =>
    cases ys with
    | nil => simp at h
    | cons y ys =>
      simp only [List.map_cons, List.cons.injEq] at h
      simp only [scanLast, h.1]
      exact ih ys _ _ h.2

/-- Claim C30.  For every list of queue families (at most `2^31` of them, so that the
stored counters are exact), each index that `QueueFamilies::select` returns is `-1` or an
index below the length of the list whose family has the capability of that index: the
graphics bit for `graphics`, both the presentation-support answer and the surface-support
answer for `present`.  An index is `-1` exactly when no family of the list has the
capability.  The pair depends on the list only through the two capability answers of
each family, so that equal inputs give equal pairs. -/
theorem QueueFamilies.select_indices_sound (queueFamilies : List QueueFamilyAnswers)
    (hlen : queueFamilies.length ≤ 2147483648) :
    ((QueueFamilies.select queueFamilies).graphics = -1
        ∨ ∃ (i : Nat) (q : QueueFamilyAnswers),
            (QueueFamilies.select queueFamilies).graphics = (i : Int)
              ∧ i < queueFamilies.length ∧ queueFamilies[i]? = some q
              ∧ q.queueFlags &&& VK_QUEUE_GRAPHICS_BIT = VK_QUEUE_GRAPHICS_BIT)
      ∧ ((QueueFamilies.select queueFamilies).present = -1
        ∨ ∃ (i : Nat) (q : QueueFamilyAnswers),
            (QueueFamilies.select queueFamilies).present = (i : Int)
              ∧ i < queueFamilies.length ∧ queueFamilies[i]? = some q
              ∧ q.presentationSupport = true ∧ q.surfaceSupport = true)
      ∧ ((QueueFamilies.select queueFamilies).graphics = -1
          ↔ ∀ q ∈ queueFamilies,
              ¬ (q.queueFlags &&& VK_QUEUE_GRAPHICS_BIT = VK_QUEUE_GRAPHICS_BIT))
      ∧ ((QueueFamilies.select queueFamilies).present = -1
          ↔ ∀ q ∈ queueFamilies,
              ¬ (q.presentationSupport = true ∧ q.surfaceSupport = true))
      ∧ (∀ other : List QueueFamilyAnswers,
          other.map (fun q => (q.queueFlags &&& VK_QUEUE_GRAPHICS_BIT,
              q.presentationSupport, q.surfaceSupport))
            = queueFamilies.map (fun q => (q.queueFlags &&& VK_QUEUE_GRAPHICS_BIT,
              q.presentationSupport, q.surfaceSupport))
          → QueueFamilies.select other = QueueFamilies.select queueFamilies) := by
  obtain ⟨hg, hp⟩ := QueueFamilies.select_isLastMatch queueFamilies hlen
  obtain ⟨hg1, hg2⟩ := isLastMatch_sound _ _ _ hg
  obtain ⟨hp1, hp2⟩ := isLastMatch_sound _ _ _ hp
  refine ⟨?_, ?_, ?_, ?_, ?_⟩
  · rcases hg1 with h | ⟨i, q, h1, h2, h3, h4⟩
    · exact Or.inl h
    · exact Or.inr ⟨i, q, h1, h2, h3, by simpa [QueueFamilies.graphicsCapable] using h4⟩
  · rcases hp1 with h | ⟨i, q, h1, h2, h3, h4⟩
    · exact Or.inl h
    · exact Or.inr ⟨i, q, h1, h2, h3, by simpa [QueueFamilies.presentCapable] using h4⟩
  · rw [hg2]
    constructor
    · intro h q hq
      simpa [QueueFamilies.graphicsCapable] using h q hq
    · intro h q hq
      simpa [QueueFamilies.graphicsCapable] using h q hq
  · rw [hp2]
    constructor
    · intro h q hq
      simpa [QueueFamilies.presentCapable] using h q hq
    · intro h q hq
      simpa [QueueFamilies.presentCapable] using h q hq
  · intro other hmap
    have hgm : other.map QueueFamilies.graphicsCapable
        = queueFamilies.map QueueFamilies.graphicsCapable := by
      have := congrArg (List.map (fun (t : Nat × Bool × Bool) =>
        t.1 == VK_QUEUE_GRAPHICS_BIT)) hmap
      simpa [List.map_map, Function.comp_def, QueueFamilies.graphicsCapable] using this
    have hpm : other.map QueueFamilies.presentCapable
        = queueFamilies.map QueueFamilies.presentCapable := by
      have := congrArg (List.map (fun (t : Nat × Bool × Bool) => t.2.1 && t.2.2)) hmap
      simpa [List.map_map, Function.comp_def, QueueFamilies.presentCapable] using this
    have e1 : (QueueFamilies.select other).graphics
        = (QueueFamilies.select queueFamilies).graphics := by
      unfold QueueFamilies.select
      rw [QueueFamilies.selectLoop_graphics, QueueFamilies.selectLoop_graphics]
      exact scanLast_congr _ _ _ _ _ _ hgm
    have e2 : (QueueFamilies.select other).present
        = (QueueFamilies.select queueFamilies).present := by
      unfold QueueFamilies.select
      rw [QueueFamilies.selectLoop_present, QueueFamilies.selectLoop_present]
      exact scanLast_congr _ _ _ _ _ _ hpm
    cases h1 : QueueFamilies.select other
    cases h2 : QueueFamilies.select queueFamilies
    rw [h1, h2] at e1 e2
    simp only at e1 e2
    rw [e1, e2]

/-- The C30 statement at `sampleFamilies`, where both indices are 1. -/
theorem QueueFamilies.select_indices_sound_witness :
    sampleFamilies.length ≤ 2147483648
      ∧ QueueFamilies.select sampleFamilies = ⟨1, 1⟩
      ∧ ¬ ((QueueFamilies.select sampleFamilies).graphics = -1)
      ∧ (∀ other : List QueueFamilyAnswers,
          other.map (fun q => (q.queueFlags &&& VK_QUEUE_GRAPHICS_BIT,
              q.presentationSupport, q.surfaceSupport))
            = sampleFamilies.map (fun q => (q.queueFlags &&& VK_QUEUE_GRAPHICS_BIT,
              q.presentationSupport, q.surfaceSupport))
          → QueueFamilies.select other = QueueFamilies.select sampleFamilies) :=
  ⟨by decide, by decide, by decide,
    (QueueFamilies.select_indices_sound sampleFamilies (by decide)).2.2.2.2⟩

end GfxSamples
